import Mathlib

/-!
Verification of the Tic-Tac-Toe solver core (minimax with alpha-beta pruning
and the move/probability driver) against its specification.

The game logic of `tictactoewithgui.py` is shallowly embedded below: boards
are lists of cells, the Python in-place mutate/recurse/undo pattern is
modelled both functionally (`minimax`, recursing on an updated board value)
and with explicit state threading (`minimaxSt`, which returns the board it
leaves behind); the two are proved to agree.  General recursion is expressed
with an explicit fuel parameter that strictly dominates the number of empty
cells, so every definition is a computable structural recursion.
-/

namespace TicTacToe

/-- A cell of the 3×3 grid: empty, or marked by one of the two sides. -/
inductive Cell where
  | e : Cell
  | x : Cell
  | o : Cell
deriving DecidableEq, Repr

/-- `EMPTY = " "` in the source. -/
def EMPTY : Cell := Cell.e

/-- `HUMAN = "X"` in the source. -/
def HUMAN : Cell := Cell.x

/-- `AI = "O"` in the source: the automated (maximizing) reference side. -/
def AI : Cell := Cell.o

/-- A board snapshot: the source uses a 9-element list of cell marks. -/
abbrev Board := List Cell

/-- The eight win lines (3 rows, 3 columns, 2 diagonals), as in `WIN_LINES`. -/
def WIN_LINES : List (Nat × Nat × Nat) :=
  [(0,1,2),(3,4,5),(6,7,8),
   (0,3,6),(1,4,7),(2,5,8),
   (0,4,8),(2,4,6)]

/-- `available_moves`: the indices of the empty cells, in ascending order. -/
def available_moves (board : Board) : List Nat :=
  (List.range board.length).filter (fun i => board.getD i EMPTY == EMPTY)

/-- The result reported by `winner`: a winning side, or a draw.
`winner` returns an `Option Result`, `none` standing for Python's `None`. -/
inductive Result where
  | side : Cell → Result
  | draw : Result
deriving DecidableEq, Repr

/-- One win line is fully held by a non-empty side (the loop condition
`board[a] == board[b] == board[c] != EMPTY`). -/
def lineWon (board : Board) (t : Nat × Nat × Nat) : Bool :=
  board.getD t.1 EMPTY == board.getD t.2.1 EMPTY &&
  board.getD t.2.1 EMPTY == board.getD t.2.2 EMPTY &&
  !(board.getD t.1 EMPTY == EMPTY)

/-- `winner`: scan the win lines in order and report the side holding the
first fully-held line; with no such line, report a draw when no empty cell
remains and `none` (undecided) otherwise. -/
def winner (board : Board) : Option Result :=
  match WIN_LINES.find? (lineWon board) with
  | some t => some (Result.side (board.getD t.1 EMPTY))
  | none => if board.contains EMPTY then none else some Result.draw

/-- `score_for`: a draw or an undecided position scores 0, a win scores +1
for `player` and -1 against. -/
def score_for (player : Cell) (result : Option Result) : Int :=
  match result with
  | some Result.draw => 0
  | none => 0
  | some (Result.side s) => if s = player then 1 else -1

/-- The maximizing loop of `minimax`: fold over the candidate moves with a
running best value (strict `>` update), running best move, and a rising
`alpha`, breaking as soon as `beta ≤ alpha`.  The recursive search is
abstracted as the function argument `rec`. -/
def maxLoop (rec : Board → Cell → Bool → Int → Int → Int × Option Nat)
    (board : Board) (player : Cell) :
    List Nat → Int → Option Nat → Int → Int → Int × Option Nat
  | [], best, bestMv, _, _ => (best, bestMv)
  | m :: rest, best, bestMv, alpha, beta =>
    let ev := (rec (board.set m player) (if player = AI then HUMAN else AI) false alpha beta).1
    let best2 := if ev > best then ev else best
    let bestMv2 := if ev > best then some m else bestMv
    let alpha2 := max alpha ev
    if beta ≤ alpha2 then (best2, bestMv2)
    else maxLoop rec board player rest best2 bestMv2 alpha2 beta

/-- The minimizing loop of `minimax`, symmetric to `maxLoop` (strict `<`
update, falling `beta`). -/
def minLoop (rec : Board → Cell → Bool → Int → Int → Int × Option Nat)
    (board : Board) (player : Cell) :
    List Nat → Int → Option Nat → Int → Int → Int × Option Nat
  | [], best, bestMv, _, _ => (best, bestMv)
  | m :: rest, best, bestMv, alpha, beta =>
    let ev := (rec (board.set m player) (if player = AI then HUMAN else AI) true alpha beta).1
    let best2 := if ev < best then ev else best
    let bestMv2 := if ev < best then some m else bestMv
    let beta2 := min beta ev
    if beta2 ≤ alpha then (best2, bestMv2)
    else minLoop rec board player rest best2 bestMv2 alpha beta2

/-- Fuel-indexed `minimax`: at a terminal board return the score for the
automated side and no move; otherwise run the maximizing or minimizing loop
over `available_moves` with the sentinels -999 / 999 as initial bests.  The
fuel only needs to exceed the number of empty cells. -/
def minimaxF : Nat → Board → Cell → Bool → Int → Int → Int × Option Nat
  | 0, _, _, _, _, _ => (0, none)
  | fuel+1, board, player, maximizing, alpha, beta =>
    match winner board with
    | some w => (score_for AI (some w), none)
    | none =>
      if maximizing then
        maxLoop (minimaxF fuel) board player (available_moves board) (-999) none alpha beta
      else
        minLoop (minimaxF fuel) board player (available_moves board) 999 none alpha beta

/-- `minimax` from the source: the fuel `count EMPTY + 1` strictly dominates
the recursion depth, so the fuelled definition never hits its fuel cutoff. -/
def minimax (board : Board) (player : Cell) (maximizing : Bool)
    (alpha beta : Int) : Int × Option Nat :=
  minimaxF (board.count EMPTY + 1) board player maximizing alpha beta

/-- `ai_move`'s recorded outcomes: each candidate move is applied for the
automated side and scored by the search with the opponent to move,
minimizing, under the full window (-999, 999). -/
def aiOutcomes (board : Board) : List Int :=
  (available_moves board).map
    (fun m => (minimax (board.set m AI) HUMAN false (-999) 999).1)

/-- The probability figure of `ai_move`:
`(wins + 0.5*draws) / total if total else 0`. -/
def aiProb (board : Board) : Rat :=
  let total := (aiOutcomes board).length
  let wins := (aiOutcomes board).count 1
  let draws := (aiOutcomes board).count 0
  if total = 0 then 0 else ((wins : Rat) + (1/2) * (draws : Rat)) / (total : Rat)

/-- `ai_move`: score every candidate, and return the first candidate whose
score attains the maximum recorded score, together with the probability
figure.  Python's `max` raises on an empty sequence; that failure is
modelled as `none`. -/
def ai_move (board : Board) : Option (Nat × Rat) :=
  match (aiOutcomes board).max? with
  | none => none
  | some best =>
    some ((available_moves board).getD ((aiOutcomes board).indexOf best) 0, aiProb board)

/-! ### Plain (unpruned) minimax

Modelled from the spec: the "plain, unpruned exhaustive minimax" that the
pruning-equivalence property compares `search` against — the same recursion
with no alpha/beta window and no cutoff, still updating the running best
with a strict comparison so that the first best move is kept. -/

/-- Maximizing loop of the unpruned minimax: strict `>` update, no cutoff. -/
def plainMaxLoop (rec : Board → Cell → Bool → Int × Option Nat)
    (board : Board) (player : Cell) :
    List Nat → Int → Option Nat → Int × Option Nat
  | [], best, bestMv => (best, bestMv)
  | m :: rest, best, bestMv =>
    let ev := (rec (board.set m player) (if player = AI then HUMAN else AI) false).1
    if ev > best then plainMaxLoop rec board player rest ev (some m)
    else plainMaxLoop rec board player rest best bestMv

/-- Minimizing loop of the unpruned minimax: strict `<` update, no cutoff. -/
def plainMinLoop (rec : Board → Cell → Bool → Int × Option Nat)
    (board : Board) (player : Cell) :
    List Nat → Int → Option Nat → Int × Option Nat
  | [], best, bestMv => (best, bestMv)
  | m :: rest, best, bestMv =>
    let ev := (rec (board.set m player) (if player = AI then HUMAN else AI) true).1
    if ev < best then plainMinLoop rec board player rest ev (some m)
    else plainMinLoop rec board player rest best bestMv

/-- Fuel-indexed unpruned exhaustive minimax. -/
def plainF : Nat → Board → Cell → Bool → Int × Option Nat
  | 0, _, _, _ => (0, none)
  | fuel+1, board, player, maximizing =>
    match winner board with
    | some w => (score_for AI (some w), none)
    | none =>
      if maximizing then
        plainMaxLoop (plainF fuel) board player (available_moves board) (-999) none
      else
        plainMinLoop (plainF fuel) board player (available_moves board) 999 none

/-- The unpruned exhaustive minimax over a board. -/
def minimaxPlain (board : Board) (player : Cell) (maximizing : Bool) :
    Int × Option Nat :=
  plainF (board.count EMPTY + 1) board player maximizing

/-- The value of a position under exhaustive minimax. -/
def plainVal (board : Board) (player : Cell) (maximizing : Bool) : Int :=
  (minimaxPlain board player maximizing).1

/-! ### Scan traces of the pruned loops

The list of `(move, eval)` pairs that the maximizing / minimizing loop
examines before it stops (either at the end of the candidates or at an
alpha-beta cutoff), mirroring the loop's alpha/beta updates exactly. -/

/-- The pairs scanned by `maxLoop`. -/
def maxTraceLoop (rec : Board → Cell → Bool → Int → Int → Int × Option Nat)
    (board : Board) (player : Cell) :
    List Nat → Int → Int → List (Nat × Int)
  | [], _, _ => []
  | m :: rest, alpha, beta =>
    let ev := (rec (board.set m player) (if player = AI then HUMAN else AI) false alpha beta).1
    let alpha2 := max alpha ev
    (m, ev) :: (if beta ≤ alpha2 then [] else maxTraceLoop rec board player rest alpha2 beta)

/-- The pairs scanned by `minLoop`. -/
def minTraceLoop (rec : Board → Cell → Bool → Int → Int → Int × Option Nat)
    (board : Board) (player : Cell) :
    List Nat → Int → Int → List (Nat × Int)
  | [], _, _ => []
  | m :: rest, alpha, beta =>
    let ev := (rec (board.set m player) (if player = AI then HUMAN else AI) true alpha beta).1
    let beta2 := min beta ev
    (m, ev) :: (if beta2 ≤ alpha then [] else minTraceLoop rec board player rest alpha beta2)

/-- The scan trace of the maximizing branch of `minimax` at a non-terminal
board (the fuel matches the one `minimax` hands to its loops). -/
def maxTrace (board : Board) (player : Cell) (alpha beta : Int) :
    List (Nat × Int) :=
  maxTraceLoop (minimaxF (board.count EMPTY)) board player
    (available_moves board) alpha beta

/-- The scan trace of the minimizing branch of `minimax` at a non-terminal
board. -/
def minTrace (board : Board) (player : Cell) (alpha beta : Int) :
    List (Nat × Int) :=
  minTraceLoop (minimaxF (board.count EMPTY)) board player
    (available_moves board) alpha beta

/-! ### State-threading embedding of the in-place mutation

The Python `minimax` mutates the shared board (`board[m] = player`), recurses,
and undoes the mutation (`board[m] = EMPTY`).  `minimaxStF` models this
faithfully: the board is threaded through every call and each call returns
the board it leaves behind, so "no observable mutation after return" is the
statement that the returned board equals the argument board. -/

/-- Maximizing loop with the board threaded through the mutate/recurse/undo
steps. -/
def stMaxLoop (rec : Board → Cell → Bool → Int → Int → (Int × Option Nat) × Board)
    (player : Cell) :
    Board → List Nat → Int → Option Nat → Int → Int → (Int × Option Nat) × Board
  | b, [], best, bestMv, _, _ => ((best, bestMv), b)
  | b, m :: rest, best, bestMv, alpha, beta =>
    let r := rec (b.set m player) (if player = AI then HUMAN else AI) false alpha beta
    let b2 := r.2.set m EMPTY
    let ev := r.1.1
    let best2 := if ev > best then ev else best
    let bestMv2 := if ev > best then some m else bestMv
    let alpha2 := max alpha ev
    if beta ≤ alpha2 then ((best2, bestMv2), b2)
    else stMaxLoop rec player b2 rest best2 bestMv2 alpha2 beta

/-- Minimizing loop with the board threaded. -/
def stMinLoop (rec : Board → Cell → Bool → Int → Int → (Int × Option Nat) × Board)
    (player : Cell) :
    Board → List Nat → Int → Option Nat → Int → Int → (Int × Option Nat) × Board
  | b, [], best, bestMv, _, _ => ((best, bestMv), b)
  | b, m :: rest, best, bestMv, alpha, beta =>
    let r := rec (b.set m player) (if player = AI then HUMAN else AI) true alpha beta
    let b2 := r.2.set m EMPTY
    let ev := r.1.1
    let best2 := if ev < best then ev else best
    let bestMv2 := if ev < best then some m else bestMv
    let beta2 := min beta ev
    if beta2 ≤ alpha then ((best2, bestMv2), b2)
    else stMinLoop rec player b2 rest best2 bestMv2 alpha beta2

/-- Fuel-indexed state-threading `minimax`. -/
def minimaxStF : Nat → Board → Cell → Bool → Int → Int → (Int × Option Nat) × Board
  | 0, b, _, _, _, _ => ((0, none), b)
  | fuel+1, board, player, maximizing, alpha, beta =>
    match winner board with
    | some w => ((score_for AI (some w), none), board)
    | none =>
      if maximizing then
        stMaxLoop (minimaxStF fuel) player board (available_moves board) (-999) none alpha beta
      else
        stMinLoop (minimaxStF fuel) player board (available_moves board) 999 none alpha beta

/-- The state-threading `minimax`: result pair plus the board left behind. -/
def minimaxSt (board : Board) (player : Cell) (maximizing : Bool)
    (alpha beta : Int) : (Int × Option Nat) × Board :=
  minimaxStF (board.count EMPTY + 1) board player maximizing alpha beta

/-- The outcome-collecting loop of `ai_move` with the board threaded through
each hypothetical apply/search/undo step. -/
def aiLoopSt : Board → List Nat → List Int → List Int × Board
  | b, [], acc => (acc, b)
  | b, m :: rest, acc =>
    let r := minimaxSt (b.set m AI) HUMAN false (-999) 999
    aiLoopSt (r.2.set m EMPTY) rest (acc ++ [r.1.1])

/-- State-threading `ai_move`: result plus the board left behind. -/
def ai_moveSt (board : Board) : Option (Nat × Rat) × Board :=
  let moves := available_moves board
  let r := aiLoopSt board moves []
  let outcomes := r.1
  let total := outcomes.length
  let wins := outcomes.count 1
  let draws := outcomes.count 0
  let prob : Rat := if total = 0 then 0 else ((wins : Rat) + (1/2) * (draws : Rat)) / (total : Rat)
  match outcomes.max? with
  | none => (none, r.2)
  | some best => (some (moves.getD (outcomes.indexOf best) 0, prob), r.2)

/-! ### Self-play simulation

Modelled from the spec: "simulating automated-vs-optimal-opponent self-play
from an empty Board".  The automated side plays the move returned by
`ai_move`; the opponent plays a minimax-optimal reply, i.e. the move reported
by the search with the opponent to move, minimizing, under the full window. -/

/-- One automated-side turn: apply the move chosen by `ai_move`. -/
def aiTurn (board : Board) : Board :=
  match ai_move board with
  | some r => board.set r.1 AI
  | none => board

/-- Modelled from the spec: one turn of the perfectly-playing opponent — the
minimax-optimal reply (the move of the search with the opponent minimizing). -/
def oppTurn (board : Board) : Board :=
  match (minimax board HUMAN false (-999) 999).2 with
  | some m => board.set m HUMAN
  | none => board

/-- Modelled from the spec: play out at most `fuel` plies, the automated side
and the optimal opponent alternating, stopping at a terminal board. -/
def playGame : Nat → Bool → Board → Board
  | 0, _, b => b
  | fuel+1, aiToMove, b =>
    match winner b with
    | some _ => b
    | none => if aiToMove then playGame fuel false (aiTurn b)
              else playGame fuel true (oppTurn b)

/-! ### Strategy certificates

A `Strat` is a finite strategy tree used to certify upper or lower bounds on
`plainVal`: at positions where the bounded side is to move it records a
single move (`pick`); at positions where the adversary is to move it records
one subtree per available move, as a spine (`all` wrapping `scons`/`snil`);
terminal positions are `leaf`.  `chkUB`/`chkLB` check such a certificate by
evaluation; their soundness is proved once, so each concrete game value used
by the development is established by two cheap certificate checks instead of
a full search. -/

inductive Strat where
  | leaf : Strat
  | pick : Nat → Strat → Strat
  | all : Strat → Strat
  | snil : Strat
  | scons : Strat → Strat → Strat
deriving Repr

/-- The certificate shapes allowed below a `pick` node (the adversary moves
next there, or the position is terminal). -/
def childOfPick : Strat → Bool
  | Strat.leaf => true
  | Strat.all _ => true
  | _ => false

/-- The certificate shapes allowed as entries of a spine (the certifying
side moves next there, or the position is terminal). -/
def childOfSpine : Strat → Bool
  | Strat.leaf => true
  | Strat.pick _ _ => true
  | _ => false

/-- The certificate shapes allowed as a spine. -/
def isSpine : Strat → Bool
  | Strat.snil => true
  | Strat.scons _ _ => true
  | _ => false

/-- Check an upper-bound certificate: `pick` nodes sit at minimizing
positions (the minimizer names one move), `all` nodes at maximizing
positions (every available move is covered, in order). -/
def chkUB (bound : Int) : Strat → Board → Cell → List Nat → Bool
  | Strat.leaf, b, _, _ =>
    match winner b with
    | some w => decide (score_for AI (some w) ≤ bound)
    | none => false
  | Strat.pick m s, b, p, _ =>
    (winner b).isNone && (b.getD m EMPTY == EMPTY) && decide (m < b.length) &&
    childOfPick s && chkUB bound s (b.set m p) (if p = AI then HUMAN else AI) []
  | Strat.all sp, b, p, _ =>
    (winner b).isNone && isSpine sp && chkUB bound sp b p (available_moves b)
  | Strat.snil, _, _, ms => ms.isEmpty
  | Strat.scons s rest, b, p, ms =>
    match ms with
    | [] => false
    | m :: ms2 =>
      childOfSpine s && chkUB bound s (b.set m p) (if p = AI then HUMAN else AI) [] &&
      isSpine rest && chkUB bound rest b p ms2

/-- Check a lower-bound certificate: dual to `chkUB` — `pick` nodes sit at
maximizing positions, `all` nodes at minimizing positions. -/
def chkLB (bound : Int) : Strat → Board → Cell → List Nat → Bool
  | Strat.leaf, b, _, _ =>
    match winner b with
    | some w => decide (bound ≤ score_for AI (some w))
    | none => false
  | Strat.pick m s, b, p, _ =>
    (winner b).isNone && (b.getD m EMPTY == EMPTY) && decide (m < b.length) &&
    childOfPick s && chkLB bound s (b.set m p) (if p = AI then HUMAN else AI) []
  | Strat.all sp, b, p, _ =>
    (winner b).isNone && isSpine sp && chkLB bound sp b p (available_moves b)
  | Strat.snil, _, _, ms => ms.isEmpty
  | Strat.scons s rest, b, p, ms =>
    match ms with
    | [] => false
    | m :: ms2 =>
      childOfSpine s && chkLB bound s (b.set m p) (if p = AI then HUMAN else AI) [] &&
      isSpine rest && chkLB bound rest b p ms2

/-! ### Concrete strategy certificates

The certificate terms below were produced by an offline search; nothing is
trusted about their origin — each is validated inside the development by the
`chkUB`/`chkLB` evaluations in the theorems that use it. -/

set_option maxRecDepth 100000
set_option maxHeartbeats 4000000

/-- Upper-bound certificate: plainVal of the empty board with O at 0 is at most 0. -/
def certC9u0 : Strat := (Strat.pick 4 (Strat.all (Strat.scons (Strat.pick 2 (Strat.all (Strat.scons (Strat.pick 6 Strat.leaf) (Strat.scons (Strat.pick 6 Strat.leaf) (Strat.scons (Strat.pick 3 (Strat.all (Strat.scons (Strat.pick 7 (Strat.all (Strat.scons Strat.leaf Strat.snil))) (Strat.scons (Strat.pick 5 Strat.leaf) (Strat.scons (Strat.pick 5 Strat.leaf) Strat.snil))))) (Strat.scons (Strat.pick 6 Strat.leaf) (Strat.scons (Strat.pick 6 Strat.leaf) Strat.snil))))))) (Strat.scons (Strat.pick 1 (Strat.all (Strat.scons (Strat.pick 7 Strat.leaf) (Strat.scons (Strat.pick 7 Strat.leaf) (Strat.scons (Strat.pick 7 Strat.leaf) (Strat.scons (Strat.pick 3 (Strat.all (Strat.scons (Strat.pick 8 (Strat.all (Strat.scons Strat.leaf Strat.snil))) (Strat.scons (Strat.pick 5 Strat.leaf) (Strat.scons (Strat.pick 5 Strat.leaf) Strat.snil))))) (Strat.scons (Strat.pick 7 Strat.leaf) Strat.snil))))))) (Strat.scons (Strat.pick 6 (Strat.all (Strat.scons (Strat.pick 2 Strat.leaf) (Strat.scons (Strat.pick 1 (Strat.all (Strat.scons (Strat.pick 7 Strat.leaf) (Strat.scons (Strat.pick 5 (Strat.all (Strat.scons Strat.leaf Strat.snil))) (Strat.scons (Strat.pick 7 Strat.leaf) Strat.snil))))) (Strat.scons (Strat.pick 2 Strat.leaf) (Strat.scons (Strat.pick 2 Strat.leaf) (Strat.scons (Strat.pick 2 Strat.leaf) Strat.snil))))))) (Strat.scons (Strat.pick 1 (Strat.all (Strat.scons (Strat.pick 7 Strat.leaf) (Strat.scons (Strat.pick 7 Strat.leaf) (Strat.scons (Strat.pick 7 Strat.leaf) (Strat.scons (Strat.pick 6 (Strat.all (Strat.scons (Strat.pick 8 (Strat.all (Strat.scons Strat.leaf Strat.snil))) (Strat.scons (Strat.pick 2 Strat.leaf) (Strat.scons (Strat.pick 2 Strat.leaf) Strat.snil))))) (Strat.scons (Strat.pick 7 Strat.leaf) Strat.snil))))))) (Strat.scons (Strat.pick 3 (Strat.all (Strat.scons (Strat.pick 5 Strat.leaf) (Strat.scons (Strat.pick 5 Strat.leaf) (Strat.scons (Strat.pick 1 (Strat.all (Strat.scons (Strat.pick 7 Strat.leaf) (Strat.scons (Strat.pick 8 (Strat.all (Strat.scons Strat.leaf Strat.snil))) (Strat.scons (Strat.pick 7 Strat.leaf) Strat.snil))))) (Strat.scons (Strat.pick 5 Strat.leaf) (Strat.scons (Strat.pick 5 Strat.leaf) Strat.snil))))))) (Strat.scons (Strat.pick 3 (Strat.all (Strat.scons (Strat.pick 5 Strat.leaf) (Strat.scons (Strat.pick 5 Strat.leaf) (Strat.scons (Strat.pick 2 (Strat.all (Strat.scons (Strat.pick 6 Strat.leaf) (Strat.scons (Strat.pick 8 (Strat.all (Strat.scons Strat.leaf Strat.snil))) (Strat.scons (Strat.pick 6 Strat.leaf) Strat.snil))))) (Strat.scons (Strat.pick 5 Strat.leaf) (Strat.scons (Strat.pick 5 Strat.leaf) Strat.snil))))))) (Strat.scons (Strat.pick 1 (Strat.all (Strat.scons (Strat.pick 7 Strat.leaf) (Strat.scons (Strat.pick 7 Strat.leaf) (Strat.scons (Strat.pick 7 Strat.leaf) (Strat.scons (Strat.pick 7 Strat.leaf) (Strat.scons (Strat.pick 6 (Strat.all (Strat.scons (Strat.pick 5 (Strat.all (Strat.scons Strat.leaf Strat.snil))) (Strat.scons (Strat.pick 2 Strat.leaf) (Strat.scons (Strat.pick 2 Strat.leaf) Strat.snil))))) Strat.snil))))))) Strat.snil)))))))))

/-- Lower-bound certificate: plainVal of the empty board with O at 0 is at least 0. -/
def certC9l0 : Strat := (Strat.all (Strat.scons (Strat.pick 3 (Strat.all (Strat.scons (Strat.pick 6 Strat.leaf) (Strat.scons (Strat.pick 6 Strat.leaf) (Strat.scons (Strat.pick 6 Strat.leaf) (Strat.scons (Strat.pick 4 (Strat.all (Strat.scons (Strat.pick 5 Strat.leaf) (Strat.scons (Strat.pick 8 Strat.leaf) (Strat.scons (Strat.pick 5 Strat.leaf) (Strat.scons (Strat.pick 5 Strat.leaf) Strat.snil)))))) (Strat.scons (Strat.pick 6 Strat.leaf) (Strat.scons (Strat.pick 6 Strat.leaf) Strat.snil)))))))) (Strat.scons (Strat.pick 3 (Strat.all (Strat.scons (Strat.pick 6 Strat.leaf) (Strat.scons (Strat.pick 6 Strat.leaf) (Strat.scons (Strat.pick 6 Strat.leaf) (Strat.scons (Strat.pick 4 (Strat.all (Strat.scons (Strat.pick 5 Strat.leaf) (Strat.scons (Strat.pick 8 Strat.leaf) (Strat.scons (Strat.pick 5 Strat.leaf) (Strat.scons (Strat.pick 5 Strat.leaf) Strat.snil)))))) (Strat.scons (Strat.pick 6 Strat.leaf) (Strat.scons (Strat.pick 6 Strat.leaf) Strat.snil)))))))) (Strat.scons (Strat.pick 1 (Strat.all (Strat.scons (Strat.pick 4 (Strat.all (Strat.scons (Strat.pick 7 Strat.leaf) (Strat.scons (Strat.pick 7 Strat.leaf) (Strat.scons (Strat.pick 8 Strat.leaf) (Strat.scons (Strat.pick 7 Strat.leaf) Strat.snil)))))) (Strat.scons (Strat.pick 2 Strat.leaf) (Strat.scons (Strat.pick 2 Strat.leaf) (Strat.scons (Strat.pick 2 Strat.leaf) (Strat.scons (Strat.pick 2 Strat.leaf) (Strat.scons (Strat.pick 2 Strat.leaf) Strat.snil)))))))) (Strat.scons (Strat.pick 1 (Strat.all (Strat.scons (Strat.pick 6 (Strat.all (Strat.scons (Strat.pick 5 (Strat.all (Strat.scons (Strat.pick 8 Strat.leaf) (Strat.scons (Strat.pick 7 Strat.leaf) Strat.snil)))) (Strat.scons (Strat.pick 3 Strat.leaf) (Strat.scons (Strat.pick 3 Strat.leaf) (Strat.scons (Strat.pick 3 Strat.leaf) Strat.snil)))))) (Strat.scons (Strat.pick 2 Strat.leaf) (Strat.scons (Strat.pick 2 Strat.leaf) (Strat.scons (Strat.pick 2 Strat.leaf) (Strat.scons (Strat.pick 2 Strat.leaf) (Strat.scons (Strat.pick 2 Strat.leaf) Strat.snil)))))))) (Strat.scons (Strat.pick 2 (Strat.all (Strat.scons (Strat.pick 4 (Strat.all (Strat.scons (Strat.pick 6 Strat.leaf) (Strat.scons (Strat.pick 8 Strat.leaf) (Strat.scons (Strat.pick 6 Strat.leaf) (Strat.scons (Strat.pick 6 Strat.leaf) Strat.snil)))))) (Strat.scons (Strat.pick 1 Strat.leaf) (Strat.scons (Strat.pick 1 Strat.leaf) (Strat.scons (Strat.pick 1 Strat.leaf) (Strat.scons (Strat.pick 1 Strat.leaf) (Strat.scons (Strat.pick 1 Strat.leaf) Strat.snil)))))))) (Strat.scons (Strat.pick 1 (Strat.all (Strat.scons (Strat.pick 4 (Strat.all (Strat.scons (Strat.pick 7 Strat.leaf) (Strat.scons (Strat.pick 7 Strat.leaf) (Strat.scons (Strat.pick 8 Strat.leaf) (Strat.scons (Strat.pick 7 Strat.leaf) Strat.snil)))))) (Strat.scons (Strat.pick 2 Strat.leaf) (Strat.scons (Strat.pick 2 Strat.leaf) (Strat.scons (Strat.pick 2 Strat.leaf) (Strat.scons (Strat.pick 2 Strat.leaf) (Strat.scons (Strat.pick 2 Strat.leaf) Strat.snil)))))))) (Strat.scons (Strat.pick 2 (Strat.all (Strat.scons (Strat.pick 4 (Strat.all (Strat.scons (Strat.pick 6 Strat.leaf) (Strat.scons (Strat.pick 6 Strat.leaf) (Strat.scons (Strat.pick 8 Strat.leaf) (Strat.scons (Strat.pick 6 Strat.leaf) Strat.snil)))))) (Strat.scons (Strat.pick 1 Strat.leaf) (Strat.scons (Strat.pick 1 Strat.leaf) (Strat.scons (Strat.pick 1 Strat.leaf) (Strat.scons (Strat.pick 1 Strat.leaf) (Strat.scons (Strat.pick 1 Strat.leaf) Strat.snil)))))))) (Strat.scons (Strat.pick 2 (Strat.all (Strat.scons (Strat.pick 6 (Strat.all (Strat.scons (Strat.pick 4 Strat.leaf) (Strat.scons (Strat.pick 3 Strat.leaf) (Strat.scons (Strat.pick 3 Strat.leaf) (Strat.scons (Strat.pick 3 Strat.leaf) Strat.snil)))))) (Strat.scons (Strat.pick 1 Strat.leaf) (Strat.scons (Strat.pick 1 Strat.leaf) (Strat.scons (Strat.pick 1 Strat.leaf) (Strat.scons (Strat.pick 1 Strat.leaf) (Strat.scons (Strat.pick 1 Strat.leaf) Strat.snil)))))))) Strat.snil)))))))))

/-- Upper-bound certificate: plainVal of the empty board with O at 1 is at most 0. -/
def certC9u1 : Strat := (Strat.pick 4 (Strat.all (Strat.scons (Strat.pick 2 (Strat.all (Strat.scons (Strat.pick 6 Strat.leaf) (Strat.scons (Strat.pick 6 Strat.leaf) (Strat.scons (Strat.pick 3 (Strat.all (Strat.scons (Strat.pick 7 (Strat.all (Strat.scons Strat.leaf Strat.snil))) (Strat.scons (Strat.pick 5 Strat.leaf) (Strat.scons (Strat.pick 5 Strat.leaf) Strat.snil))))) (Strat.scons (Strat.pick 6 Strat.leaf) (Strat.scons (Strat.pick 6 Strat.leaf) Strat.snil))))))) (Strat.scons (Strat.pick 0 (Strat.all (Strat.scons (Strat.pick 8 Strat.leaf) (Strat.scons (Strat.pick 8 Strat.leaf) (Strat.scons (Strat.pick 8 Strat.leaf) (Strat.scons (Strat.pick 8 Strat.leaf) (Strat.scons (Strat.pick 5 (Strat.all (Strat.scons (Strat.pick 6 (Strat.all (Strat.scons Strat.leaf Strat.snil))) (Strat.scons (Strat.pick 3 Strat.leaf) (Strat.scons (Strat.pick 3 Strat.leaf) Strat.snil))))) Strat.snil))))))) (Strat.scons (Strat.pick 0 (Strat.all (Strat.scons (Strat.pick 8 Strat.leaf) (Strat.scons (Strat.pick 8 Strat.leaf) (Strat.scons (Strat.pick 8 Strat.leaf) (Strat.scons (Strat.pick 8 Strat.leaf) (Strat.scons (Strat.pick 2 (Strat.all (Strat.scons (Strat.pick 6 Strat.leaf) (Strat.scons (Strat.pick 7 (Strat.all (Strat.scons Strat.leaf Strat.snil))) (Strat.scons (Strat.pick 6 Strat.leaf) Strat.snil))))) Strat.snil))))))) (Strat.scons (Strat.pick 0 (Strat.all (Strat.scons (Strat.pick 8 Strat.leaf) (Strat.scons (Strat.pick 8 Strat.leaf) (Strat.scons (Strat.pick 8 Strat.leaf) (Strat.scons (Strat.pick 8 Strat.leaf) (Strat.scons (Strat.pick 2 (Strat.all (Strat.scons (Strat.pick 6 Strat.leaf) (Strat.scons (Strat.pick 7 (Strat.all (Strat.scons Strat.leaf Strat.snil))) (Strat.scons (Strat.pick 6 Strat.leaf) Strat.snil))))) Strat.snil))))))) (Strat.scons (Strat.pick 3 (Strat.all (Strat.scons (Strat.pick 5 Strat.leaf) (Strat.scons (Strat.pick 5 Strat.leaf) (Strat.scons (Strat.pick 8 (Strat.all (Strat.scons (Strat.pick 2 (Strat.all (Strat.scons Strat.leaf Strat.snil))) (Strat.scons (Strat.pick 0 Strat.leaf) (Strat.scons (Strat.pick 0 Strat.leaf) Strat.snil))))) (Strat.scons (Strat.pick 5 Strat.leaf) (Strat.scons (Strat.pick 5 Strat.leaf) Strat.snil))))))) (Strat.scons (Strat.pick 0 (Strat.all (Strat.scons (Strat.pick 8 Strat.leaf) (Strat.scons (Strat.pick 8 Strat.leaf) (Strat.scons (Strat.pick 8 Strat.leaf) (Strat.scons (Strat.pick 8 Strat.leaf) (Strat.scons (Strat.pick 6 (Strat.all (Strat.scons (Strat.pick 3 Strat.leaf) (Strat.scons (Strat.pick 2 Strat.leaf) (Strat.scons (Strat.pick 2 Strat.leaf) Strat.snil))))) Strat.snil))))))) (Strat.scons (Strat.pick 3 (Strat.all (Strat.scons (Strat.pick 5 Strat.leaf) (Strat.scons (Strat.pick 5 Strat.leaf) (Strat.scons (Strat.pick 2 (Strat.all (Strat.scons (Strat.pick 6 Strat.leaf) (Strat.scons (Strat.pick 7 (Strat.all (Strat.scons Strat.leaf Strat.snil))) (Strat.scons (Strat.pick 6 Strat.leaf) Strat.snil))))) (Strat.scons (Strat.pick 5 Strat.leaf) (Strat.scons (Strat.pick 5 Strat.leaf) Strat.snil))))))) Strat.snil)))))))))

/-- Lower-bound certificate: plainVal of the empty board with O at 1 is at least 0. -/
def certC9l1 : Strat := (Strat.all (Strat.scons (Strat.pick 4 (Strat.all (Strat.scons (Strat.pick 7 Strat.leaf) (Strat.scons (Strat.pick 7 Strat.leaf) (Strat.scons (Strat.pick 7 Strat.leaf) (Strat.scons (Strat.pick 7 Strat.leaf) (Strat.scons (Strat.pick 3 (Strat.all (Strat.scons (Strat.pick 5 Strat.leaf) (Strat.scons (Strat.pick 2 (Strat.all (Strat.scons (Strat.pick 8 Strat.leaf) (Strat.scons (Strat.pick 6 Strat.leaf) Strat.snil)))) (Strat.scons (Strat.pick 5 Strat.leaf) (Strat.scons (Strat.pick 5 Strat.leaf) Strat.snil)))))) (Strat.scons (Strat.pick 7 Strat.leaf) Strat.snil)))))))) (Strat.scons (Strat.pick 4 (Strat.all (Strat.scons (Strat.pick 7 Strat.leaf) (Strat.scons (Strat.pick 7 Strat.leaf) (Strat.scons (Strat.pick 7 Strat.leaf) (Strat.scons (Strat.pick 7 Strat.leaf) (Strat.scons (Strat.pick 3 (Strat.all (Strat.scons (Strat.pick 5 Strat.leaf) (Strat.scons (Strat.pick 8 (Strat.all (Strat.scons (Strat.pick 6 Strat.leaf) (Strat.scons (Strat.pick 0 Strat.leaf) Strat.snil)))) (Strat.scons (Strat.pick 5 Strat.leaf) (Strat.scons (Strat.pick 5 Strat.leaf) Strat.snil)))))) (Strat.scons (Strat.pick 7 Strat.leaf) Strat.snil)))))))) (Strat.scons (Strat.pick 0 (Strat.all (Strat.scons (Strat.pick 4 (Strat.all (Strat.scons (Strat.pick 7 Strat.leaf) (Strat.scons (Strat.pick 7 Strat.leaf) (Strat.scons (Strat.pick 8 Strat.leaf) (Strat.scons (Strat.pick 7 Strat.leaf) Strat.snil)))))) (Strat.scons (Strat.pick 2 Strat.leaf) (Strat.scons (Strat.pick 2 Strat.leaf) (Strat.scons (Strat.pick 2 Strat.leaf) (Strat.scons (Strat.pick 2 Strat.leaf) (Strat.scons (Strat.pick 2 Strat.leaf) Strat.snil)))))))) (Strat.scons (Strat.pick 0 (Strat.all (Strat.scons (Strat.pick 6 (Strat.all (Strat.scons (Strat.pick 5 (Strat.all (Strat.scons (Strat.pick 8 Strat.leaf) (Strat.scons (Strat.pick 7 Strat.leaf) Strat.snil)))) (Strat.scons (Strat.pick 3 Strat.leaf) (Strat.scons (Strat.pick 3 Strat.leaf) (Strat.scons (Strat.pick 3 Strat.leaf) Strat.snil)))))) (Strat.scons (Strat.pick 2 Strat.leaf) (Strat.scons (Strat.pick 2 Strat.leaf) (Strat.scons (Strat.pick 2 Strat.leaf) (Strat.scons (Strat.pick 2 Strat.leaf) (Strat.scons (Strat.pick 2 Strat.leaf) Strat.snil)))))))) (Strat.scons (Strat.pick 2 (Strat.all (Strat.scons (Strat.pick 4 (Strat.all (Strat.scons (Strat.pick 6 Strat.leaf) (Strat.scons (Strat.pick 7 Strat.leaf) (Strat.scons (Strat.pick 6 Strat.leaf) (Strat.scons (Strat.pick 6 Strat.leaf) Strat.snil)))))) (Strat.scons (Strat.pick 0 Strat.leaf) (Strat.scons (Strat.pick 0 Strat.leaf) (Strat.scons (Strat.pick 0 Strat.leaf) (Strat.scons (Strat.pick 0 Strat.leaf) (Strat.scons (Strat.pick 0 Strat.leaf) Strat.snil)))))))) (Strat.scons (Strat.pick 0 (Strat.all (Strat.scons (Strat.pick 4 (Strat.all (Strat.scons (Strat.pick 7 Strat.leaf) (Strat.scons (Strat.pick 7 Strat.leaf) (Strat.scons (Strat.pick 8 Strat.leaf) (Strat.scons (Strat.pick 7 Strat.leaf) Strat.snil)))))) (Strat.scons (Strat.pick 2 Strat.leaf) (Strat.scons (Strat.pick 2 Strat.leaf) (Strat.scons (Strat.pick 2 Strat.leaf) (Strat.scons (Strat.pick 2 Strat.leaf) (Strat.scons (Strat.pick 2 Strat.leaf) Strat.snil)))))))) (Strat.scons (Strat.pick 0 (Strat.all (Strat.scons (Strat.pick 6 (Strat.all (Strat.scons (Strat.pick 4 (Strat.all (Strat.scons (Strat.pick 8 Strat.leaf) (Strat.scons (Strat.pick 5 Strat.leaf) Strat.snil)))) (Strat.scons (Strat.pick 3 Strat.leaf) (Strat.scons (Strat.pick 3 Strat.leaf) (Strat.scons (Strat.pick 3 Strat.leaf) Strat.snil)))))) (Strat.scons (Strat.pick 2 Strat.leaf) (Strat.scons (Strat.pick 2 Strat.leaf) (Strat.scons (Strat.pick 2 Strat.leaf) (Strat.scons (Strat.pick 2 Strat.leaf) (Strat.scons (Strat.pick 2 Strat.leaf) Strat.snil)))))))) (Strat.scons (Strat.pick 2 (Strat.all (Strat.scons (Strat.pick 4 (Strat.all (Strat.scons (Strat.pick 6 Strat.leaf) (Strat.scons (Strat.pick 6 Strat.leaf) (Strat.scons (Strat.pick 7 Strat.leaf) (Strat.scons (Strat.pick 6 Strat.leaf) Strat.snil)))))) (Strat.scons (Strat.pick 0 Strat.leaf) (Strat.scons (Strat.pick 0 Strat.leaf) (Strat.scons (Strat.pick 0 Strat.leaf) (Strat.scons (Strat.pick 0 Strat.leaf) (Strat.scons (Strat.pick 0 Strat.leaf) Strat.snil)))))))) Strat.snil)))))))))

/-- Upper-bound certificate: plainVal of the empty board with O at 2 is at most 0. -/
def certC9u2 : Strat := (Strat.pick 4 (Strat.all (Strat.scons (Strat.pick 1 (Strat.all (Strat.scons (Strat.pick 7 Strat.leaf) (Strat.scons (Strat.pick 7 Strat.leaf) (Strat.scons (Strat.pick 7 Strat.leaf) (Strat.scons (Strat.pick 3 (Strat.all (Strat.scons (Strat.pick 8 (Strat.all (Strat.scons Strat.leaf Strat.snil))) (Strat.scons (Strat.pick 5 Strat.leaf) (Strat.scons (Strat.pick 5 Strat.leaf) Strat.snil))))) (Strat.scons (Strat.pick 7 Strat.leaf) Strat.snil))))))) (Strat.scons (Strat.pick 0 (Strat.all (Strat.scons (Strat.pick 8 Strat.leaf) (Strat.scons (Strat.pick 8 Strat.leaf) (Strat.scons (Strat.pick 8 Strat.leaf) (Strat.scons (Strat.pick 8 Strat.leaf) (Strat.scons (Strat.pick 5 (Strat.all (Strat.scons (Strat.pick 6 (Strat.all (Strat.scons Strat.leaf Strat.snil))) (Strat.scons (Strat.pick 3 Strat.leaf) (Strat.scons (Strat.pick 3 Strat.leaf) Strat.snil))))) Strat.snil))))))) (Strat.scons (Strat.pick 1 (Strat.all (Strat.scons (Strat.pick 7 Strat.leaf) (Strat.scons (Strat.pick 7 Strat.leaf) (Strat.scons (Strat.pick 7 Strat.leaf) (Strat.scons (Strat.pick 8 (Strat.all (Strat.scons (Strat.pick 6 (Strat.all (Strat.scons Strat.leaf Strat.snil))) (Strat.scons (Strat.pick 0 Strat.leaf) (Strat.scons (Strat.pick 0 Strat.leaf) Strat.snil))))) (Strat.scons (Strat.pick 7 Strat.leaf) Strat.snil))))))) (Strat.scons (Strat.pick 8 (Strat.all (Strat.scons (Strat.pick 1 (Strat.all (Strat.scons (Strat.pick 7 Strat.leaf) (Strat.scons (Strat.pick 7 Strat.leaf) (Strat.scons (Strat.pick 3 (Strat.all (Strat.scons Strat.leaf Strat.snil))) Strat.snil))))) (Strat.scons (Strat.pick 0 Strat.leaf) (Strat.scons (Strat.pick 0 Strat.leaf) (Strat.scons (Strat.pick 0 Strat.leaf) (Strat.scons (Strat.pick 0 Strat.leaf) Strat.snil))))))) (Strat.scons (Strat.pick 1 (Strat.all (Strat.scons (Strat.pick 7 Strat.leaf) (Strat.scons (Strat.pick 7 Strat.leaf) (Strat.scons (Strat.pick 7 Strat.leaf) (Strat.scons (Strat.pick 8 (Strat.all (Strat.scons (Strat.pick 3 (Strat.all (Strat.scons Strat.leaf Strat.snil))) (Strat.scons (Strat.pick 0 Strat.leaf) (Strat.scons (Strat.pick 0 Strat.leaf) Strat.snil))))) (Strat.scons (Strat.pick 7 Strat.leaf) Strat.snil))))))) (Strat.scons (Strat.pick 3 (Strat.all (Strat.scons (Strat.pick 5 Strat.leaf) (Strat.scons (Strat.pick 5 Strat.leaf) (Strat.scons (Strat.pick 8 (Strat.all (Strat.scons (Strat.pick 1 (Strat.all (Strat.scons Strat.leaf Strat.snil))) (Strat.scons (Strat.pick 0 Strat.leaf) (Strat.scons (Strat.pick 0 Strat.leaf) Strat.snil))))) (Strat.scons (Strat.pick 5 Strat.leaf) (Strat.scons (Strat.pick 5 Strat.leaf) Strat.snil))))))) (Strat.scons (Strat.pick 5 (Strat.all (Strat.scons (Strat.pick 3 Strat.leaf) (Strat.scons (Strat.pick 3 Strat.leaf) (Strat.scons (Strat.pick 1 (Strat.all (Strat.scons (Strat.pick 7 Strat.leaf) (Strat.scons (Strat.pick 7 Strat.leaf) (Strat.scons (Strat.pick 6 (Strat.all (Strat.scons Strat.leaf Strat.snil))) Strat.snil))))) (Strat.scons (Strat.pick 3 Strat.leaf) (Strat.scons (Strat.pick 3 Strat.leaf) Strat.snil))))))) Strat.snil)))))))))

/-- Lower-bound certificate: plainVal of the empty board with O at 2 is at least 0. -/
def certC9l2 : Strat := (Strat.all (Strat.scons (Strat.pick 5 (Strat.all (Strat.scons (Strat.pick 8 Strat.leaf) (Strat.scons (Strat.pick 8 Strat.leaf) (Strat.scons (Strat.pick 8 Strat.leaf) (Strat.scons (Strat.pick 8 Strat.leaf) (Strat.scons (Strat.pick 8 Strat.leaf) (Strat.scons (Strat.pick 4 (Strat.all (Strat.scons (Strat.pick 3 Strat.leaf) (Strat.scons (Strat.pick 6 Strat.leaf) (Strat.scons (Strat.pick 3 Strat.leaf) (Strat.scons (Strat.pick 3 Strat.leaf) Strat.snil)))))) Strat.snil)))))))) (Strat.scons (Strat.pick 4 (Strat.all (Strat.scons (Strat.pick 6 Strat.leaf) (Strat.scons (Strat.pick 6 Strat.leaf) (Strat.scons (Strat.pick 6 Strat.leaf) (Strat.scons (Strat.pick 5 (Strat.all (Strat.scons (Strat.pick 3 Strat.leaf) (Strat.scons (Strat.pick 8 Strat.leaf) (Strat.scons (Strat.pick 3 Strat.leaf) (Strat.scons (Strat.pick 3 Strat.leaf) Strat.snil)))))) (Strat.scons (Strat.pick 6 Strat.leaf) (Strat.scons (Strat.pick 6 Strat.leaf) Strat.snil)))))))) (Strat.scons (Strat.pick 0 (Strat.all (Strat.scons (Strat.pick 4 (Strat.all (Strat.scons (Strat.pick 6 Strat.leaf) (Strat.scons (Strat.pick 8 Strat.leaf) (Strat.scons (Strat.pick 6 Strat.leaf) (Strat.scons (Strat.pick 6 Strat.leaf) Strat.snil)))))) (Strat.scons (Strat.pick 1 Strat.leaf) (Strat.scons (Strat.pick 1 Strat.leaf) (Strat.scons (Strat.pick 1 Strat.leaf) (Strat.scons (Strat.pick 1 Strat.leaf) (Strat.scons (Strat.pick 1 Strat.leaf) Strat.snil)))))))) (Strat.scons (Strat.pick 1 (Strat.all (Strat.scons (Strat.pick 8 (Strat.all (Strat.scons (Strat.pick 5 Strat.leaf) (Strat.scons (Strat.pick 3 (Strat.all (Strat.scons (Strat.pick 7 Strat.leaf) (Strat.scons (Strat.pick 6 Strat.leaf) Strat.snil)))) (Strat.scons (Strat.pick 5 Strat.leaf) (Strat.scons (Strat.pick 5 Strat.leaf) Strat.snil)))))) (Strat.scons (Strat.pick 0 Strat.leaf) (Strat.scons (Strat.pick 0 Strat.leaf) (Strat.scons (Strat.pick 0 Strat.leaf) (Strat.scons (Strat.pick 0 Strat.leaf) (Strat.scons (Strat.pick 0 Strat.leaf) Strat.snil)))))))) (Strat.scons (Strat.pick 0 (Strat.all (Strat.scons (Strat.pick 4 (Strat.all (Strat.scons (Strat.pick 6 Strat.leaf) (Strat.scons (Strat.pick 8 Strat.leaf) (Strat.scons (Strat.pick 6 Strat.leaf) (Strat.scons (Strat.pick 6 Strat.leaf) Strat.snil)))))) (Strat.scons (Strat.pick 1 Strat.leaf) (Strat.scons (Strat.pick 1 Strat.leaf) (Strat.scons (Strat.pick 1 Strat.leaf) (Strat.scons (Strat.pick 1 Strat.leaf) (Strat.scons (Strat.pick 1 Strat.leaf) Strat.snil)))))))) (Strat.scons (Strat.pick 0 (Strat.all (Strat.scons (Strat.pick 8 (Strat.all (Strat.scons (Strat.pick 4 Strat.leaf) (Strat.scons (Strat.pick 5 Strat.leaf) (Strat.scons (Strat.pick 4 Strat.leaf) (Strat.scons (Strat.pick 4 Strat.leaf) Strat.snil)))))) (Strat.scons (Strat.pick 1 Strat.leaf) (Strat.scons (Strat.pick 1 Strat.leaf) (Strat.scons (Strat.pick 1 Strat.leaf) (Strat.scons (Strat.pick 1 Strat.leaf) (Strat.scons (Strat.pick 1 Strat.leaf) Strat.snil)))))))) (Strat.scons (Strat.pick 0 (Strat.all (Strat.scons (Strat.pick 4 (Strat.all (Strat.scons (Strat.pick 6 Strat.leaf) (Strat.scons (Strat.pick 6 Strat.leaf) (Strat.scons (Strat.pick 8 Strat.leaf) (Strat.scons (Strat.pick 6 Strat.leaf) Strat.snil)))))) (Strat.scons (Strat.pick 1 Strat.leaf) (Strat.scons (Strat.pick 1 Strat.leaf) (Strat.scons (Strat.pick 1 Strat.leaf) (Strat.scons (Strat.pick 1 Strat.leaf) (Strat.scons (Strat.pick 1 Strat.leaf) Strat.snil)))))))) (Strat.scons (Strat.pick 0 (Strat.all (Strat.scons (Strat.pick 6 (Strat.all (Strat.scons (Strat.pick 4 Strat.leaf) (Strat.scons (Strat.pick 3 Strat.leaf) (Strat.scons (Strat.pick 3 Strat.leaf) (Strat.scons (Strat.pick 3 Strat.leaf) Strat.snil)))))) (Strat.scons (Strat.pick 1 Strat.leaf) (Strat.scons (Strat.pick 1 Strat.leaf) (Strat.scons (Strat.pick 1 Strat.leaf) (Strat.scons (Strat.pick 1 Strat.leaf) (Strat.scons (Strat.pick 1 Strat.leaf) Strat.snil)))))))) Strat.snil)))))))))

/-- Upper-bound certificate: plainVal of the empty board with O at 3 is at most 0. -/
def certC9u3 : Strat := (Strat.pick 4 (Strat.all (Strat.scons (Strat.pick 6 (Strat.all (Strat.scons (Strat.pick 2 Strat.leaf) (Strat.scons (Strat.pick 1 (Strat.all (Strat.scons (Strat.pick 7 Strat.leaf) (Strat.scons (Strat.pick 5 (Strat.all (Strat.scons Strat.leaf Strat.snil))) (Strat.scons (Strat.pick 7 Strat.leaf) Strat.snil))))) (Strat.scons (Strat.pick 2 Strat.leaf) (Strat.scons (Strat.pick 2 Strat.leaf) (Strat.scons (Strat.pick 2 Strat.leaf) Strat.snil))))))) (Strat.scons (Strat.pick 0 (Strat.all (Strat.scons (Strat.pick 8 Strat.leaf) (Strat.scons (Strat.pick 8 Strat.leaf) (Strat.scons (Strat.pick 8 Strat.leaf) (Strat.scons (Strat.pick 8 Strat.leaf) (Strat.scons (Strat.pick 2 (Strat.all (Strat.scons (Strat.pick 6 Strat.leaf) (Strat.scons (Strat.pick 7 (Strat.all (Strat.scons Strat.leaf Strat.snil))) (Strat.scons (Strat.pick 6 Strat.leaf) Strat.snil))))) Strat.snil))))))) (Strat.scons (Strat.pick 1 (Strat.all (Strat.scons (Strat.pick 7 Strat.leaf) (Strat.scons (Strat.pick 7 Strat.leaf) (Strat.scons (Strat.pick 7 Strat.leaf) (Strat.scons (Strat.pick 8 (Strat.all (Strat.scons (Strat.pick 6 (Strat.all (Strat.scons Strat.leaf Strat.snil))) (Strat.scons (Strat.pick 0 Strat.leaf) (Strat.scons (Strat.pick 0 Strat.leaf) Strat.snil))))) (Strat.scons (Strat.pick 7 Strat.leaf) Strat.snil))))))) (Strat.scons (Strat.pick 0 (Strat.all (Strat.scons (Strat.pick 8 Strat.leaf) (Strat.scons (Strat.pick 8 Strat.leaf) (Strat.scons (Strat.pick 8 Strat.leaf) (Strat.scons (Strat.pick 8 Strat.leaf) (Strat.scons (Strat.pick 2 (Strat.all (Strat.scons (Strat.pick 6 Strat.leaf) (Strat.scons (Strat.pick 1 Strat.leaf) (Strat.scons (Strat.pick 1 Strat.leaf) Strat.snil))))) Strat.snil))))))) (Strat.scons (Strat.pick 0 (Strat.all (Strat.scons (Strat.pick 8 Strat.leaf) (Strat.scons (Strat.pick 8 Strat.leaf) (Strat.scons (Strat.pick 8 Strat.leaf) (Strat.scons (Strat.pick 8 Strat.leaf) (Strat.scons (Strat.pick 7 (Strat.all (Strat.scons (Strat.pick 2 (Strat.all (Strat.scons Strat.leaf Strat.snil))) (Strat.scons (Strat.pick 1 Strat.leaf) (Strat.scons (Strat.pick 1 Strat.leaf) Strat.snil))))) Strat.snil))))))) (Strat.scons (Strat.pick 0 (Strat.all (Strat.scons (Strat.pick 8 Strat.leaf) (Strat.scons (Strat.pick 8 Strat.leaf) (Strat.scons (Strat.pick 8 Strat.leaf) (Strat.scons (Strat.pick 8 Strat.leaf) (Strat.scons (Strat.pick 6 (Strat.all (Strat.scons (Strat.pick 2 Strat.leaf) (Strat.scons (Strat.pick 5 (Strat.all (Strat.scons Strat.leaf Strat.snil))) (Strat.scons (Strat.pick 2 Strat.leaf) Strat.snil))))) Strat.snil))))))) (Strat.scons (Strat.pick 1 (Strat.all (Strat.scons (Strat.pick 7 Strat.leaf) (Strat.scons (Strat.pick 7 Strat.leaf) (Strat.scons (Strat.pick 7 Strat.leaf) (Strat.scons (Strat.pick 7 Strat.leaf) (Strat.scons (Strat.pick 6 (Strat.all (Strat.scons (Strat.pick 2 Strat.leaf) (Strat.scons (Strat.pick 5 (Strat.all (Strat.scons Strat.leaf Strat.snil))) (Strat.scons (Strat.pick 2 Strat.leaf) Strat.snil))))) Strat.snil))))))) Strat.snil)))))))))

/-- Lower-bound certificate: plainVal of the empty board with O at 3 is at least 0. -/
def certC9l3 : Strat := (Strat.all (Strat.scons (Strat.pick 4 (Strat.all (Strat.scons (Strat.pick 5 Strat.leaf) (Strat.scons (Strat.pick 5 Strat.leaf) (Strat.scons (Strat.pick 1 (Strat.all (Strat.scons (Strat.pick 7 Strat.leaf) (Strat.scons (Strat.pick 7 Strat.leaf) (Strat.scons (Strat.pick 2 (Strat.all (Strat.scons (Strat.pick 8 Strat.leaf) (Strat.scons (Strat.pick 6 Strat.leaf) Strat.snil)))) (Strat.scons (Strat.pick 7 Strat.leaf) Strat.snil)))))) (Strat.scons (Strat.pick 5 Strat.leaf) (Strat.scons (Strat.pick 5 Strat.leaf) (Strat.scons (Strat.pick 5 Strat.leaf) Strat.snil)))))))) (Strat.scons (Strat.pick 0 (Strat.all (Strat.scons (Strat.pick 6 Strat.leaf) (Strat.scons (Strat.pick 6 Strat.leaf) (Strat.scons (Strat.pick 6 Strat.leaf) (Strat.scons (Strat.pick 4 (Strat.all (Strat.scons (Strat.pick 5 Strat.leaf) (Strat.scons (Strat.pick 8 Strat.leaf) (Strat.scons (Strat.pick 5 Strat.leaf) (Strat.scons (Strat.pick 5 Strat.leaf) Strat.snil)))))) (Strat.scons (Strat.pick 6 Strat.leaf) (Strat.scons (Strat.pick 6 Strat.leaf) Strat.snil)))))))) (Strat.scons (Strat.pick 0 (Strat.all (Strat.scons (Strat.pick 6 Strat.leaf) (Strat.scons (Strat.pick 6 Strat.leaf) (Strat.scons (Strat.pick 6 Strat.leaf) (Strat.scons (Strat.pick 4 (Strat.all (Strat.scons (Strat.pick 5 Strat.leaf) (Strat.scons (Strat.pick 8 Strat.leaf) (Strat.scons (Strat.pick 5 Strat.leaf) (Strat.scons (Strat.pick 5 Strat.leaf) Strat.snil)))))) (Strat.scons (Strat.pick 6 Strat.leaf) (Strat.scons (Strat.pick 6 Strat.leaf) Strat.snil)))))))) (Strat.scons (Strat.pick 0 (Strat.all (Strat.scons (Strat.pick 6 Strat.leaf) (Strat.scons (Strat.pick 6 Strat.leaf) (Strat.scons (Strat.pick 6 Strat.leaf) (Strat.scons (Strat.pick 2 (Strat.all (Strat.scons (Strat.pick 7 (Strat.all (Strat.scons (Strat.pick 8 Strat.leaf) (Strat.scons (Strat.pick 5 Strat.leaf) Strat.snil)))) (Strat.scons (Strat.pick 1 Strat.leaf) (Strat.scons (Strat.pick 1 Strat.leaf) (Strat.scons (Strat.pick 1 Strat.leaf) Strat.snil)))))) (Strat.scons (Strat.pick 6 Strat.leaf) (Strat.scons (Strat.pick 6 Strat.leaf) Strat.snil)))))))) (Strat.scons (Strat.pick 0 (Strat.all (Strat.scons (Strat.pick 6 Strat.leaf) (Strat.scons (Strat.pick 6 Strat.leaf) (Strat.scons (Strat.pick 6 Strat.leaf) (Strat.scons (Strat.pick 2 (Strat.all (Strat.scons (Strat.pick 4 (Strat.all (Strat.scons (Strat.pick 8 Strat.leaf) (Strat.scons (Strat.pick 7 Strat.leaf) Strat.snil)))) (Strat.scons (Strat.pick 1 Strat.leaf) (Strat.scons (Strat.pick 1 Strat.leaf) (Strat.scons (Strat.pick 1 Strat.leaf) Strat.snil)))))) (Strat.scons (Strat.pick 6 Strat.leaf) (Strat.scons (Strat.pick 6 Strat.leaf) Strat.snil)))))))) (Strat.scons (Strat.pick 4 (Strat.all (Strat.scons (Strat.pick 5 Strat.leaf) (Strat.scons (Strat.pick 5 Strat.leaf) (Strat.scons (Strat.pick 5 Strat.leaf) (Strat.scons (Strat.pick 1 (Strat.all (Strat.scons (Strat.pick 7 Strat.leaf) (Strat.scons (Strat.pick 7 Strat.leaf) (Strat.scons (Strat.pick 8 (Strat.all (Strat.scons (Strat.pick 2 Strat.leaf) (Strat.scons (Strat.pick 0 Strat.leaf) Strat.snil)))) (Strat.scons (Strat.pick 7 Strat.leaf) Strat.snil)))))) (Strat.scons (Strat.pick 5 Strat.leaf) (Strat.scons (Strat.pick 5 Strat.leaf) Strat.snil)))))))) (Strat.scons (Strat.pick 4 (Strat.all (Strat.scons (Strat.pick 5 Strat.leaf) (Strat.scons (Strat.pick 5 Strat.leaf) (Strat.scons (Strat.pick 5 Strat.leaf) (Strat.scons (Strat.pick 0 (Strat.all (Strat.scons (Strat.pick 6 Strat.leaf) (Strat.scons (Strat.pick 6 Strat.leaf) (Strat.scons (Strat.pick 8 Strat.leaf) (Strat.scons (Strat.pick 6 Strat.leaf) Strat.snil)))))) (Strat.scons (Strat.pick 5 Strat.leaf) (Strat.scons (Strat.pick 5 Strat.leaf) Strat.snil)))))))) (Strat.scons (Strat.pick 6 (Strat.all (Strat.scons (Strat.pick 4 (Strat.all (Strat.scons (Strat.pick 2 Strat.leaf) (Strat.scons (Strat.pick 5 Strat.leaf) (Strat.scons (Strat.pick 2 Strat.leaf) (Strat.scons (Strat.pick 2 Strat.leaf) Strat.snil)))))) (Strat.scons (Strat.pick 0 Strat.leaf) (Strat.scons (Strat.pick 0 Strat.leaf) (Strat.scons (Strat.pick 0 Strat.leaf) (Strat.scons (Strat.pick 0 Strat.leaf) (Strat.scons (Strat.pick 0 Strat.leaf) Strat.snil)))))))) Strat.snil)))))))))

/-- Upper-bound certificate: plainVal of the empty board with O at 4 is at most 0. -/
def certC9u4 : Strat := (Strat.pick 0 (Strat.all (Strat.scons (Strat.pick 7 (Strat.all (Strat.scons (Strat.pick 6 (Strat.all (Strat.scons (Strat.pick 8 Strat.leaf) (Strat.scons (Strat.pick 3 Strat.leaf) (Strat.scons (Strat.pick 3 Strat.leaf) Strat.snil))))) (Strat.scons (Strat.pick 5 (Strat.all (Strat.scons (Strat.pick 6 (Strat.all (Strat.scons Strat.leaf Strat.snil))) (Strat.scons (Strat.pick 2 (Strat.all (Strat.scons Strat.leaf Strat.snil))) (Strat.scons (Strat.pick 2 (Strat.all (Strat.scons Strat.leaf Strat.snil))) Strat.snil))))) (Strat.scons (Strat.pick 3 (Strat.all (Strat.scons (Strat.pick 6 Strat.leaf) (Strat.scons (Strat.pick 2 (Strat.all (Strat.scons Strat.leaf Strat.snil))) (Strat.scons (Strat.pick 6 Strat.leaf) Strat.snil))))) (Strat.scons (Strat.pick 2 (Strat.all (Strat.scons (Strat.pick 5 (Strat.all (Strat.scons Strat.leaf Strat.snil))) (Strat.scons (Strat.pick 3 (Strat.all (Strat.scons Strat.leaf Strat.snil))) (Strat.scons (Strat.pick 3 (Strat.all (Strat.scons Strat.leaf Strat.snil))) Strat.snil))))) (Strat.scons (Strat.pick 3 (Strat.all (Strat.scons (Strat.pick 6 Strat.leaf) (Strat.scons (Strat.pick 6 Strat.leaf) (Strat.scons (Strat.pick 2 (Strat.all (Strat.scons Strat.leaf Strat.snil))) Strat.snil))))) Strat.snil))))))) (Strat.scons (Strat.pick 6 (Strat.all (Strat.scons (Strat.pick 3 Strat.leaf) (Strat.scons (Strat.pick 5 (Strat.all (Strat.scons (Strat.pick 7 (Strat.all (Strat.scons Strat.leaf Strat.snil))) (Strat.scons (Strat.pick 1 (Strat.all (Strat.scons Strat.leaf Strat.snil))) (Strat.scons (Strat.pick 1 (Strat.all (Strat.scons Strat.leaf Strat.snil))) Strat.snil))))) (Strat.scons (Strat.pick 3 Strat.leaf) (Strat.scons (Strat.pick 3 Strat.leaf) (Strat.scons (Strat.pick 3 Strat.leaf) Strat.snil))))))) (Strat.scons (Strat.pick 5 (Strat.all (Strat.scons (Strat.pick 7 (Strat.all (Strat.scons (Strat.pick 6 (Strat.all (Strat.scons Strat.leaf Strat.snil))) (Strat.scons (Strat.pick 2 (Strat.all (Strat.scons Strat.leaf Strat.snil))) (Strat.scons (Strat.pick 2 (Strat.all (Strat.scons Strat.leaf Strat.snil))) Strat.snil))))) (Strat.scons (Strat.pick 6 (Strat.all (Strat.scons (Strat.pick 7 (Strat.all (Strat.scons Strat.leaf Strat.snil))) (Strat.scons (Strat.pick 1 (Strat.all (Strat.scons Strat.leaf Strat.snil))) (Strat.scons (Strat.pick 1 (Strat.all (Strat.scons Strat.leaf Strat.snil))) Strat.snil))))) (Strat.scons (Strat.pick 2 (Strat.all (Strat.scons (Strat.pick 8 Strat.leaf) (Strat.scons (Strat.pick 1 Strat.leaf) (Strat.scons (Strat.pick 1 Strat.leaf) Strat.snil))))) (Strat.scons (Strat.pick 1 (Strat.all (Strat.scons (Strat.pick 6 (Strat.all (Strat.scons Strat.leaf Strat.snil))) (Strat.scons (Strat.pick 2 Strat.leaf) (Strat.scons (Strat.pick 2 Strat.leaf) Strat.snil))))) (Strat.scons (Strat.pick 1 (Strat.all (Strat.scons (Strat.pick 6 (Strat.all (Strat.scons Strat.leaf Strat.snil))) (Strat.scons (Strat.pick 2 Strat.leaf) (Strat.scons (Strat.pick 2 Strat.leaf) Strat.snil))))) Strat.snil))))))) (Strat.scons (Strat.pick 3 (Strat.all (Strat.scons (Strat.pick 6 Strat.leaf) (Strat.scons (Strat.pick 6 Strat.leaf) (Strat.scons (Strat.pick 2 (Strat.all (Strat.scons (Strat.pick 7 (Strat.all (Strat.scons Strat.leaf Strat.snil))) (Strat.scons (Strat.pick 1 Strat.leaf) (Strat.scons (Strat.pick 1 Strat.leaf) Strat.snil))))) (Strat.scons (Strat.pick 6 Strat.leaf) (Strat.scons (Strat.pick 6 Strat.leaf) Strat.snil))))))) (Strat.scons (Strat.pick 2 (Strat.all (Strat.scons (Strat.pick 7 (Strat.all (Strat.scons (Strat.pick 5 (Strat.all (Strat.scons Strat.leaf Strat.snil))) (Strat.scons (Strat.pick 3 (Strat.all (Strat.scons Strat.leaf Strat.snil))) (Strat.scons (Strat.pick 3 (Strat.all (Strat.scons Strat.leaf Strat.snil))) Strat.snil))))) (Strat.scons (Strat.pick 1 Strat.leaf) (Strat.scons (Strat.pick 1 Strat.leaf) (Strat.scons (Strat.pick 1 Strat.leaf) (Strat.scons (Strat.pick 1 Strat.leaf) Strat.snil))))))) (Strat.scons (Strat.pick 1 (Strat.all (Strat.scons (Strat.pick 6 (Strat.all (Strat.scons (Strat.pick 5 (Strat.all (Strat.scons Strat.leaf Strat.snil))) (Strat.scons (Strat.pick 3 Strat.leaf) (Strat.scons (Strat.pick 3 Strat.leaf) Strat.snil))))) (Strat.scons (Strat.pick 2 Strat.leaf) (Strat.scons (Strat.pick 2 Strat.leaf) (Strat.scons (Strat.pick 2 Strat.leaf) (Strat.scons (Strat.pick 2 Strat.leaf) Strat.snil))))))) (Strat.scons (Strat.pick 2 (Strat.all (Strat.scons (Strat.pick 7 (Strat.all (Strat.scons (Strat.pick 5 (Strat.all (Strat.scons Strat.leaf Strat.snil))) (Strat.scons (Strat.pick 3 (Strat.all (Strat.scons Strat.leaf Strat.snil))) (Strat.scons (Strat.pick 3 (Strat.all (Strat.scons Strat.leaf Strat.snil))) Strat.snil))))) (Strat.scons (Strat.pick 1 Strat.leaf) (Strat.scons (Strat.pick 1 Strat.leaf) (Strat.scons (Strat.pick 1 Strat.leaf) (Strat.scons (Strat.pick 1 Strat.leaf) Strat.snil))))))) Strat.snil)))))))))

/-- Lower-bound certificate: plainVal of the empty board with O at 4 is at least 0. -/
def certC9l4 : Strat := (Strat.all (Strat.scons (Strat.pick 1 (Strat.all (Strat.scons (Strat.pick 7 Strat.leaf) (Strat.scons (Strat.pick 7 Strat.leaf) (Strat.scons (Strat.pick 7 Strat.leaf) (Strat.scons (Strat.pick 7 Strat.leaf) (Strat.scons (Strat.pick 3 (Strat.all (Strat.scons (Strat.pick 5 Strat.leaf) (Strat.scons (Strat.pick 2 (Strat.all (Strat.scons (Strat.pick 8 Strat.leaf) (Strat.scons (Strat.pick 6 Strat.leaf) Strat.snil)))) (Strat.scons (Strat.pick 5 Strat.leaf) (Strat.scons (Strat.pick 5 Strat.leaf) Strat.snil)))))) (Strat.scons (Strat.pick 7 Strat.leaf) Strat.snil)))))))) (Strat.scons (Strat.pick 0 (Strat.all (Strat.scons (Strat.pick 8 Strat.leaf) (Strat.scons (Strat.pick 8 Strat.leaf) (Strat.scons (Strat.pick 8 Strat.leaf) (Strat.scons (Strat.pick 8 Strat.leaf) (Strat.scons (Strat.pick 8 Strat.leaf) (Strat.scons (Strat.pick 3 (Strat.all (Strat.scons (Strat.pick 5 Strat.leaf) (Strat.scons (Strat.pick 6 Strat.leaf) (Strat.scons (Strat.pick 5 Strat.leaf) (Strat.scons (Strat.pick 5 Strat.leaf) Strat.snil)))))) Strat.snil)))))))) (Strat.scons (Strat.pick 0 (Strat.all (Strat.scons (Strat.pick 8 Strat.leaf) (Strat.scons (Strat.pick 8 Strat.leaf) (Strat.scons (Strat.pick 8 Strat.leaf) (Strat.scons (Strat.pick 8 Strat.leaf) (Strat.scons (Strat.pick 8 Strat.leaf) (Strat.scons (Strat.pick 5 (Strat.all (Strat.scons (Strat.pick 3 Strat.leaf) (Strat.scons (Strat.pick 1 (Strat.all (Strat.scons (Strat.pick 7 Strat.leaf) (Strat.scons (Strat.pick 6 Strat.leaf) Strat.snil)))) (Strat.scons (Strat.pick 3 Strat.leaf) (Strat.scons (Strat.pick 3 Strat.leaf) Strat.snil)))))) Strat.snil)))))))) (Strat.scons (Strat.pick 0 (Strat.all (Strat.scons (Strat.pick 8 Strat.leaf) (Strat.scons (Strat.pick 8 Strat.leaf) (Strat.scons (Strat.pick 8 Strat.leaf) (Strat.scons (Strat.pick 8 Strat.leaf) (Strat.scons (Strat.pick 8 Strat.leaf) (Strat.scons (Strat.pick 1 (Strat.all (Strat.scons (Strat.pick 7 Strat.leaf) (Strat.scons (Strat.pick 2 Strat.leaf) (Strat.scons (Strat.pick 2 Strat.leaf) (Strat.scons (Strat.pick 2 Strat.leaf) Strat.snil)))))) Strat.snil)))))))) (Strat.scons (Strat.pick 0 (Strat.all (Strat.scons (Strat.pick 8 Strat.leaf) (Strat.scons (Strat.pick 8 Strat.leaf) (Strat.scons (Strat.pick 8 Strat.leaf) (Strat.scons (Strat.pick 8 Strat.leaf) (Strat.scons (Strat.pick 8 Strat.leaf) (Strat.scons (Strat.pick 2 (Strat.all (Strat.scons (Strat.pick 6 Strat.leaf) (Strat.scons (Strat.pick 1 Strat.leaf) (Strat.scons (Strat.pick 1 Strat.leaf) (Strat.scons (Strat.pick 1 Strat.leaf) Strat.snil)))))) Strat.snil)))))))) (Strat.scons (Strat.pick 0 (Strat.all (Strat.scons (Strat.pick 8 Strat.leaf) (Strat.scons (Strat.pick 8 Strat.leaf) (Strat.scons (Strat.pick 8 Strat.leaf) (Strat.scons (Strat.pick 8 Strat.leaf) (Strat.scons (Strat.pick 8 Strat.leaf) (Strat.scons (Strat.pick 7 (Strat.all (Strat.scons (Strat.pick 2 (Strat.all (Strat.scons (Strat.pick 5 Strat.leaf) (Strat.scons (Strat.pick 3 Strat.leaf) Strat.snil)))) (Strat.scons (Strat.pick 1 Strat.leaf) (Strat.scons (Strat.pick 1 Strat.leaf) (Strat.scons (Strat.pick 1 Strat.leaf) Strat.snil)))))) Strat.snil)))))))) (Strat.scons (Strat.pick 0 (Strat.all (Strat.scons (Strat.pick 8 Strat.leaf) (Strat.scons (Strat.pick 8 Strat.leaf) (Strat.scons (Strat.pick 8 Strat.leaf) (Strat.scons (Strat.pick 8 Strat.leaf) (Strat.scons (Strat.pick 8 Strat.leaf) (Strat.scons (Strat.pick 6 (Strat.all (Strat.scons (Strat.pick 2 Strat.leaf) (Strat.scons (Strat.pick 3 Strat.leaf) (Strat.scons (Strat.pick 2 Strat.leaf) (Strat.scons (Strat.pick 2 Strat.leaf) Strat.snil)))))) Strat.snil)))))))) (Strat.scons (Strat.pick 1 (Strat.all (Strat.scons (Strat.pick 7 Strat.leaf) (Strat.scons (Strat.pick 7 Strat.leaf) (Strat.scons (Strat.pick 7 Strat.leaf) (Strat.scons (Strat.pick 7 Strat.leaf) (Strat.scons (Strat.pick 7 Strat.leaf) (Strat.scons (Strat.pick 6 (Strat.all (Strat.scons (Strat.pick 2 Strat.leaf) (Strat.scons (Strat.pick 5 (Strat.all (Strat.scons (Strat.pick 3 Strat.leaf) (Strat.scons (Strat.pick 0 Strat.leaf) Strat.snil)))) (Strat.scons (Strat.pick 2 Strat.leaf) (Strat.scons (Strat.pick 2 Strat.leaf) Strat.snil)))))) Strat.snil)))))))) Strat.snil)))))))))

/-- Upper-bound certificate: plainVal of the empty board with O at 5 is at most 0. -/
def certC9u5 : Strat := (Strat.pick 4 (Strat.all (Strat.scons (Strat.pick 1 (Strat.all (Strat.scons (Strat.pick 7 Strat.leaf) (Strat.scons (Strat.pick 7 Strat.leaf) (Strat.scons (Strat.pick 7 Strat.leaf) (Strat.scons (Strat.pick 6 (Strat.all (Strat.scons (Strat.pick 8 (Strat.all (Strat.scons Strat.leaf Strat.snil))) (Strat.scons (Strat.pick 2 Strat.leaf) (Strat.scons (Strat.pick 2 Strat.leaf) Strat.snil))))) (Strat.scons (Strat.pick 7 Strat.leaf) Strat.snil))))))) (Strat.scons (Strat.pick 0 (Strat.all (Strat.scons (Strat.pick 8 Strat.leaf) (Strat.scons (Strat.pick 8 Strat.leaf) (Strat.scons (Strat.pick 8 Strat.leaf) (Strat.scons (Strat.pick 8 Strat.leaf) (Strat.scons (Strat.pick 2 (Strat.all (Strat.scons (Strat.pick 6 Strat.leaf) (Strat.scons (Strat.pick 7 (Strat.all (Strat.scons Strat.leaf Strat.snil))) (Strat.scons (Strat.pick 6 Strat.leaf) Strat.snil))))) Strat.snil))))))) (Strat.scons (Strat.pick 8 (Strat.all (Strat.scons (Strat.pick 1 (Strat.all (Strat.scons (Strat.pick 7 Strat.leaf) (Strat.scons (Strat.pick 7 Strat.leaf) (Strat.scons (Strat.pick 3 (Strat.all (Strat.scons Strat.leaf Strat.snil))) Strat.snil))))) (Strat.scons (Strat.pick 0 Strat.leaf) (Strat.scons (Strat.pick 0 Strat.leaf) (Strat.scons (Strat.pick 0 Strat.leaf) (Strat.scons (Strat.pick 0 Strat.leaf) Strat.snil))))))) (Strat.scons (Strat.pick 0 (Strat.all (Strat.scons (Strat.pick 8 Strat.leaf) (Strat.scons (Strat.pick 8 Strat.leaf) (Strat.scons (Strat.pick 8 Strat.leaf) (Strat.scons (Strat.pick 8 Strat.leaf) (Strat.scons (Strat.pick 2 (Strat.all (Strat.scons (Strat.pick 6 Strat.leaf) (Strat.scons (Strat.pick 1 Strat.leaf) (Strat.scons (Strat.pick 1 Strat.leaf) Strat.snil))))) Strat.snil))))))) (Strat.scons (Strat.pick 1 (Strat.all (Strat.scons (Strat.pick 7 Strat.leaf) (Strat.scons (Strat.pick 7 Strat.leaf) (Strat.scons (Strat.pick 7 Strat.leaf) (Strat.scons (Strat.pick 8 (Strat.all (Strat.scons (Strat.pick 3 (Strat.all (Strat.scons Strat.leaf Strat.snil))) (Strat.scons (Strat.pick 0 Strat.leaf) (Strat.scons (Strat.pick 0 Strat.leaf) Strat.snil))))) (Strat.scons (Strat.pick 7 Strat.leaf) Strat.snil))))))) (Strat.scons (Strat.pick 2 (Strat.all (Strat.scons (Strat.pick 6 Strat.leaf) (Strat.scons (Strat.pick 6 Strat.leaf) (Strat.scons (Strat.pick 6 Strat.leaf) (Strat.scons (Strat.pick 8 (Strat.all (Strat.scons (Strat.pick 3 (Strat.all (Strat.scons Strat.leaf Strat.snil))) (Strat.scons (Strat.pick 0 Strat.leaf) (Strat.scons (Strat.pick 0 Strat.leaf) Strat.snil))))) (Strat.scons (Strat.pick 6 Strat.leaf) Strat.snil))))))) (Strat.scons (Strat.pick 2 (Strat.all (Strat.scons (Strat.pick 6 Strat.leaf) (Strat.scons (Strat.pick 6 Strat.leaf) (Strat.scons (Strat.pick 6 Strat.leaf) (Strat.scons (Strat.pick 7 (Strat.all (Strat.scons (Strat.pick 1 Strat.leaf) (Strat.scons (Strat.pick 0 (Strat.all (Strat.scons Strat.leaf Strat.snil))) (Strat.scons (Strat.pick 1 Strat.leaf) Strat.snil))))) (Strat.scons (Strat.pick 6 Strat.leaf) Strat.snil))))))) Strat.snil)))))))))

/-- Lower-bound certificate: plainVal of the empty board with O at 5 is at least 0. -/
def certC9l5 : Strat := (Strat.all (Strat.scons (Strat.pick 2 (Strat.all (Strat.scons (Strat.pick 8 Strat.leaf) (Strat.scons (Strat.pick 8 Strat.leaf) (Strat.scons (Strat.pick 8 Strat.leaf) (Strat.scons (Strat.pick 8 Strat.leaf) (Strat.scons (Strat.pick 8 Strat.leaf) (Strat.scons (Strat.pick 4 (Strat.all (Strat.scons (Strat.pick 3 Strat.leaf) (Strat.scons (Strat.pick 6 Strat.leaf) (Strat.scons (Strat.pick 3 Strat.leaf) (Strat.scons (Strat.pick 3 Strat.leaf) Strat.snil)))))) Strat.snil)))))))) (Strat.scons (Strat.pick 2 (Strat.all (Strat.scons (Strat.pick 8 Strat.leaf) (Strat.scons (Strat.pick 8 Strat.leaf) (Strat.scons (Strat.pick 8 Strat.leaf) (Strat.scons (Strat.pick 8 Strat.leaf) (Strat.scons (Strat.pick 8 Strat.leaf) (Strat.scons (Strat.pick 4 (Strat.all (Strat.scons (Strat.pick 3 Strat.leaf) (Strat.scons (Strat.pick 6 Strat.leaf) (Strat.scons (Strat.pick 3 Strat.leaf) (Strat.scons (Strat.pick 3 Strat.leaf) Strat.snil)))))) Strat.snil)))))))) (Strat.scons (Strat.pick 4 (Strat.all (Strat.scons (Strat.pick 3 Strat.leaf) (Strat.scons (Strat.pick 3 Strat.leaf) (Strat.scons (Strat.pick 0 (Strat.all (Strat.scons (Strat.pick 8 Strat.leaf) (Strat.scons (Strat.pick 8 Strat.leaf) (Strat.scons (Strat.pick 8 Strat.leaf) (Strat.scons (Strat.pick 1 (Strat.all (Strat.scons (Strat.pick 7 Strat.leaf) (Strat.scons (Strat.pick 6 Strat.leaf) Strat.snil)))) Strat.snil)))))) (Strat.scons (Strat.pick 3 Strat.leaf) (Strat.scons (Strat.pick 3 Strat.leaf) (Strat.scons (Strat.pick 3 Strat.leaf) Strat.snil)))))))) (Strat.scons (Strat.pick 2 (Strat.all (Strat.scons (Strat.pick 8 Strat.leaf) (Strat.scons (Strat.pick 8 Strat.leaf) (Strat.scons (Strat.pick 8 Strat.leaf) (Strat.scons (Strat.pick 8 Strat.leaf) (Strat.scons (Strat.pick 8 Strat.leaf) (Strat.scons (Strat.pick 0 (Strat.all (Strat.scons (Strat.pick 4 (Strat.all (Strat.scons (Strat.pick 7 Strat.leaf) (Strat.scons (Strat.pick 6 Strat.leaf) Strat.snil)))) (Strat.scons (Strat.pick 1 Strat.leaf) (Strat.scons (Strat.pick 1 Strat.leaf) (Strat.scons (Strat.pick 1 Strat.leaf) Strat.snil)))))) Strat.snil)))))))) (Strat.scons (Strat.pick 2 (Strat.all (Strat.scons (Strat.pick 8 Strat.leaf) (Strat.scons (Strat.pick 8 Strat.leaf) (Strat.scons (Strat.pick 8 Strat.leaf) (Strat.scons (Strat.pick 8 Strat.leaf) (Strat.scons (Strat.pick 8 Strat.leaf) (Strat.scons (Strat.pick 0 (Strat.all (Strat.scons (Strat.pick 7 (Strat.all (Strat.scons (Strat.pick 6 Strat.leaf) (Strat.scons (Strat.pick 3 Strat.leaf) Strat.snil)))) (Strat.scons (Strat.pick 1 Strat.leaf) (Strat.scons (Strat.pick 1 Strat.leaf) (Strat.scons (Strat.pick 1 Strat.leaf) Strat.snil)))))) Strat.snil)))))))) (Strat.scons (Strat.pick 8 (Strat.all (Strat.scons (Strat.pick 2 Strat.leaf) (Strat.scons (Strat.pick 2 Strat.leaf) (Strat.scons (Strat.pick 4 (Strat.all (Strat.scons (Strat.pick 3 Strat.leaf) (Strat.scons (Strat.pick 0 Strat.leaf) (Strat.scons (Strat.pick 0 Strat.leaf) (Strat.scons (Strat.pick 0 Strat.leaf) Strat.snil)))))) (Strat.scons (Strat.pick 2 Strat.leaf) (Strat.scons (Strat.pick 2 Strat.leaf) (Strat.scons (Strat.pick 2 Strat.leaf) Strat.snil)))))))) (Strat.scons (Strat.pick 4 (Strat.all (Strat.scons (Strat.pick 3 Strat.leaf) (Strat.scons (Strat.pick 3 Strat.leaf) (Strat.scons (Strat.pick 3 Strat.leaf) (Strat.scons (Strat.pick 2 (Strat.all (Strat.scons (Strat.pick 6 Strat.leaf) (Strat.scons (Strat.pick 6 Strat.leaf) (Strat.scons (Strat.pick 8 Strat.leaf) (Strat.scons (Strat.pick 6 Strat.leaf) Strat.snil)))))) (Strat.scons (Strat.pick 3 Strat.leaf) (Strat.scons (Strat.pick 3 Strat.leaf) Strat.snil)))))))) (Strat.scons (Strat.pick 4 (Strat.all (Strat.scons (Strat.pick 3 Strat.leaf) (Strat.scons (Strat.pick 3 Strat.leaf) (Strat.scons (Strat.pick 3 Strat.leaf) (Strat.scons (Strat.pick 1 (Strat.all (Strat.scons (Strat.pick 7 Strat.leaf) (Strat.scons (Strat.pick 7 Strat.leaf) (Strat.scons (Strat.pick 7 Strat.leaf) (Strat.scons (Strat.pick 6 (Strat.all (Strat.scons (Strat.pick 2 Strat.leaf) (Strat.scons (Strat.pick 0 Strat.leaf) Strat.snil)))) Strat.snil)))))) (Strat.scons (Strat.pick 3 Strat.leaf) (Strat.scons (Strat.pick 3 Strat.leaf) Strat.snil)))))))) Strat.snil)))))))))

/-- Upper-bound certificate: plainVal of the empty board with O at 6 is at most 0. -/
def certC9u6 : Strat := (Strat.pick 4 (Strat.all (Strat.scons (Strat.pick 3 (Strat.all (Strat.scons (Strat.pick 5 Strat.leaf) (Strat.scons (Strat.pick 5 Strat.leaf) (Strat.scons (Strat.pick 1 (Strat.all (Strat.scons (Strat.pick 7 Strat.leaf) (Strat.scons (Strat.pick 8 (Strat.all (Strat.scons Strat.leaf Strat.snil))) (Strat.scons (Strat.pick 7 Strat.leaf) Strat.snil))))) (Strat.scons (Strat.pick 5 Strat.leaf) (Strat.scons (Strat.pick 5 Strat.leaf) Strat.snil))))))) (Strat.scons (Strat.pick 3 (Strat.all (Strat.scons (Strat.pick 5 Strat.leaf) (Strat.scons (Strat.pick 5 Strat.leaf) (Strat.scons (Strat.pick 8 (Strat.all (Strat.scons (Strat.pick 2 (Strat.all (Strat.scons Strat.leaf Strat.snil))) (Strat.scons (Strat.pick 0 Strat.leaf) (Strat.scons (Strat.pick 0 Strat.leaf) Strat.snil))))) (Strat.scons (Strat.pick 5 Strat.leaf) (Strat.scons (Strat.pick 5 Strat.leaf) Strat.snil))))))) (Strat.scons (Strat.pick 1 (Strat.all (Strat.scons (Strat.pick 7 Strat.leaf) (Strat.scons (Strat.pick 7 Strat.leaf) (Strat.scons (Strat.pick 7 Strat.leaf) (Strat.scons (Strat.pick 8 (Strat.all (Strat.scons (Strat.pick 3 (Strat.all (Strat.scons Strat.leaf Strat.snil))) (Strat.scons (Strat.pick 0 Strat.leaf) (Strat.scons (Strat.pick 0 Strat.leaf) Strat.snil))))) (Strat.scons (Strat.pick 7 Strat.leaf) Strat.snil))))))) (Strat.scons (Strat.pick 0 (Strat.all (Strat.scons (Strat.pick 8 Strat.leaf) (Strat.scons (Strat.pick 8 Strat.leaf) (Strat.scons (Strat.pick 8 Strat.leaf) (Strat.scons (Strat.pick 8 Strat.leaf) (Strat.scons (Strat.pick 7 (Strat.all (Strat.scons (Strat.pick 2 (Strat.all (Strat.scons Strat.leaf Strat.snil))) (Strat.scons (Strat.pick 1 Strat.leaf) (Strat.scons (Strat.pick 1 Strat.leaf) Strat.snil))))) Strat.snil))))))) (Strat.scons (Strat.pick 1 (Strat.all (Strat.scons (Strat.pick 7 Strat.leaf) (Strat.scons (Strat.pick 7 Strat.leaf) (Strat.scons (Strat.pick 7 Strat.leaf) (Strat.scons (Strat.pick 8 (Strat.all (Strat.scons (Strat.pick 3 (Strat.all (Strat.scons Strat.leaf Strat.snil))) (Strat.scons (Strat.pick 0 Strat.leaf) (Strat.scons (Strat.pick 0 Strat.leaf) Strat.snil))))) (Strat.scons (Strat.pick 7 Strat.leaf) Strat.snil))))))) (Strat.scons (Strat.pick 8 (Strat.all (Strat.scons (Strat.pick 3 (Strat.all (Strat.scons (Strat.pick 5 Strat.leaf) (Strat.scons (Strat.pick 5 Strat.leaf) (Strat.scons (Strat.pick 1 (Strat.all (Strat.scons Strat.leaf Strat.snil))) Strat.snil))))) (Strat.scons (Strat.pick 0 Strat.leaf) (Strat.scons (Strat.pick 0 Strat.leaf) (Strat.scons (Strat.pick 0 Strat.leaf) (Strat.scons (Strat.pick 0 Strat.leaf) Strat.snil))))))) (Strat.scons (Strat.pick 7 (Strat.all (Strat.scons (Strat.pick 1 Strat.leaf) (Strat.scons (Strat.pick 3 (Strat.all (Strat.scons (Strat.pick 5 Strat.leaf) (Strat.scons (Strat.pick 5 Strat.leaf) (Strat.scons (Strat.pick 2 (Strat.all (Strat.scons Strat.leaf Strat.snil))) Strat.snil))))) (Strat.scons (Strat.pick 1 Strat.leaf) (Strat.scons (Strat.pick 1 Strat.leaf) (Strat.scons (Strat.pick 1 Strat.leaf) Strat.snil))))))) Strat.snil)))))))))

/-- Lower-bound certificate: plainVal of the empty board with O at 6 is at least 0. -/
def certC9l6 : Strat := (Strat.all (Strat.scons (Strat.pick 2 (Strat.all (Strat.scons (Strat.pick 4 Strat.leaf) (Strat.scons (Strat.pick 4 Strat.leaf) (Strat.scons (Strat.pick 8 (Strat.all (Strat.scons (Strat.pick 5 Strat.leaf) (Strat.scons (Strat.pick 5 Strat.leaf) (Strat.scons (Strat.pick 7 Strat.leaf) (Strat.scons (Strat.pick 5 Strat.leaf) Strat.snil)))))) (Strat.scons (Strat.pick 4 Strat.leaf) (Strat.scons (Strat.pick 4 Strat.leaf) (Strat.scons (Strat.pick 4 Strat.leaf) Strat.snil)))))))) (Strat.scons (Strat.pick 0 (Strat.all (Strat.scons (Strat.pick 3 Strat.leaf) (Strat.scons (Strat.pick 4 (Strat.all (Strat.scons (Strat.pick 8 Strat.leaf) (Strat.scons (Strat.pick 2 Strat.leaf) (Strat.scons (Strat.pick 2 Strat.leaf) (Strat.scons (Strat.pick 2 Strat.leaf) Strat.snil)))))) (Strat.scons (Strat.pick 3 Strat.leaf) (Strat.scons (Strat.pick 3 Strat.leaf) (Strat.scons (Strat.pick 3 Strat.leaf) (Strat.scons (Strat.pick 3 Strat.leaf) Strat.snil)))))))) (Strat.scons (Strat.pick 0 (Strat.all (Strat.scons (Strat.pick 3 Strat.leaf) (Strat.scons (Strat.pick 8 (Strat.all (Strat.scons (Strat.pick 4 Strat.leaf) (Strat.scons (Strat.pick 7 Strat.leaf) (Strat.scons (Strat.pick 4 Strat.leaf) (Strat.scons (Strat.pick 4 Strat.leaf) Strat.snil)))))) (Strat.scons (Strat.pick 3 Strat.leaf) (Strat.scons (Strat.pick 3 Strat.leaf) (Strat.scons (Strat.pick 3 Strat.leaf) (Strat.scons (Strat.pick 3 Strat.leaf) Strat.snil)))))))) (Strat.scons (Strat.pick 4 (Strat.all (Strat.scons (Strat.pick 2 Strat.leaf) (Strat.scons (Strat.pick 2 Strat.leaf) (Strat.scons (Strat.pick 7 (Strat.all (Strat.scons (Strat.pick 1 Strat.leaf) (Strat.scons (Strat.pick 8 Strat.leaf) (Strat.scons (Strat.pick 1 Strat.leaf) (Strat.scons (Strat.pick 1 Strat.leaf) Strat.snil)))))) (Strat.scons (Strat.pick 2 Strat.leaf) (Strat.scons (Strat.pick 2 Strat.leaf) (Strat.scons (Strat.pick 2 Strat.leaf) Strat.snil)))))))) (Strat.scons (Strat.pick 3 (Strat.all (Strat.scons (Strat.pick 8 (Strat.all (Strat.scons (Strat.pick 7 Strat.leaf) (Strat.scons (Strat.pick 7 Strat.leaf) (Strat.scons (Strat.pick 7 Strat.leaf) (Strat.scons (Strat.pick 1 (Strat.all (Strat.scons (Strat.pick 5 Strat.leaf) (Strat.scons (Strat.pick 2 Strat.leaf) Strat.snil)))) Strat.snil)))))) (Strat.scons (Strat.pick 0 Strat.leaf) (Strat.scons (Strat.pick 0 Strat.leaf) (Strat.scons (Strat.pick 0 Strat.leaf) (Strat.scons (Strat.pick 0 Strat.leaf) (Strat.scons (Strat.pick 0 Strat.leaf) Strat.snil)))))))) (Strat.scons (Strat.pick 0 (Strat.all (Strat.scons (Strat.pick 3 Strat.leaf) (Strat.scons (Strat.pick 3 Strat.leaf) (Strat.scons (Strat.pick 4 (Strat.all (Strat.scons (Strat.pick 2 Strat.leaf) (Strat.scons (Strat.pick 8 Strat.leaf) (Strat.scons (Strat.pick 2 Strat.leaf) (Strat.scons (Strat.pick 2 Strat.leaf) Strat.snil)))))) (Strat.scons (Strat.pick 3 Strat.leaf) (Strat.scons (Strat.pick 3 Strat.leaf) (Strat.scons (Strat.pick 3 Strat.leaf) Strat.snil)))))))) (Strat.scons (Strat.pick 0 (Strat.all (Strat.scons (Strat.pick 3 Strat.leaf) (Strat.scons (Strat.pick 3 Strat.leaf) (Strat.scons (Strat.pick 2 (Strat.all (Strat.scons (Strat.pick 4 Strat.leaf) (Strat.scons (Strat.pick 1 Strat.leaf) (Strat.scons (Strat.pick 1 Strat.leaf) (Strat.scons (Strat.pick 1 Strat.leaf) Strat.snil)))))) (Strat.scons (Strat.pick 3 Strat.leaf) (Strat.scons (Strat.pick 3 Strat.leaf) (Strat.scons (Strat.pick 3 Strat.leaf) Strat.snil)))))))) (Strat.scons (Strat.pick 0 (Strat.all (Strat.scons (Strat.pick 3 Strat.leaf) (Strat.scons (Strat.pick 3 Strat.leaf) (Strat.scons (Strat.pick 2 (Strat.all (Strat.scons (Strat.pick 4 Strat.leaf) (Strat.scons (Strat.pick 1 Strat.leaf) (Strat.scons (Strat.pick 1 Strat.leaf) (Strat.scons (Strat.pick 1 Strat.leaf) Strat.snil)))))) (Strat.scons (Strat.pick 3 Strat.leaf) (Strat.scons (Strat.pick 3 Strat.leaf) (Strat.scons (Strat.pick 3 Strat.leaf) Strat.snil)))))))) Strat.snil)))))))))

/-- Upper-bound certificate: plainVal of the empty board with O at 7 is at most 0. -/
def certC9u7 : Strat := (Strat.pick 4 (Strat.all (Strat.scons (Strat.pick 3 (Strat.all (Strat.scons (Strat.pick 5 Strat.leaf) (Strat.scons (Strat.pick 5 Strat.leaf) (Strat.scons (Strat.pick 2 (Strat.all (Strat.scons (Strat.pick 6 Strat.leaf) (Strat.scons (Strat.pick 8 (Strat.all (Strat.scons Strat.leaf Strat.snil))) (Strat.scons (Strat.pick 6 Strat.leaf) Strat.snil))))) (Strat.scons (Strat.pick 5 Strat.leaf) (Strat.scons (Strat.pick 5 Strat.leaf) Strat.snil))))))) (Strat.scons (Strat.pick 0 (Strat.all (Strat.scons (Strat.pick 8 Strat.leaf) (Strat.scons (Strat.pick 8 Strat.leaf) (Strat.scons (Strat.pick 8 Strat.leaf) (Strat.scons (Strat.pick 8 Strat.leaf) (Strat.scons (Strat.pick 6 (Strat.all (Strat.scons (Strat.pick 3 Strat.leaf) (Strat.scons (Strat.pick 2 Strat.leaf) (Strat.scons (Strat.pick 2 Strat.leaf) Strat.snil))))) Strat.snil))))))) (Strat.scons (Strat.pick 3 (Strat.all (Strat.scons (Strat.pick 5 Strat.leaf) (Strat.scons (Strat.pick 5 Strat.leaf) (Strat.scons (Strat.pick 8 (Strat.all (Strat.scons (Strat.pick 1 (Strat.all (Strat.scons Strat.leaf Strat.snil))) (Strat.scons (Strat.pick 0 Strat.leaf) (Strat.scons (Strat.pick 0 Strat.leaf) Strat.snil))))) (Strat.scons (Strat.pick 5 Strat.leaf) (Strat.scons (Strat.pick 5 Strat.leaf) Strat.snil))))))) (Strat.scons (Strat.pick 0 (Strat.all (Strat.scons (Strat.pick 8 Strat.leaf) (Strat.scons (Strat.pick 8 Strat.leaf) (Strat.scons (Strat.pick 8 Strat.leaf) (Strat.scons (Strat.pick 8 Strat.leaf) (Strat.scons (Strat.pick 6 (Strat.all (Strat.scons (Strat.pick 2 Strat.leaf) (Strat.scons (Strat.pick 5 (Strat.all (Strat.scons Strat.leaf Strat.snil))) (Strat.scons (Strat.pick 2 Strat.leaf) Strat.snil))))) Strat.snil))))))) (Strat.scons (Strat.pick 2 (Strat.all (Strat.scons (Strat.pick 6 Strat.leaf) (Strat.scons (Strat.pick 6 Strat.leaf) (Strat.scons (Strat.pick 6 Strat.leaf) (Strat.scons (Strat.pick 8 (Strat.all (Strat.scons (Strat.pick 3 (Strat.all (Strat.scons Strat.leaf Strat.snil))) (Strat.scons (Strat.pick 0 Strat.leaf) (Strat.scons (Strat.pick 0 Strat.leaf) Strat.snil))))) (Strat.scons (Strat.pick 6 Strat.leaf) Strat.snil))))))) (Strat.scons (Strat.pick 8 (Strat.all (Strat.scons (Strat.pick 3 (Strat.all (Strat.scons (Strat.pick 5 Strat.leaf) (Strat.scons (Strat.pick 5 Strat.leaf) (Strat.scons (Strat.pick 1 (Strat.all (Strat.scons Strat.leaf Strat.snil))) Strat.snil))))) (Strat.scons (Strat.pick 0 Strat.leaf) (Strat.scons (Strat.pick 0 Strat.leaf) (Strat.scons (Strat.pick 0 Strat.leaf) (Strat.scons (Strat.pick 0 Strat.leaf) Strat.snil))))))) (Strat.scons (Strat.pick 6 (Strat.all (Strat.scons (Strat.pick 2 Strat.leaf) (Strat.scons (Strat.pick 2 Strat.leaf) (Strat.scons (Strat.pick 5 (Strat.all (Strat.scons (Strat.pick 3 Strat.leaf) (Strat.scons (Strat.pick 3 Strat.leaf) (Strat.scons (Strat.pick 0 (Strat.all (Strat.scons Strat.leaf Strat.snil))) Strat.snil))))) (Strat.scons (Strat.pick 2 Strat.leaf) (Strat.scons (Strat.pick 2 Strat.leaf) Strat.snil))))))) Strat.snil)))))))))

/-- Lower-bound certificate: plainVal of the empty board with O at 7 is at least 0. -/
def certC9l7 : Strat := (Strat.all (Strat.scons (Strat.pick 6 (Strat.all (Strat.scons (Strat.pick 8 Strat.leaf) (Strat.scons (Strat.pick 8 Strat.leaf) (Strat.scons (Strat.pick 8 Strat.leaf) (Strat.scons (Strat.pick 8 Strat.leaf) (Strat.scons (Strat.pick 8 Strat.leaf) (Strat.scons (Strat.pick 4 (Strat.all (Strat.scons (Strat.pick 2 Strat.leaf) (Strat.scons (Strat.pick 1 Strat.leaf) (Strat.scons (Strat.pick 1 Strat.leaf) (Strat.scons (Strat.pick 1 Strat.leaf) Strat.snil)))))) Strat.snil)))))))) (Strat.scons (Strat.pick 6 (Strat.all (Strat.scons (Strat.pick 8 Strat.leaf) (Strat.scons (Strat.pick 8 Strat.leaf) (Strat.scons (Strat.pick 8 Strat.leaf) (Strat.scons (Strat.pick 8 Strat.leaf) (Strat.scons (Strat.pick 8 Strat.leaf) (Strat.scons (Strat.pick 0 (Strat.all (Strat.scons (Strat.pick 3 Strat.leaf) (Strat.scons (Strat.pick 2 (Strat.all (Strat.scons (Strat.pick 5 Strat.leaf) (Strat.scons (Strat.pick 4 Strat.leaf) Strat.snil)))) (Strat.scons (Strat.pick 3 Strat.leaf) (Strat.scons (Strat.pick 3 Strat.leaf) Strat.snil)))))) Strat.snil)))))))) (Strat.scons (Strat.pick 8 (Strat.all (Strat.scons (Strat.pick 6 Strat.leaf) (Strat.scons (Strat.pick 6 Strat.leaf) (Strat.scons (Strat.pick 6 Strat.leaf) (Strat.scons (Strat.pick 6 Strat.leaf) (Strat.scons (Strat.pick 6 Strat.leaf) (Strat.scons (Strat.pick 4 (Strat.all (Strat.scons (Strat.pick 1 Strat.leaf) (Strat.scons (Strat.pick 0 Strat.leaf) (Strat.scons (Strat.pick 0 Strat.leaf) (Strat.scons (Strat.pick 0 Strat.leaf) Strat.snil)))))) Strat.snil)))))))) (Strat.scons (Strat.pick 4 (Strat.all (Strat.scons (Strat.pick 1 Strat.leaf) (Strat.scons (Strat.pick 6 (Strat.all (Strat.scons (Strat.pick 2 Strat.leaf) (Strat.scons (Strat.pick 8 Strat.leaf) (Strat.scons (Strat.pick 2 Strat.leaf) (Strat.scons (Strat.pick 2 Strat.leaf) Strat.snil)))))) (Strat.scons (Strat.pick 1 Strat.leaf) (Strat.scons (Strat.pick 1 Strat.leaf) (Strat.scons (Strat.pick 1 Strat.leaf) (Strat.scons (Strat.pick 1 Strat.leaf) Strat.snil)))))))) (Strat.scons (Strat.pick 6 (Strat.all (Strat.scons (Strat.pick 8 Strat.leaf) (Strat.scons (Strat.pick 8 Strat.leaf) (Strat.scons (Strat.pick 8 Strat.leaf) (Strat.scons (Strat.pick 8 Strat.leaf) (Strat.scons (Strat.pick 8 Strat.leaf) (Strat.scons (Strat.pick 0 (Strat.all (Strat.scons (Strat.pick 3 Strat.leaf) (Strat.scons (Strat.pick 3 Strat.leaf) (Strat.scons (Strat.pick 5 (Strat.all (Strat.scons (Strat.pick 2 Strat.leaf) (Strat.scons (Strat.pick 1 Strat.leaf) Strat.snil)))) (Strat.scons (Strat.pick 3 Strat.leaf) Strat.snil)))))) Strat.snil)))))))) (Strat.scons (Strat.pick 4 (Strat.all (Strat.scons (Strat.pick 1 Strat.leaf) (Strat.scons (Strat.pick 6 (Strat.all (Strat.scons (Strat.pick 2 Strat.leaf) (Strat.scons (Strat.pick 8 Strat.leaf) (Strat.scons (Strat.pick 2 Strat.leaf) (Strat.scons (Strat.pick 2 Strat.leaf) Strat.snil)))))) (Strat.scons (Strat.pick 1 Strat.leaf) (Strat.scons (Strat.pick 1 Strat.leaf) (Strat.scons (Strat.pick 1 Strat.leaf) (Strat.scons (Strat.pick 1 Strat.leaf) Strat.snil)))))))) (Strat.scons (Strat.pick 4 (Strat.all (Strat.scons (Strat.pick 1 Strat.leaf) (Strat.scons (Strat.pick 0 (Strat.all (Strat.scons (Strat.pick 8 Strat.leaf) (Strat.scons (Strat.pick 8 Strat.leaf) (Strat.scons (Strat.pick 8 Strat.leaf) (Strat.scons (Strat.pick 2 (Strat.all (Strat.scons (Strat.pick 5 Strat.leaf) (Strat.scons (Strat.pick 3 Strat.leaf) Strat.snil)))) Strat.snil)))))) (Strat.scons (Strat.pick 1 Strat.leaf) (Strat.scons (Strat.pick 1 Strat.leaf) (Strat.scons (Strat.pick 1 Strat.leaf) (Strat.scons (Strat.pick 1 Strat.leaf) Strat.snil)))))))) (Strat.scons (Strat.pick 4 (Strat.all (Strat.scons (Strat.pick 1 Strat.leaf) (Strat.scons (Strat.pick 2 (Strat.all (Strat.scons (Strat.pick 6 Strat.leaf) (Strat.scons (Strat.pick 6 Strat.leaf) (Strat.scons (Strat.pick 6 Strat.leaf) (Strat.scons (Strat.pick 0 (Strat.all (Strat.scons (Strat.pick 5 Strat.leaf) (Strat.scons (Strat.pick 3 Strat.leaf) Strat.snil)))) Strat.snil)))))) (Strat.scons (Strat.pick 1 Strat.leaf) (Strat.scons (Strat.pick 1 Strat.leaf) (Strat.scons (Strat.pick 1 Strat.leaf) (Strat.scons (Strat.pick 1 Strat.leaf) Strat.snil)))))))) Strat.snil)))))))))

/-- Upper-bound certificate: plainVal of the empty board with O at 8 is at most 0. -/
def certC9u8 : Strat := (Strat.pick 4 (Strat.all (Strat.scons (Strat.pick 1 (Strat.all (Strat.scons (Strat.pick 7 Strat.leaf) (Strat.scons (Strat.pick 7 Strat.leaf) (Strat.scons (Strat.pick 7 Strat.leaf) (Strat.scons (Strat.pick 7 Strat.leaf) (Strat.scons (Strat.pick 6 (Strat.all (Strat.scons (Strat.pick 5 (Strat.all (Strat.scons Strat.leaf Strat.snil))) (Strat.scons (Strat.pick 2 Strat.leaf) (Strat.scons (Strat.pick 2 Strat.leaf) Strat.snil))))) Strat.snil))))))) (Strat.scons (Strat.pick 3 (Strat.all (Strat.scons (Strat.pick 5 Strat.leaf) (Strat.scons (Strat.pick 5 Strat.leaf) (Strat.scons (Strat.pick 2 (Strat.all (Strat.scons (Strat.pick 6 Strat.leaf) (Strat.scons (Strat.pick 7 (Strat.all (Strat.scons Strat.leaf Strat.snil))) (Strat.scons (Strat.pick 6 Strat.leaf) Strat.snil))))) (Strat.scons (Strat.pick 5 Strat.leaf) (Strat.scons (Strat.pick 5 Strat.leaf) Strat.snil))))))) (Strat.scons (Strat.pick 5 (Strat.all (Strat.scons (Strat.pick 3 Strat.leaf) (Strat.scons (Strat.pick 3 Strat.leaf) (Strat.scons (Strat.pick 1 (Strat.all (Strat.scons (Strat.pick 7 Strat.leaf) (Strat.scons (Strat.pick 7 Strat.leaf) (Strat.scons (Strat.pick 6 (Strat.all (Strat.scons Strat.leaf Strat.snil))) Strat.snil))))) (Strat.scons (Strat.pick 3 Strat.leaf) (Strat.scons (Strat.pick 3 Strat.leaf) Strat.snil))))))) (Strat.scons (Strat.pick 1 (Strat.all (Strat.scons (Strat.pick 7 Strat.leaf) (Strat.scons (Strat.pick 7 Strat.leaf) (Strat.scons (Strat.pick 7 Strat.leaf) (Strat.scons (Strat.pick 7 Strat.leaf) (Strat.scons (Strat.pick 6 (Strat.all (Strat.scons (Strat.pick 2 Strat.leaf) (Strat.scons (Strat.pick 5 (Strat.all (Strat.scons Strat.leaf Strat.snil))) (Strat.scons (Strat.pick 2 Strat.leaf) Strat.snil))))) Strat.snil))))))) (Strat.scons (Strat.pick 2 (Strat.all (Strat.scons (Strat.pick 6 Strat.leaf) (Strat.scons (Strat.pick 6 Strat.leaf) (Strat.scons (Strat.pick 6 Strat.leaf) (Strat.scons (Strat.pick 7 (Strat.all (Strat.scons (Strat.pick 1 Strat.leaf) (Strat.scons (Strat.pick 0 (Strat.all (Strat.scons Strat.leaf Strat.snil))) (Strat.scons (Strat.pick 1 Strat.leaf) Strat.snil))))) (Strat.scons (Strat.pick 6 Strat.leaf) Strat.snil))))))) (Strat.scons (Strat.pick 7 (Strat.all (Strat.scons (Strat.pick 1 Strat.leaf) (Strat.scons (Strat.pick 3 (Strat.all (Strat.scons (Strat.pick 5 Strat.leaf) (Strat.scons (Strat.pick 5 Strat.leaf) (Strat.scons (Strat.pick 2 (Strat.all (Strat.scons Strat.leaf Strat.snil))) Strat.snil))))) (Strat.scons (Strat.pick 1 Strat.leaf) (Strat.scons (Strat.pick 1 Strat.leaf) (Strat.scons (Strat.pick 1 Strat.leaf) Strat.snil))))))) (Strat.scons (Strat.pick 6 (Strat.all (Strat.scons (Strat.pick 2 Strat.leaf) (Strat.scons (Strat.pick 2 Strat.leaf) (Strat.scons (Strat.pick 5 (Strat.all (Strat.scons (Strat.pick 3 Strat.leaf) (Strat.scons (Strat.pick 3 Strat.leaf) (Strat.scons (Strat.pick 0 (Strat.all (Strat.scons Strat.leaf Strat.snil))) Strat.snil))))) (Strat.scons (Strat.pick 2 Strat.leaf) (Strat.scons (Strat.pick 2 Strat.leaf) Strat.snil))))))) Strat.snil)))))))))

/-- Lower-bound certificate: plainVal of the empty board with O at 8 is at least 0. -/
def certC9l8 : Strat := (Strat.all (Strat.scons (Strat.pick 2 (Strat.all (Strat.scons (Strat.pick 5 Strat.leaf) (Strat.scons (Strat.pick 5 Strat.leaf) (Strat.scons (Strat.pick 5 Strat.leaf) (Strat.scons (Strat.pick 6 (Strat.all (Strat.scons (Strat.pick 4 Strat.leaf) (Strat.scons (Strat.pick 4 Strat.leaf) (Strat.scons (Strat.pick 7 Strat.leaf) (Strat.scons (Strat.pick 4 Strat.leaf) Strat.snil)))))) (Strat.scons (Strat.pick 5 Strat.leaf) (Strat.scons (Strat.pick 5 Strat.leaf) Strat.snil)))))))) (Strat.scons (Strat.pick 2 (Strat.all (Strat.scons (Strat.pick 5 Strat.leaf) (Strat.scons (Strat.pick 5 Strat.leaf) (Strat.scons (Strat.pick 5 Strat.leaf) (Strat.scons (Strat.pick 4 (Strat.all (Strat.scons (Strat.pick 6 Strat.leaf) (Strat.scons (Strat.pick 0 Strat.leaf) (Strat.scons (Strat.pick 0 Strat.leaf) (Strat.scons (Strat.pick 0 Strat.leaf) Strat.snil)))))) (Strat.scons (Strat.pick 5 Strat.leaf) (Strat.scons (Strat.pick 5 Strat.leaf) Strat.snil)))))))) (Strat.scons (Strat.pick 0 (Strat.all (Strat.scons (Strat.pick 4 Strat.leaf) (Strat.scons (Strat.pick 4 Strat.leaf) (Strat.scons (Strat.pick 6 (Strat.all (Strat.scons (Strat.pick 3 Strat.leaf) (Strat.scons (Strat.pick 7 Strat.leaf) (Strat.scons (Strat.pick 3 Strat.leaf) (Strat.scons (Strat.pick 3 Strat.leaf) Strat.snil)))))) (Strat.scons (Strat.pick 4 Strat.leaf) (Strat.scons (Strat.pick 4 Strat.leaf) (Strat.scons (Strat.pick 4 Strat.leaf) Strat.snil)))))))) (Strat.scons (Strat.pick 2 (Strat.all (Strat.scons (Strat.pick 5 Strat.leaf) (Strat.scons (Strat.pick 5 Strat.leaf) (Strat.scons (Strat.pick 5 Strat.leaf) (Strat.scons (Strat.pick 4 (Strat.all (Strat.scons (Strat.pick 6 Strat.leaf) (Strat.scons (Strat.pick 0 Strat.leaf) (Strat.scons (Strat.pick 0 Strat.leaf) (Strat.scons (Strat.pick 0 Strat.leaf) Strat.snil)))))) (Strat.scons (Strat.pick 5 Strat.leaf) (Strat.scons (Strat.pick 5 Strat.leaf) Strat.snil)))))))) (Strat.scons (Strat.pick 5 (Strat.all (Strat.scons (Strat.pick 2 Strat.leaf) (Strat.scons (Strat.pick 2 Strat.leaf) (Strat.scons (Strat.pick 6 (Strat.all (Strat.scons (Strat.pick 7 Strat.leaf) (Strat.scons (Strat.pick 7 Strat.leaf) (Strat.scons (Strat.pick 7 Strat.leaf) (Strat.scons (Strat.pick 1 (Strat.all (Strat.scons (Strat.pick 3 Strat.leaf) (Strat.scons (Strat.pick 0 Strat.leaf) Strat.snil)))) Strat.snil)))))) (Strat.scons (Strat.pick 2 Strat.leaf) (Strat.scons (Strat.pick 2 Strat.leaf) (Strat.scons (Strat.pick 2 Strat.leaf) Strat.snil)))))))) (Strat.scons (Strat.pick 4 (Strat.all (Strat.scons (Strat.pick 6 (Strat.all (Strat.scons (Strat.pick 2 Strat.leaf) (Strat.scons (Strat.pick 7 Strat.leaf) (Strat.scons (Strat.pick 2 Strat.leaf) (Strat.scons (Strat.pick 2 Strat.leaf) Strat.snil)))))) (Strat.scons (Strat.pick 0 Strat.leaf) (Strat.scons (Strat.pick 0 Strat.leaf) (Strat.scons (Strat.pick 0 Strat.leaf) (Strat.scons (Strat.pick 0 Strat.leaf) (Strat.scons (Strat.pick 0 Strat.leaf) Strat.snil)))))))) (Strat.scons (Strat.pick 0 (Strat.all (Strat.scons (Strat.pick 4 Strat.leaf) (Strat.scons (Strat.pick 4 Strat.leaf) (Strat.scons (Strat.pick 4 Strat.leaf) (Strat.scons (Strat.pick 2 (Strat.all (Strat.scons (Strat.pick 5 Strat.leaf) (Strat.scons (Strat.pick 1 Strat.leaf) (Strat.scons (Strat.pick 1 Strat.leaf) (Strat.scons (Strat.pick 1 Strat.leaf) Strat.snil)))))) (Strat.scons (Strat.pick 4 Strat.leaf) (Strat.scons (Strat.pick 4 Strat.leaf) Strat.snil)))))))) (Strat.scons (Strat.pick 2 (Strat.all (Strat.scons (Strat.pick 5 Strat.leaf) (Strat.scons (Strat.pick 5 Strat.leaf) (Strat.scons (Strat.pick 5 Strat.leaf) (Strat.scons (Strat.pick 5 Strat.leaf) (Strat.scons (Strat.pick 0 (Strat.all (Strat.scons (Strat.pick 4 Strat.leaf) (Strat.scons (Strat.pick 1 Strat.leaf) (Strat.scons (Strat.pick 1 Strat.leaf) (Strat.scons (Strat.pick 1 Strat.leaf) Strat.snil)))))) (Strat.scons (Strat.pick 5 Strat.leaf) Strat.snil)))))))) Strat.snil)))))))))

/-- Lower-bound certificate: the empty board with the automated side to move has value at least 0. -/
def certC8a : Strat := (Strat.pick 0 (Strat.all (Strat.scons (Strat.pick 3 (Strat.all (Strat.scons (Strat.pick 6 Strat.leaf) (Strat.scons (Strat.pick 6 Strat.leaf) (Strat.scons (Strat.pick 6 Strat.leaf) (Strat.scons (Strat.pick 4 (Strat.all (Strat.scons (Strat.pick 5 Strat.leaf) (Strat.scons (Strat.pick 8 Strat.leaf) (Strat.scons (Strat.pick 5 Strat.leaf) (Strat.scons (Strat.pick 5 Strat.leaf) Strat.snil)))))) (Strat.scons (Strat.pick 6 Strat.leaf) (Strat.scons (Strat.pick 6 Strat.leaf) Strat.snil)))))))) (Strat.scons (Strat.pick 3 (Strat.all (Strat.scons (Strat.pick 6 Strat.leaf) (Strat.scons (Strat.pick 6 Strat.leaf) (Strat.scons (Strat.pick 6 Strat.leaf) (Strat.scons (Strat.pick 4 (Strat.all (Strat.scons (Strat.pick 5 Strat.leaf) (Strat.scons (Strat.pick 8 Strat.leaf) (Strat.scons (Strat.pick 5 Strat.leaf) (Strat.scons (Strat.pick 5 Strat.leaf) Strat.snil)))))) (Strat.scons (Strat.pick 6 Strat.leaf) (Strat.scons (Strat.pick 6 Strat.leaf) Strat.snil)))))))) (Strat.scons (Strat.pick 1 (Strat.all (Strat.scons (Strat.pick 4 (Strat.all (Strat.scons (Strat.pick 7 Strat.leaf) (Strat.scons (Strat.pick 7 Strat.leaf) (Strat.scons (Strat.pick 8 Strat.leaf) (Strat.scons (Strat.pick 7 Strat.leaf) Strat.snil)))))) (Strat.scons (Strat.pick 2 Strat.leaf) (Strat.scons (Strat.pick 2 Strat.leaf) (Strat.scons (Strat.pick 2 Strat.leaf) (Strat.scons (Strat.pick 2 Strat.leaf) (Strat.scons (Strat.pick 2 Strat.leaf) Strat.snil)))))))) (Strat.scons (Strat.pick 1 (Strat.all (Strat.scons (Strat.pick 6 (Strat.all (Strat.scons (Strat.pick 5 (Strat.all (Strat.scons (Strat.pick 8 Strat.leaf) (Strat.scons (Strat.pick 7 Strat.leaf) Strat.snil)))) (Strat.scons (Strat.pick 3 Strat.leaf) (Strat.scons (Strat.pick 3 Strat.leaf) (Strat.scons (Strat.pick 3 Strat.leaf) Strat.snil)))))) (Strat.scons (Strat.pick 2 Strat.leaf) (Strat.scons (Strat.pick 2 Strat.leaf) (Strat.scons (Strat.pick 2 Strat.leaf) (Strat.scons (Strat.pick 2 Strat.leaf) (Strat.scons (Strat.pick 2 Strat.leaf) Strat.snil)))))))) (Strat.scons (Strat.pick 2 (Strat.all (Strat.scons (Strat.pick 4 (Strat.all (Strat.scons (Strat.pick 6 Strat.leaf) (Strat.scons (Strat.pick 8 Strat.leaf) (Strat.scons (Strat.pick 6 Strat.leaf) (Strat.scons (Strat.pick 6 Strat.leaf) Strat.snil)))))) (Strat.scons (Strat.pick 1 Strat.leaf) (Strat.scons (Strat.pick 1 Strat.leaf) (Strat.scons (Strat.pick 1 Strat.leaf) (Strat.scons (Strat.pick 1 Strat.leaf) (Strat.scons (Strat.pick 1 Strat.leaf) Strat.snil)))))))) (Strat.scons (Strat.pick 1 (Strat.all (Strat.scons (Strat.pick 4 (Strat.all (Strat.scons (Strat.pick 7 Strat.leaf) (Strat.scons (Strat.pick 7 Strat.leaf) (Strat.scons (Strat.pick 8 Strat.leaf) (Strat.scons (Strat.pick 7 Strat.leaf) Strat.snil)))))) (Strat.scons (Strat.pick 2 Strat.leaf) (Strat.scons (Strat.pick 2 Strat.leaf) (Strat.scons (Strat.pick 2 Strat.leaf) (Strat.scons (Strat.pick 2 Strat.leaf) (Strat.scons (Strat.pick 2 Strat.leaf) Strat.snil)))))))) (Strat.scons (Strat.pick 2 (Strat.all (Strat.scons (Strat.pick 4 (Strat.all (Strat.scons (Strat.pick 6 Strat.leaf) (Strat.scons (Strat.pick 6 Strat.leaf) (Strat.scons (Strat.pick 8 Strat.leaf) (Strat.scons (Strat.pick 6 Strat.leaf) Strat.snil)))))) (Strat.scons (Strat.pick 1 Strat.leaf) (Strat.scons (Strat.pick 1 Strat.leaf) (Strat.scons (Strat.pick 1 Strat.leaf) (Strat.scons (Strat.pick 1 Strat.leaf) (Strat.scons (Strat.pick 1 Strat.leaf) Strat.snil)))))))) (Strat.scons (Strat.pick 2 (Strat.all (Strat.scons (Strat.pick 6 (Strat.all (Strat.scons (Strat.pick 4 Strat.leaf) (Strat.scons (Strat.pick 3 Strat.leaf) (Strat.scons (Strat.pick 3 Strat.leaf) (Strat.scons (Strat.pick 3 Strat.leaf) Strat.snil)))))) (Strat.scons (Strat.pick 1 Strat.leaf) (Strat.scons (Strat.pick 1 Strat.leaf) (Strat.scons (Strat.pick 1 Strat.leaf) (Strat.scons (Strat.pick 1 Strat.leaf) (Strat.scons (Strat.pick 1 Strat.leaf) Strat.snil)))))))) Strat.snil))))))))))

/-- Lower-bound certificate: the empty board with the opponent to move has value at least 0. -/
def certC8o : Strat := (Strat.all (Strat.scons (Strat.pick 4 (Strat.all (Strat.scons (Strat.pick 2 (Strat.all (Strat.scons (Strat.pick 6 Strat.leaf) (Strat.scons (Strat.pick 6 Strat.leaf) (Strat.scons (Strat.pick 3 (Strat.all (Strat.scons (Strat.pick 7 (Strat.all (Strat.scons Strat.leaf Strat.snil))) (Strat.scons (Strat.pick 5 Strat.leaf) (Strat.scons (Strat.pick 5 Strat.leaf) Strat.snil))))) (Strat.scons (Strat.pick 6 Strat.leaf) (Strat.scons (Strat.pick 6 Strat.leaf) Strat.snil))))))) (Strat.scons (Strat.pick 1 (Strat.all (Strat.scons (Strat.pick 7 Strat.leaf) (Strat.scons (Strat.pick 7 Strat.leaf) (Strat.scons (Strat.pick 7 Strat.leaf) (Strat.scons (Strat.pick 3 (Strat.all (Strat.scons (Strat.pick 8 (Strat.all (Strat.scons Strat.leaf Strat.snil))) (Strat.scons (Strat.pick 5 Strat.leaf) (Strat.scons (Strat.pick 5 Strat.leaf) Strat.snil))))) (Strat.scons (Strat.pick 7 Strat.leaf) Strat.snil))))))) (Strat.scons (Strat.pick 6 (Strat.all (Strat.scons (Strat.pick 2 Strat.leaf) (Strat.scons (Strat.pick 1 (Strat.all (Strat.scons (Strat.pick 7 Strat.leaf) (Strat.scons (Strat.pick 5 (Strat.all (Strat.scons Strat.leaf Strat.snil))) (Strat.scons (Strat.pick 7 Strat.leaf) Strat.snil))))) (Strat.scons (Strat.pick 2 Strat.leaf) (Strat.scons (Strat.pick 2 Strat.leaf) (Strat.scons (Strat.pick 2 Strat.leaf) Strat.snil))))))) (Strat.scons (Strat.pick 1 (Strat.all (Strat.scons (Strat.pick 7 Strat.leaf) (Strat.scons (Strat.pick 7 Strat.leaf) (Strat.scons (Strat.pick 7 Strat.leaf) (Strat.scons (Strat.pick 6 (Strat.all (Strat.scons (Strat.pick 8 (Strat.all (Strat.scons Strat.leaf Strat.snil))) (Strat.scons (Strat.pick 2 Strat.leaf) (Strat.scons (Strat.pick 2 Strat.leaf) Strat.snil))))) (Strat.scons (Strat.pick 7 Strat.leaf) Strat.snil))))))) (Strat.scons (Strat.pick 3 (Strat.all (Strat.scons (Strat.pick 5 Strat.leaf) (Strat.scons (Strat.pick 5 Strat.leaf) (Strat.scons (Strat.pick 1 (Strat.all (Strat.scons (Strat.pick 7 Strat.leaf) (Strat.scons (Strat.pick 8 (Strat.all (Strat.scons Strat.leaf Strat.snil))) (Strat.scons (Strat.pick 7 Strat.leaf) Strat.snil))))) (Strat.scons (Strat.pick 5 Strat.leaf) (Strat.scons (Strat.pick 5 Strat.leaf) Strat.snil))))))) (Strat.scons (Strat.pick 3 (Strat.all (Strat.scons (Strat.pick 5 Strat.leaf) (Strat.scons (Strat.pick 5 Strat.leaf) (Strat.scons (Strat.pick 2 (Strat.all (Strat.scons (Strat.pick 6 Strat.leaf) (Strat.scons (Strat.pick 8 (Strat.all (Strat.scons Strat.leaf Strat.snil))) (Strat.scons (Strat.pick 6 Strat.leaf) Strat.snil))))) (Strat.scons (Strat.pick 5 Strat.leaf) (Strat.scons (Strat.pick 5 Strat.leaf) Strat.snil))))))) (Strat.scons (Strat.pick 1 (Strat.all (Strat.scons (Strat.pick 7 Strat.leaf) (Strat.scons (Strat.pick 7 Strat.leaf) (Strat.scons (Strat.pick 7 Strat.leaf) (Strat.scons (Strat.pick 7 Strat.leaf) (Strat.scons (Strat.pick 6 (Strat.all (Strat.scons (Strat.pick 5 (Strat.all (Strat.scons Strat.leaf Strat.snil))) (Strat.scons (Strat.pick 2 Strat.leaf) (Strat.scons (Strat.pick 2 Strat.leaf) Strat.snil))))) Strat.snil))))))) Strat.snil))))))))) (Strat.scons (Strat.pick 4 (Strat.all (Strat.scons (Strat.pick 2 (Strat.all (Strat.scons (Strat.pick 6 Strat.leaf) (Strat.scons (Strat.pick 6 Strat.leaf) (Strat.scons (Strat.pick 3 (Strat.all (Strat.scons (Strat.pick 7 (Strat.all (Strat.scons Strat.leaf Strat.snil))) (Strat.scons (Strat.pick 5 Strat.leaf) (Strat.scons (Strat.pick 5 Strat.leaf) Strat.snil))))) (Strat.scons (Strat.pick 6 Strat.leaf) (Strat.scons (Strat.pick 6 Strat.leaf) Strat.snil))))))) (Strat.scons (Strat.pick 0 (Strat.all (Strat.scons (Strat.pick 8 Strat.leaf) (Strat.scons (Strat.pick 8 Strat.leaf) (Strat.scons (Strat.pick 8 Strat.leaf) (Strat.scons (Strat.pick 8 Strat.leaf) (Strat.scons (Strat.pick 5 (Strat.all (Strat.scons (Strat.pick 6 (Strat.all (Strat.scons Strat.leaf Strat.snil))) (Strat.scons (Strat.pick 3 Strat.leaf) (Strat.scons (Strat.pick 3 Strat.leaf) Strat.snil))))) Strat.snil))))))) (Strat.scons (Strat.pick 0 (Strat.all (Strat.scons (Strat.pick 8 Strat.leaf) (Strat.scons (Strat.pick 8 Strat.leaf) (Strat.scons (Strat.pick 8 Strat.leaf) (Strat.scons (Strat.pick 8 Strat.leaf) (Strat.scons (Strat.pick 2 (Strat.all (Strat.scons (Strat.pick 6 Strat.leaf) (Strat.scons (Strat.pick 7 (Strat.all (Strat.scons Strat.leaf Strat.snil))) (Strat.scons (Strat.pick 6 Strat.leaf) Strat.snil))))) Strat.snil))))))) (Strat.scons (Strat.pick 0 (Strat.all (Strat.scons (Strat.pick 8 Strat.leaf) (Strat.scons (Strat.pick 8 Strat.leaf) (Strat.scons (Strat.pick 8 Strat.leaf) (Strat.scons (Strat.pick 8 Strat.leaf) (Strat.scons (Strat.pick 2 (Strat.all (Strat.scons (Strat.pick 6 Strat.leaf) (Strat.scons (Strat.pick 7 (Strat.all (Strat.scons Strat.leaf Strat.snil))) (Strat.scons (Strat.pick 6 Strat.leaf) Strat.snil))))) Strat.snil))))))) (Strat.scons (Strat.pick 3 (Strat.all (Strat.scons (Strat.pick 5 Strat.leaf) (Strat.scons (Strat.pick 5 Strat.leaf) (Strat.scons (Strat.pick 8 (Strat.all (Strat.scons (Strat.pick 2 (Strat.all (Strat.scons Strat.leaf Strat.snil))) (Strat.scons (Strat.pick 0 Strat.leaf) (Strat.scons (Strat.pick 0 Strat.leaf) Strat.snil))))) (Strat.scons (Strat.pick 5 Strat.leaf) (Strat.scons (Strat.pick 5 Strat.leaf) Strat.snil))))))) (Strat.scons (Strat.pick 0 (Strat.all (Strat.scons (Strat.pick 8 Strat.leaf) (Strat.scons (Strat.pick 8 Strat.leaf) (Strat.scons (Strat.pick 8 Strat.leaf) (Strat.scons (Strat.pick 8 Strat.leaf) (Strat.scons (Strat.pick 6 (Strat.all (Strat.scons (Strat.pick 3 Strat.leaf) (Strat.scons (Strat.pick 2 Strat.leaf) (Strat.scons (Strat.pick 2 Strat.leaf) Strat.snil))))) Strat.snil))))))) (Strat.scons (Strat.pick 3 (Strat.all (Strat.scons (Strat.pick 5 Strat.leaf) (Strat.scons (Strat.pick 5 Strat.leaf) (Strat.scons (Strat.pick 2 (Strat.all (Strat.scons (Strat.pick 6 Strat.leaf) (Strat.scons (Strat.pick 7 (Strat.all (Strat.scons Strat.leaf Strat.snil))) (Strat.scons (Strat.pick 6 Strat.leaf) Strat.snil))))) (Strat.scons (Strat.pick 5 Strat.leaf) (Strat.scons (Strat.pick 5 Strat.leaf) Strat.snil))))))) Strat.snil))))))))) (Strat.scons (Strat.pick 4 (Strat.all (Strat.scons (Strat.pick 1 (Strat.all (Strat.scons (Strat.pick 7 Strat.leaf) (Strat.scons (Strat.pick 7 Strat.leaf) (Strat.scons (Strat.pick 7 Strat.leaf) (Strat.scons (Strat.pick 3 (Strat.all (Strat.scons (Strat.pick 8 (Strat.all (Strat.scons Strat.leaf Strat.snil))) (Strat.scons (Strat.pick 5 Strat.leaf) (Strat.scons (Strat.pick 5 Strat.leaf) Strat.snil))))) (Strat.scons (Strat.pick 7 Strat.leaf) Strat.snil))))))) (Strat.scons (Strat.pick 0 (Strat.all (Strat.scons (Strat.pick 8 Strat.leaf) (Strat.scons (Strat.pick 8 Strat.leaf) (Strat.scons (Strat.pick 8 Strat.leaf) (Strat.scons (Strat.pick 8 Strat.leaf) (Strat.scons (Strat.pick 5 (Strat.all (Strat.scons (Strat.pick 6 (Strat.all (Strat.scons Strat.leaf Strat.snil))) (Strat.scons (Strat.pick 3 Strat.leaf) (Strat.scons (Strat.pick 3 Strat.leaf) Strat.snil))))) Strat.snil))))))) (Strat.scons (Strat.pick 1 (Strat.all (Strat.scons (Strat.pick 7 Strat.leaf) (Strat.scons (Strat.pick 7 Strat.leaf) (Strat.scons (Strat.pick 7 Strat.leaf) (Strat.scons (Strat.pick 8 (Strat.all (Strat.scons (Strat.pick 6 (Strat.all (Strat.scons Strat.leaf Strat.snil))) (Strat.scons (Strat.pick 0 Strat.leaf) (Strat.scons (Strat.pick 0 Strat.leaf) Strat.snil))))) (Strat.scons (Strat.pick 7 Strat.leaf) Strat.snil))))))) (Strat.scons (Strat.pick 8 (Strat.all (Strat.scons (Strat.pick 1 (Strat.all (Strat.scons (Strat.pick 7 Strat.leaf) (Strat.scons (Strat.pick 7 Strat.leaf) (Strat.scons (Strat.pick 3 (Strat.all (Strat.scons Strat.leaf Strat.snil))) Strat.snil))))) (Strat.scons (Strat.pick 0 Strat.leaf) (Strat.scons (Strat.pick 0 Strat.leaf) (Strat.scons (Strat.pick 0 Strat.leaf) (Strat.scons (Strat.pick 0 Strat.leaf) Strat.snil))))))) (Strat.scons (Strat.pick 1 (Strat.all (Strat.scons (Strat.pick 7 Strat.leaf) (Strat.scons (Strat.pick 7 Strat.leaf) (Strat.scons (Strat.pick 7 Strat.leaf) (Strat.scons (Strat.pick 8 (Strat.all (Strat.scons (Strat.pick 3 (Strat.all (Strat.scons Strat.leaf Strat.snil))) (Strat.scons (Strat.pick 0 Strat.leaf) (Strat.scons (Strat.pick 0 Strat.leaf) Strat.snil))))) (Strat.scons (Strat.pick 7 Strat.leaf) Strat.snil))))))) (Strat.scons (Strat.pick 3 (Strat.all (Strat.scons (Strat.pick 5 Strat.leaf) (Strat.scons (Strat.pick 5 Strat.leaf) (Strat.scons (Strat.pick 8 (Strat.all (Strat.scons (Strat.pick 1 (Strat.all (Strat.scons Strat.leaf Strat.snil))) (Strat.scons (Strat.pick 0 Strat.leaf) (Strat.scons (Strat.pick 0 Strat.leaf) Strat.snil))))) (Strat.scons (Strat.pick 5 Strat.leaf) (Strat.scons (Strat.pick 5 Strat.leaf) Strat.snil))))))) (Strat.scons (Strat.pick 5 (Strat.all (Strat.scons (Strat.pick 3 Strat.leaf) (Strat.scons (Strat.pick 3 Strat.leaf) (Strat.scons (Strat.pick 1 (Strat.all (Strat.scons (Strat.pick 7 Strat.leaf) (Strat.scons (Strat.pick 7 Strat.leaf) (Strat.scons (Strat.pick 6 (Strat.all (Strat.scons Strat.leaf Strat.snil))) Strat.snil))))) (Strat.scons (Strat.pick 3 Strat.leaf) (Strat.scons (Strat.pick 3 Strat.leaf) Strat.snil))))))) Strat.snil))))))))) (Strat.scons (Strat.pick 4 (Strat.all (Strat.scons (Strat.pick 6 (Strat.all (Strat.scons (Strat.pick 2 Strat.leaf) (Strat.scons (Strat.pick 1 (Strat.all (Strat.scons (Strat.pick 7 Strat.leaf) (Strat.scons (Strat.pick 5 (Strat.all (Strat.scons Strat.leaf Strat.snil))) (Strat.scons (Strat.pick 7 Strat.leaf) Strat.snil))))) (Strat.scons (Strat.pick 2 Strat.leaf) (Strat.scons (Strat.pick 2 Strat.leaf) (Strat.scons (Strat.pick 2 Strat.leaf) Strat.snil))))))) (Strat.scons (Strat.pick 0 (Strat.all (Strat.scons (Strat.pick 8 Strat.leaf) (Strat.scons (Strat.pick 8 Strat.leaf) (Strat.scons (Strat.pick 8 Strat.leaf) (Strat.scons (Strat.pick 8 Strat.leaf) (Strat.scons (Strat.pick 2 (Strat.all (Strat.scons (Strat.pick 6 Strat.leaf) (Strat.scons (Strat.pick 7 (Strat.all (Strat.scons Strat.leaf Strat.snil))) (Strat.scons (Strat.pick 6 Strat.leaf) Strat.snil))))) Strat.snil))))))) (Strat.scons (Strat.pick 1 (Strat.all (Strat.scons (Strat.pick 7 Strat.leaf) (Strat.scons (Strat.pick 7 Strat.leaf) (Strat.scons (Strat.pick 7 Strat.leaf) (Strat.scons (Strat.pick 8 (Strat.all (Strat.scons (Strat.pick 6 (Strat.all (Strat.scons Strat.leaf Strat.snil))) (Strat.scons (Strat.pick 0 Strat.leaf) (Strat.scons (Strat.pick 0 Strat.leaf) Strat.snil))))) (Strat.scons (Strat.pick 7 Strat.leaf) Strat.snil))))))) (Strat.scons (Strat.pick 0 (Strat.all (Strat.scons (Strat.pick 8 Strat.leaf) (Strat.scons (Strat.pick 8 Strat.leaf) (Strat.scons (Strat.pick 8 Strat.leaf) (Strat.scons (Strat.pick 8 Strat.leaf) (Strat.scons (Strat.pick 2 (Strat.all (Strat.scons (Strat.pick 6 Strat.leaf) (Strat.scons (Strat.pick 1 Strat.leaf) (Strat.scons (Strat.pick 1 Strat.leaf) Strat.snil))))) Strat.snil))))))) (Strat.scons (Strat.pick 0 (Strat.all (Strat.scons (Strat.pick 8 Strat.leaf) (Strat.scons (Strat.pick 8 Strat.leaf) (Strat.scons (Strat.pick 8 Strat.leaf) (Strat.scons (Strat.pick 8 Strat.leaf) (Strat.scons (Strat.pick 7 (Strat.all (Strat.scons (Strat.pick 2 (Strat.all (Strat.scons Strat.leaf Strat.snil))) (Strat.scons (Strat.pick 1 Strat.leaf) (Strat.scons (Strat.pick 1 Strat.leaf) Strat.snil))))) Strat.snil))))))) (Strat.scons (Strat.pick 0 (Strat.all (Strat.scons (Strat.pick 8 Strat.leaf) (Strat.scons (Strat.pick 8 Strat.leaf) (Strat.scons (Strat.pick 8 Strat.leaf) (Strat.scons (Strat.pick 8 Strat.leaf) (Strat.scons (Strat.pick 6 (Strat.all (Strat.scons (Strat.pick 2 Strat.leaf) (Strat.scons (Strat.pick 5 (Strat.all (Strat.scons Strat.leaf Strat.snil))) (Strat.scons (Strat.pick 2 Strat.leaf) Strat.snil))))) Strat.snil))))))) (Strat.scons (Strat.pick 1 (Strat.all (Strat.scons (Strat.pick 7 Strat.leaf) (Strat.scons (Strat.pick 7 Strat.leaf) (Strat.scons (Strat.pick 7 Strat.leaf) (Strat.scons (Strat.pick 7 Strat.leaf) (Strat.scons (Strat.pick 6 (Strat.all (Strat.scons (Strat.pick 2 Strat.leaf) (Strat.scons (Strat.pick 5 (Strat.all (Strat.scons Strat.leaf Strat.snil))) (Strat.scons (Strat.pick 2 Strat.leaf) Strat.snil))))) Strat.snil))))))) Strat.snil))))))))) (Strat.scons (Strat.pick 0 (Strat.all (Strat.scons (Strat.pick 7 (Strat.all (Strat.scons (Strat.pick 6 (Strat.all (Strat.scons (Strat.pick 8 Strat.leaf) (Strat.scons (Strat.pick 3 Strat.leaf) (Strat.scons (Strat.pick 3 Strat.leaf) Strat.snil))))) (Strat.scons (Strat.pick 5 (Strat.all (Strat.scons (Strat.pick 6 (Strat.all (Strat.scons Strat.leaf Strat.snil))) (Strat.scons (Strat.pick 2 (Strat.all (Strat.scons Strat.leaf Strat.snil))) (Strat.scons (Strat.pick 2 (Strat.all (Strat.scons Strat.leaf Strat.snil))) Strat.snil))))) (Strat.scons (Strat.pick 3 (Strat.all (Strat.scons (Strat.pick 6 Strat.leaf) (Strat.scons (Strat.pick 2 (Strat.all (Strat.scons Strat.leaf Strat.snil))) (Strat.scons (Strat.pick 6 Strat.leaf) Strat.snil))))) (Strat.scons (Strat.pick 2 (Strat.all (Strat.scons (Strat.pick 5 (Strat.all (Strat.scons Strat.leaf Strat.snil))) (Strat.scons (Strat.pick 3 (Strat.all (Strat.scons Strat.leaf Strat.snil))) (Strat.scons (Strat.pick 3 (Strat.all (Strat.scons Strat.leaf Strat.snil))) Strat.snil))))) (Strat.scons (Strat.pick 3 (Strat.all (Strat.scons (Strat.pick 6 Strat.leaf) (Strat.scons (Strat.pick 6 Strat.leaf) (Strat.scons (Strat.pick 2 (Strat.all (Strat.scons Strat.leaf Strat.snil))) Strat.snil))))) Strat.snil))))))) (Strat.scons (Strat.pick 6 (Strat.all (Strat.scons (Strat.pick 3 Strat.leaf) (Strat.scons (Strat.pick 5 (Strat.all (Strat.scons (Strat.pick 7 (Strat.all (Strat.scons Strat.leaf Strat.snil))) (Strat.scons (Strat.pick 1 (Strat.all (Strat.scons Strat.leaf Strat.snil))) (Strat.scons (Strat.pick 1 (Strat.all (Strat.scons Strat.leaf Strat.snil))) Strat.snil))))) (Strat.scons (Strat.pick 3 Strat.leaf) (Strat.scons (Strat.pick 3 Strat.leaf) (Strat.scons (Strat.pick 3 Strat.leaf) Strat.snil))))))) (Strat.scons (Strat.pick 5 (Strat.all (Strat.scons (Strat.pick 7 (Strat.all (Strat.scons (Strat.pick 6 (Strat.all (Strat.scons Strat.leaf Strat.snil))) (Strat.scons (Strat.pick 2 (Strat.all (Strat.scons Strat.leaf Strat.snil))) (Strat.scons (Strat.pick 2 (Strat.all (Strat.scons Strat.leaf Strat.snil))) Strat.snil))))) (Strat.scons (Strat.pick 6 (Strat.all (Strat.scons (Strat.pick 7 (Strat.all (Strat.scons Strat.leaf Strat.snil))) (Strat.scons (Strat.pick 1 (Strat.all (Strat.scons Strat.leaf Strat.snil))) (Strat.scons (Strat.pick 1 (Strat.all (Strat.scons Strat.leaf Strat.snil))) Strat.snil))))) (Strat.scons (Strat.pick 2 (Strat.all (Strat.scons (Strat.pick 8 Strat.leaf) (Strat.scons (Strat.pick 1 Strat.leaf) (Strat.scons (Strat.pick 1 Strat.leaf) Strat.snil))))) (Strat.scons (Strat.pick 1 (Strat.all (Strat.scons (Strat.pick 6 (Strat.all (Strat.scons Strat.leaf Strat.snil))) (Strat.scons (Strat.pick 2 Strat.leaf) (Strat.scons (Strat.pick 2 Strat.leaf) Strat.snil))))) (Strat.scons (Strat.pick 1 (Strat.all (Strat.scons (Strat.pick 6 (Strat.all (Strat.scons Strat.leaf Strat.snil))) (Strat.scons (Strat.pick 2 Strat.leaf) (Strat.scons (Strat.pick 2 Strat.leaf) Strat.snil))))) Strat.snil))))))) (Strat.scons (Strat.pick 3 (Strat.all (Strat.scons (Strat.pick 6 Strat.leaf) (Strat.scons (Strat.pick 6 Strat.leaf) (Strat.scons (Strat.pick 2 (Strat.all (Strat.scons (Strat.pick 7 (Strat.all (Strat.scons Strat.leaf Strat.snil))) (Strat.scons (Strat.pick 1 Strat.leaf) (Strat.scons (Strat.pick 1 Strat.leaf) Strat.snil))))) (Strat.scons (Strat.pick 6 Strat.leaf) (Strat.scons (Strat.pick 6 Strat.leaf) Strat.snil))))))) (Strat.scons (Strat.pick 2 (Strat.all (Strat.scons (Strat.pick 7 (Strat.all (Strat.scons (Strat.pick 5 (Strat.all (Strat.scons Strat.leaf Strat.snil))) (Strat.scons (Strat.pick 3 (Strat.all (Strat.scons Strat.leaf Strat.snil))) (Strat.scons (Strat.pick 3 (Strat.all (Strat.scons Strat.leaf Strat.snil))) Strat.snil))))) (Strat.scons (Strat.pick 1 Strat.leaf) (Strat.scons (Strat.pick 1 Strat.leaf) (Strat.scons (Strat.pick 1 Strat.leaf) (Strat.scons (Strat.pick 1 Strat.leaf) Strat.snil))))))) (Strat.scons (Strat.pick 1 (Strat.all (Strat.scons (Strat.pick 6 (Strat.all (Strat.scons (Strat.pick 5 (Strat.all (Strat.scons Strat.leaf Strat.snil))) (Strat.scons (Strat.pick 3 Strat.leaf) (Strat.scons (Strat.pick 3 Strat.leaf) Strat.snil))))) (Strat.scons (Strat.pick 2 Strat.leaf) (Strat.scons (Strat.pick 2 Strat.leaf) (Strat.scons (Strat.pick 2 Strat.leaf) (Strat.scons (Strat.pick 2 Strat.leaf) Strat.snil))))))) (Strat.scons (Strat.pick 2 (Strat.all (Strat.scons (Strat.pick 7 (Strat.all (Strat.scons (Strat.pick 5 (Strat.all (Strat.scons Strat.leaf Strat.snil))) (Strat.scons (Strat.pick 3 (Strat.all (Strat.scons Strat.leaf Strat.snil))) (Strat.scons (Strat.pick 3 (Strat.all (Strat.scons Strat.leaf Strat.snil))) Strat.snil))))) (Strat.scons (Strat.pick 1 Strat.leaf) (Strat.scons (Strat.pick 1 Strat.leaf) (Strat.scons (Strat.pick 1 Strat.leaf) (Strat.scons (Strat.pick 1 Strat.leaf) Strat.snil))))))) Strat.snil))))))))) (Strat.scons (Strat.pick 4 (Strat.all (Strat.scons (Strat.pick 1 (Strat.all (Strat.scons (Strat.pick 7 Strat.leaf) (Strat.scons (Strat.pick 7 Strat.leaf) (Strat.scons (Strat.pick 7 Strat.leaf) (Strat.scons (Strat.pick 6 (Strat.all (Strat.scons (Strat.pick 8 (Strat.all (Strat.scons Strat.leaf Strat.snil))) (Strat.scons (Strat.pick 2 Strat.leaf) (Strat.scons (Strat.pick 2 Strat.leaf) Strat.snil))))) (Strat.scons (Strat.pick 7 Strat.leaf) Strat.snil))))))) (Strat.scons (Strat.pick 0 (Strat.all (Strat.scons (Strat.pick 8 Strat.leaf) (Strat.scons (Strat.pick 8 Strat.leaf) (Strat.scons (Strat.pick 8 Strat.leaf) (Strat.scons (Strat.pick 8 Strat.leaf) (Strat.scons (Strat.pick 2 (Strat.all (Strat.scons (Strat.pick 6 Strat.leaf) (Strat.scons (Strat.pick 7 (Strat.all (Strat.scons Strat.leaf Strat.snil))) (Strat.scons (Strat.pick 6 Strat.leaf) Strat.snil))))) Strat.snil))))))) (Strat.scons (Strat.pick 8 (Strat.all (Strat.scons (Strat.pick 1 (Strat.all (Strat.scons (Strat.pick 7 Strat.leaf) (Strat.scons (Strat.pick 7 Strat.leaf) (Strat.scons (Strat.pick 3 (Strat.all (Strat.scons Strat.leaf Strat.snil))) Strat.snil))))) (Strat.scons (Strat.pick 0 Strat.leaf) (Strat.scons (Strat.pick 0 Strat.leaf) (Strat.scons (Strat.pick 0 Strat.leaf) (Strat.scons (Strat.pick 0 Strat.leaf) Strat.snil))))))) (Strat.scons (Strat.pick 0 (Strat.all (Strat.scons (Strat.pick 8 Strat.leaf) (Strat.scons (Strat.pick 8 Strat.leaf) (Strat.scons (Strat.pick 8 Strat.leaf) (Strat.scons (Strat.pick 8 Strat.leaf) (Strat.scons (Strat.pick 2 (Strat.all (Strat.scons (Strat.pick 6 Strat.leaf) (Strat.scons (Strat.pick 1 Strat.leaf) (Strat.scons (Strat.pick 1 Strat.leaf) Strat.snil))))) Strat.snil))))))) (Strat.scons (Strat.pick 1 (Strat.all (Strat.scons (Strat.pick 7 Strat.leaf) (Strat.scons (Strat.pick 7 Strat.leaf) (Strat.scons (Strat.pick 7 Strat.leaf) (Strat.scons (Strat.pick 8 (Strat.all (Strat.scons (Strat.pick 3 (Strat.all (Strat.scons Strat.leaf Strat.snil))) (Strat.scons (Strat.pick 0 Strat.leaf) (Strat.scons (Strat.pick 0 Strat.leaf) Strat.snil))))) (Strat.scons (Strat.pick 7 Strat.leaf) Strat.snil))))))) (Strat.scons (Strat.pick 2 (Strat.all (Strat.scons (Strat.pick 6 Strat.leaf) (Strat.scons (Strat.pick 6 Strat.leaf) (Strat.scons (Strat.pick 6 Strat.leaf) (Strat.scons (Strat.pick 8 (Strat.all (Strat.scons (Strat.pick 3 (Strat.all (Strat.scons Strat.leaf Strat.snil))) (Strat.scons (Strat.pick 0 Strat.leaf) (Strat.scons (Strat.pick 0 Strat.leaf) Strat.snil))))) (Strat.scons (Strat.pick 6 Strat.leaf) Strat.snil))))))) (Strat.scons (Strat.pick 2 (Strat.all (Strat.scons (Strat.pick 6 Strat.leaf) (Strat.scons (Strat.pick 6 Strat.leaf) (Strat.scons (Strat.pick 6 Strat.leaf) (Strat.scons (Strat.pick 7 (Strat.all (Strat.scons (Strat.pick 1 Strat.leaf) (Strat.scons (Strat.pick 0 (Strat.all (Strat.scons Strat.leaf Strat.snil))) (Strat.scons (Strat.pick 1 Strat.leaf) Strat.snil))))) (Strat.scons (Strat.pick 6 Strat.leaf) Strat.snil))))))) Strat.snil))))))))) (Strat.scons (Strat.pick 4 (Strat.all (Strat.scons (Strat.pick 3 (Strat.all (Strat.scons (Strat.pick 5 Strat.leaf) (Strat.scons (Strat.pick 5 Strat.leaf) (Strat.scons (Strat.pick 1 (Strat.all (Strat.scons (Strat.pick 7 Strat.leaf) (Strat.scons (Strat.pick 8 (Strat.all (Strat.scons Strat.leaf Strat.snil))) (Strat.scons (Strat.pick 7 Strat.leaf) Strat.snil))))) (Strat.scons (Strat.pick 5 Strat.leaf) (Strat.scons (Strat.pick 5 Strat.leaf) Strat.snil))))))) (Strat.scons (Strat.pick 3 (Strat.all (Strat.scons (Strat.pick 5 Strat.leaf) (Strat.scons (Strat.pick 5 Strat.leaf) (Strat.scons (Strat.pick 8 (Strat.all (Strat.scons (Strat.pick 2 (Strat.all (Strat.scons Strat.leaf Strat.snil))) (Strat.scons (Strat.pick 0 Strat.leaf) (Strat.scons (Strat.pick 0 Strat.leaf) Strat.snil))))) (Strat.scons (Strat.pick 5 Strat.leaf) (Strat.scons (Strat.pick 5 Strat.leaf) Strat.snil))))))) (Strat.scons (Strat.pick 1 (Strat.all (Strat.scons (Strat.pick 7 Strat.leaf) (Strat.scons (Strat.pick 7 Strat.leaf) (Strat.scons (Strat.pick 7 Strat.leaf) (Strat.scons (Strat.pick 8 (Strat.all (Strat.scons (Strat.pick 3 (Strat.all (Strat.scons Strat.leaf Strat.snil))) (Strat.scons (Strat.pick 0 Strat.leaf) (Strat.scons (Strat.pick 0 Strat.leaf) Strat.snil))))) (Strat.scons (Strat.pick 7 Strat.leaf) Strat.snil))))))) (Strat.scons (Strat.pick 0 (Strat.all (Strat.scons (Strat.pick 8 Strat.leaf) (Strat.scons (Strat.pick 8 Strat.leaf) (Strat.scons (Strat.pick 8 Strat.leaf) (Strat.scons (Strat.pick 8 Strat.leaf) (Strat.scons (Strat.pick 7 (Strat.all (Strat.scons (Strat.pick 2 (Strat.all (Strat.scons Strat.leaf Strat.snil))) (Strat.scons (Strat.pick 1 Strat.leaf) (Strat.scons (Strat.pick 1 Strat.leaf) Strat.snil))))) Strat.snil))))))) (Strat.scons (Strat.pick 1 (Strat.all (Strat.scons (Strat.pick 7 Strat.leaf) (Strat.scons (Strat.pick 7 Strat.leaf) (Strat.scons (Strat.pick 7 Strat.leaf) (Strat.scons (Strat.pick 8 (Strat.all (Strat.scons (Strat.pick 3 (Strat.all (Strat.scons Strat.leaf Strat.snil))) (Strat.scons (Strat.pick 0 Strat.leaf) (Strat.scons (Strat.pick 0 Strat.leaf) Strat.snil))))) (Strat.scons (Strat.pick 7 Strat.leaf) Strat.snil))))))) (Strat.scons (Strat.pick 8 (Strat.all (Strat.scons (Strat.pick 3 (Strat.all (Strat.scons (Strat.pick 5 Strat.leaf) (Strat.scons (Strat.pick 5 Strat.leaf) (Strat.scons (Strat.pick 1 (Strat.all (Strat.scons Strat.leaf Strat.snil))) Strat.snil))))) (Strat.scons (Strat.pick 0 Strat.leaf) (Strat.scons (Strat.pick 0 Strat.leaf) (Strat.scons (Strat.pick 0 Strat.leaf) (Strat.scons (Strat.pick 0 Strat.leaf) Strat.snil))))))) (Strat.scons (Strat.pick 7 (Strat.all (Strat.scons (Strat.pick 1 Strat.leaf) (Strat.scons (Strat.pick 3 (Strat.all (Strat.scons (Strat.pick 5 Strat.leaf) (Strat.scons (Strat.pick 5 Strat.leaf) (Strat.scons (Strat.pick 2 (Strat.all (Strat.scons Strat.leaf Strat.snil))) Strat.snil))))) (Strat.scons (Strat.pick 1 Strat.leaf) (Strat.scons (Strat.pick 1 Strat.leaf) (Strat.scons (Strat.pick 1 Strat.leaf) Strat.snil))))))) Strat.snil))))))))) (Strat.scons (Strat.pick 4 (Strat.all (Strat.scons (Strat.pick 3 (Strat.all (Strat.scons (Strat.pick 5 Strat.leaf) (Strat.scons (Strat.pick 5 Strat.leaf) (Strat.scons (Strat.pick 2 (Strat.all (Strat.scons (Strat.pick 6 Strat.leaf) (Strat.scons (Strat.pick 8 (Strat.all (Strat.scons Strat.leaf Strat.snil))) (Strat.scons (Strat.pick 6 Strat.leaf) Strat.snil))))) (Strat.scons (Strat.pick 5 Strat.leaf) (Strat.scons (Strat.pick 5 Strat.leaf) Strat.snil))))))) (Strat.scons (Strat.pick 0 (Strat.all (Strat.scons (Strat.pick 8 Strat.leaf) (Strat.scons (Strat.pick 8 Strat.leaf) (Strat.scons (Strat.pick 8 Strat.leaf) (Strat.scons (Strat.pick 8 Strat.leaf) (Strat.scons (Strat.pick 6 (Strat.all (Strat.scons (Strat.pick 3 Strat.leaf) (Strat.scons (Strat.pick 2 Strat.leaf) (Strat.scons (Strat.pick 2 Strat.leaf) Strat.snil))))) Strat.snil))))))) (Strat.scons (Strat.pick 3 (Strat.all (Strat.scons (Strat.pick 5 Strat.leaf) (Strat.scons (Strat.pick 5 Strat.leaf) (Strat.scons (Strat.pick 8 (Strat.all (Strat.scons (Strat.pick 1 (Strat.all (Strat.scons Strat.leaf Strat.snil))) (Strat.scons (Strat.pick 0 Strat.leaf) (Strat.scons (Strat.pick 0 Strat.leaf) Strat.snil))))) (Strat.scons (Strat.pick 5 Strat.leaf) (Strat.scons (Strat.pick 5 Strat.leaf) Strat.snil))))))) (Strat.scons (Strat.pick 0 (Strat.all (Strat.scons (Strat.pick 8 Strat.leaf) (Strat.scons (Strat.pick 8 Strat.leaf) (Strat.scons (Strat.pick 8 Strat.leaf) (Strat.scons (Strat.pick 8 Strat.leaf) (Strat.scons (Strat.pick 6 (Strat.all (Strat.scons (Strat.pick 2 Strat.leaf) (Strat.scons (Strat.pick 5 (Strat.all (Strat.scons Strat.leaf Strat.snil))) (Strat.scons (Strat.pick 2 Strat.leaf) Strat.snil))))) Strat.snil))))))) (Strat.scons (Strat.pick 2 (Strat.all (Strat.scons (Strat.pick 6 Strat.leaf) (Strat.scons (Strat.pick 6 Strat.leaf) (Strat.scons (Strat.pick 6 Strat.leaf) (Strat.scons (Strat.pick 8 (Strat.all (Strat.scons (Strat.pick 3 (Strat.all (Strat.scons Strat.leaf Strat.snil))) (Strat.scons (Strat.pick 0 Strat.leaf) (Strat.scons (Strat.pick 0 Strat.leaf) Strat.snil))))) (Strat.scons (Strat.pick 6 Strat.leaf) Strat.snil))))))) (Strat.scons (Strat.pick 8 (Strat.all (Strat.scons (Strat.pick 3 (Strat.all (Strat.scons (Strat.pick 5 Strat.leaf) (Strat.scons (Strat.pick 5 Strat.leaf) (Strat.scons (Strat.pick 1 (Strat.all (Strat.scons Strat.leaf Strat.snil))) Strat.snil))))) (Strat.scons (Strat.pick 0 Strat.leaf) (Strat.scons (Strat.pick 0 Strat.leaf) (Strat.scons (Strat.pick 0 Strat.leaf) (Strat.scons (Strat.pick 0 Strat.leaf) Strat.snil))))))) (Strat.scons (Strat.pick 6 (Strat.all (Strat.scons (Strat.pick 2 Strat.leaf) (Strat.scons (Strat.pick 2 Strat.leaf) (Strat.scons (Strat.pick 5 (Strat.all (Strat.scons (Strat.pick 3 Strat.leaf) (Strat.scons (Strat.pick 3 Strat.leaf) (Strat.scons (Strat.pick 0 (Strat.all (Strat.scons Strat.leaf Strat.snil))) Strat.snil))))) (Strat.scons (Strat.pick 2 Strat.leaf) (Strat.scons (Strat.pick 2 Strat.leaf) Strat.snil))))))) Strat.snil))))))))) (Strat.scons (Strat.pick 4 (Strat.all (Strat.scons (Strat.pick 1 (Strat.all (Strat.scons (Strat.pick 7 Strat.leaf) (Strat.scons (Strat.pick 7 Strat.leaf) (Strat.scons (Strat.pick 7 Strat.leaf) (Strat.scons (Strat.pick 7 Strat.leaf) (Strat.scons (Strat.pick 6 (Strat.all (Strat.scons (Strat.pick 5 (Strat.all (Strat.scons Strat.leaf Strat.snil))) (Strat.scons (Strat.pick 2 Strat.leaf) (Strat.scons (Strat.pick 2 Strat.leaf) Strat.snil))))) Strat.snil))))))) (Strat.scons (Strat.pick 3 (Strat.all (Strat.scons (Strat.pick 5 Strat.leaf) (Strat.scons (Strat.pick 5 Strat.leaf) (Strat.scons (Strat.pick 2 (Strat.all (Strat.scons (Strat.pick 6 Strat.leaf) (Strat.scons (Strat.pick 7 (Strat.all (Strat.scons Strat.leaf Strat.snil))) (Strat.scons (Strat.pick 6 Strat.leaf) Strat.snil))))) (Strat.scons (Strat.pick 5 Strat.leaf) (Strat.scons (Strat.pick 5 Strat.leaf) Strat.snil))))))) (Strat.scons (Strat.pick 5 (Strat.all (Strat.scons (Strat.pick 3 Strat.leaf) (Strat.scons (Strat.pick 3 Strat.leaf) (Strat.scons (Strat.pick 1 (Strat.all (Strat.scons (Strat.pick 7 Strat.leaf) (Strat.scons (Strat.pick 7 Strat.leaf) (Strat.scons (Strat.pick 6 (Strat.all (Strat.scons Strat.leaf Strat.snil))) Strat.snil))))) (Strat.scons (Strat.pick 3 Strat.leaf) (Strat.scons (Strat.pick 3 Strat.leaf) Strat.snil))))))) (Strat.scons (Strat.pick 1 (Strat.all (Strat.scons (Strat.pick 7 Strat.leaf) (Strat.scons (Strat.pick 7 Strat.leaf) (Strat.scons (Strat.pick 7 Strat.leaf) (Strat.scons (Strat.pick 7 Strat.leaf) (Strat.scons (Strat.pick 6 (Strat.all (Strat.scons (Strat.pick 2 Strat.leaf) (Strat.scons (Strat.pick 5 (Strat.all (Strat.scons Strat.leaf Strat.snil))) (Strat.scons (Strat.pick 2 Strat.leaf) Strat.snil))))) Strat.snil))))))) (Strat.scons (Strat.pick 2 (Strat.all (Strat.scons (Strat.pick 6 Strat.leaf) (Strat.scons (Strat.pick 6 Strat.leaf) (Strat.scons (Strat.pick 6 Strat.leaf) (Strat.scons (Strat.pick 7 (Strat.all (Strat.scons (Strat.pick 1 Strat.leaf) (Strat.scons (Strat.pick 0 (Strat.all (Strat.scons Strat.leaf Strat.snil))) (Strat.scons (Strat.pick 1 Strat.leaf) Strat.snil))))) (Strat.scons (Strat.pick 6 Strat.leaf) Strat.snil))))))) (Strat.scons (Strat.pick 7 (Strat.all (Strat.scons (Strat.pick 1 Strat.leaf) (Strat.scons (Strat.pick 3 (Strat.all (Strat.scons (Strat.pick 5 Strat.leaf) (Strat.scons (Strat.pick 5 Strat.leaf) (Strat.scons (Strat.pick 2 (Strat.all (Strat.scons Strat.leaf Strat.snil))) Strat.snil))))) (Strat.scons (Strat.pick 1 Strat.leaf) (Strat.scons (Strat.pick 1 Strat.leaf) (Strat.scons (Strat.pick 1 Strat.leaf) Strat.snil))))))) (Strat.scons (Strat.pick 6 (Strat.all (Strat.scons (Strat.pick 2 Strat.leaf) (Strat.scons (Strat.pick 2 Strat.leaf) (Strat.scons (Strat.pick 5 (Strat.all (Strat.scons (Strat.pick 3 Strat.leaf) (Strat.scons (Strat.pick 3 Strat.leaf) (Strat.scons (Strat.pick 0 (Strat.all (Strat.scons Strat.leaf Strat.snil))) Strat.snil))))) (Strat.scons (Strat.pick 2 Strat.leaf) (Strat.scons (Strat.pick 2 Strat.leaf) Strat.snil))))))) Strat.snil))))))))) Strat.snil))))))))))

/-! ### Basic lemmas about the board primitives -/

theorem mem_available_moves {b : Board} {m : Nat} :
    m ∈ available_moves b ↔ m < b.length ∧ b.getD m EMPTY = EMPTY := by
  simp [available_moves, List.mem_filter, List.mem_range]

theorem winner_none_contains {b : Board} (h : winner b = none) : EMPTY ∈ b := by
  unfold winner at h
  cases hf : WIN_LINES.find? (lineWon b) with
  | some t => rw [hf] at h; exact absurd h (by simp)
  | none =>
    rw [hf] at h
    by_cases hc : b.contains EMPTY
    · exact List.mem_of_elem_eq_true hc
    · rw [if_neg hc] at h; exact absurd h (by simp)

theorem available_moves_ne_nil {b : Board} (h : EMPTY ∈ b) :
    available_moves b ≠ [] := by
  obtain ⟨i, hget⟩ := List.mem_iff_get.mp h
  have hmem : i.1 ∈ available_moves b := by
    refine mem_available_moves.mpr ⟨i.2, ?_⟩
    rw [List.getD_eq_getElem?_getD, List.getElem?_eq_getElem i.2]
    simpa using hget
  exact List.ne_nil_of_mem hmem

theorem count_set_of_empty :
    ∀ (b : Board) (m : Nat) (p : Cell), m < b.length →
      b.getD m EMPTY = EMPTY → p ≠ EMPTY →
      (b.set m p).count EMPTY + 1 = b.count EMPTY := by
  intro b
  induction b with
  | nil => intro m p hm _ _; exact absurd hm (by simp)
  | cons c t ih =>
    intro m p hm he hp
    cases m with
    | zero =>
      have hc : c = EMPTY := by simpa using he
      subst hc
      simp [List.count_cons, hp, bne, beq_iff_eq]
    | succ k =>
      have hk : k < t.length := by simpa using hm
      have he' : t.getD k EMPTY = EMPTY := by simpa using he
      have := ih k p hk he' hp
      simp [List.count_cons]
      omega

theorem set_set_restore : ∀ (b : Board) (m : Nat) (p : Cell),
    b.getD m EMPTY = EMPTY → (b.set m p).set m EMPTY = b := by
  intro b
  induction b with
  | nil => intro m p _; simp
  | cons c t ih =>
    intro m p he
    cases m with
    | zero =>
      have hc : c = EMPTY := by simpa using he
      simp [hc]
    | succ k =>
      have hk := ih k p (by simpa using he)
      simpa using hk

/-! ### Folds with `max` / `min` over the integers -/

theorem ite_gt_eq_max (a b : Int) : (if b > a then b else a) = max a b := by
  rcases le_or_lt b a with h | h
  · simp [h.not_lt, max_eq_left h]
  · simp [h, max_eq_right h.le]

theorem ite_lt_eq_min (a b : Int) : (if b < a then b else a) = min a b := by
  rcases le_or_lt a b with h | h
  · simp [h.not_lt, min_eq_left h]
  · simp [h, min_eq_right h.le]

theorem le_foldl_max : ∀ (l : List Int) (init : Int), init ≤ l.foldl max init := by
  intro l
  induction l with
  | nil => intro init; simp
  | cons x t ih => intro init; exact le_trans (le_max_left init x) (ih (max init x))

theorem mem_le_foldl_max : ∀ (l : List Int) (x : Int), x ∈ l →
    ∀ init : Int, x ≤ l.foldl max init := by
  intro l
  induction l with
  | nil => intro x hx; exact absurd hx (by simp)
  | cons y t ih =>
    intro x hx init
    rcases List.mem_cons.mp hx with h | h
    · subst h; exact le_trans (le_max_right init x) (le_foldl_max t _)
    · exact ih x h _

theorem foldl_max_mem : ∀ (l : List Int) (init : Int),
    l.foldl max init = init ∨ l.foldl max init ∈ l := by
  intro l
  induction l with
  | nil => intro init; simp
  | cons x t ih =>
    intro init
    rcases ih (max init x) with h | h
    · rcases max_choice init x with hm | hm
      · left; rw [List.foldl_cons, h, hm]
      · right; rw [List.foldl_cons, h, hm]; exact List.mem_cons_self x t
    · right; exact List.mem_cons_of_mem x h

theorem foldl_max_le {c : Int} : ∀ (l : List Int) (init : Int), init ≤ c →
    (∀ x ∈ l, x ≤ c) → l.foldl max init ≤ c := by
  intro l
  induction l with
  | nil => intro init hinit _; simpa using hinit
  | cons x t ih =>
    intro init hinit hall
    refine ih (max init x) (max_le hinit (hall x (List.mem_cons_self x t))) ?_
    intro y hy; exact hall y (List.mem_cons_of_mem x hy)

theorem foldl_min_le : ∀ (l : List Int) (init : Int), l.foldl min init ≤ init := by
  intro l
  induction l with
  | nil => intro init; simp
  | cons x t ih => intro init; exact le_trans (ih (min init x)) (min_le_left init x)

theorem foldl_min_le_mem : ∀ (l : List Int) (x : Int), x ∈ l →
    ∀ init : Int, l.foldl min init ≤ x := by
  intro l
  induction l with
  | nil => intro x hx; exact absurd hx (by simp)
  | cons y t ih =>
    intro x hx init
    rcases List.mem_cons.mp hx with h | h
    · subst h; exact le_trans (foldl_min_le t _) (min_le_right init x)
    · exact ih x h _

theorem foldl_min_mem : ∀ (l : List Int) (init : Int),
    l.foldl min init = init ∨ l.foldl min init ∈ l := by
  intro l
  induction l with
  | nil => intro init; simp
  | cons x t ih =>
    intro init
    rcases ih (min init x) with h | h
    · rcases min_choice init x with hm | hm
      · left; rw [List.foldl_cons, h, hm]
      · right; rw [List.foldl_cons, h, hm]; exact List.mem_cons_self x t
    · right; exact List.mem_cons_of_mem x h

theorem le_foldl_min {c : Int} : ∀ (l : List Int) (init : Int), c ≤ init →
    (∀ x ∈ l, c ≤ x) → c ≤ l.foldl min init := by
  intro l
  induction l with
  | nil => intro init hinit _; simpa using hinit
  | cons x t ih =>
    intro init hinit hall
    refine ih (min init x) (le_min hinit (hall x (List.mem_cons_self x t))) ?_
    intro y hy; exact hall y (List.mem_cons_of_mem x hy)

/-! ### Value of the unpruned loops as a fold -/

theorem plainMaxLoop_fst (rec : Board → Cell → Bool → Int × Option Nat)
    (board : Board) (player : Cell) :
    ∀ (ms : List Nat) (best : Int) (bestMv : Option Nat),
      (plainMaxLoop rec board player ms best bestMv).1 =
        (ms.map (fun m =>
          (rec (board.set m player) (if player = AI then HUMAN else AI) false).1)).foldl
          max best := by
  intro ms
  induction ms with
  | nil => intro best bestMv; simp [plainMaxLoop]
  | cons m rest ih =>
    intro best bestMv
    rw [List.map_cons, List.foldl_cons, ← ite_gt_eq_max]
    unfold plainMaxLoop
    by_cases h : (rec (board.set m player) (if player = AI then HUMAN else AI) false).1 > best
    · rw [if_pos h, if_pos h, ih]
    · rw [if_neg h, if_neg h, ih]

theorem plainMinLoop_fst (rec : Board → Cell → Bool → Int × Option Nat)
    (board : Board) (player : Cell) :
    ∀ (ms : List Nat) (best : Int) (bestMv : Option Nat),
      (plainMinLoop rec board player ms best bestMv).1 =
        (ms.map (fun m =>
          (rec (board.set m player) (if player = AI then HUMAN else AI) true).1)).foldl
          min best := by
  intro ms
  induction ms with
  | nil => intro best bestMv; simp [plainMinLoop]
  | cons m rest ih =>
    intro best bestMv
    rw [List.map_cons, List.foldl_cons, ← ite_lt_eq_min]
    unfold plainMinLoop
    by_cases h : (rec (board.set m player) (if player = AI then HUMAN else AI) true).1 < best
    · rw [if_pos h, if_pos h, ih]
    · rw [if_neg h, if_neg h, ih]

/-! ### Recurrences for the unpruned value -/

theorem plainVal_max_rec {b : Board} {p : Cell} (hw : winner b = none)
    (hp : p ≠ EMPTY) :
    plainVal b p true =
      ((available_moves b).map
        (fun m => plainVal (b.set m p) (if p = AI then HUMAN else AI) false)).foldl
        max (-999) := by
  unfold plainVal minimaxPlain
  rw [show b.count EMPTY + 1 = b.count EMPTY + 1 from rfl]
  unfold plainF
  rw [hw]
  simp only [if_true]
  rw [plainMaxLoop_fst]
  congr 1
  apply List.map_congr_left
  intro m hm
  obtain ⟨hlt, he⟩ := mem_available_moves.mp hm
  have hcnt := count_set_of_empty b m p hlt he hp
  rw [← hcnt]
  simp only [plainF]

theorem plainVal_min_rec {b : Board} {p : Cell} (hw : winner b = none)
    (hp : p ≠ EMPTY) :
    plainVal b p false =
      ((available_moves b).map
        (fun m => plainVal (b.set m p) (if p = AI then HUMAN else AI) true)).foldl
        min 999 := by
  unfold plainVal minimaxPlain
  unfold plainF
  rw [hw]
  simp only [Bool.false_eq_true, if_false]
  rw [plainMinLoop_fst]
  congr 1
  apply List.map_congr_left
  intro m hm
  obtain ⟨hlt, he⟩ := mem_available_moves.mp hm
  have hcnt := count_set_of_empty b m p hlt he hp
  rw [← hcnt]
  simp only [plainF]

/-- Terminal positions have the terminal score as value, for either flag. -/
theorem plainVal_terminal {b : Board} {w : Result} (hw : winner b = some w)
    (p : Cell) (mx : Bool) : plainVal b p mx = score_for AI (some w) := by
  unfold plainVal minimaxPlain plainF
  rw [hw]

/-! ### The state-threading search returns the board unchanged -/

theorem stMaxLoop_eq (rec : Board → Cell → Bool → Int → Int → (Int × Option Nat) × Board)
    (rec' : Board → Cell → Bool → Int → Int → Int × Option Nat)
    (hrec : ∀ b p mx al be, rec b p mx al be = (rec' b p mx al be, b))
    (player : Cell) :
    ∀ (ms : List Nat) (b : Board) (best : Int) (bestMv : Option Nat) (alpha beta : Int),
      (∀ m ∈ ms, b.getD m EMPTY = EMPTY) →
      stMaxLoop rec player b ms best bestMv alpha beta =
        (maxLoop rec' b player ms best bestMv alpha beta, b) := by
  intro ms
  induction ms with
  | nil => intro b best bestMv alpha beta _; simp [stMaxLoop, maxLoop]
  | cons m rest ih =>
    intro b best bestMv alpha beta hms
    have he := hms m (List.mem_cons_self m rest)
    simp only [stMaxLoop, maxLoop, hrec, set_set_restore (b.set m player) m EMPTY]
    rw [set_set_restore b m player he]
    by_cases hc : beta ≤ max alpha (rec' (b.set m player) (if player = AI then HUMAN else AI) false alpha beta).1
    · rw [if_pos hc, if_pos hc]
    · rw [if_neg hc, if_neg hc]
      exact ih b _ _ _ _ (fun m' hm' => hms m' (List.mem_cons_of_mem m hm'))

theorem stMinLoop_eq (rec : Board → Cell → Bool → Int → Int → (Int × Option Nat) × Board)
    (rec' : Board → Cell → Bool → Int → Int → Int × Option Nat)
    (hrec : ∀ b p mx al be, rec b p mx al be = (rec' b p mx al be, b))
    (player : Cell) :
    ∀ (ms : List Nat) (b : Board) (best : Int) (bestMv : Option Nat) (alpha beta : Int),
      (∀ m ∈ ms, b.getD m EMPTY = EMPTY) →
      stMinLoop rec player b ms best bestMv alpha beta =
        (minLoop rec' b player ms best bestMv alpha beta, b) := by
  intro ms
  induction ms with
  | nil => intro b best bestMv alpha beta _; simp [stMinLoop, minLoop]
  | cons m rest ih =>
    intro b best bestMv alpha beta hms
    have he := hms m (List.mem_cons_self m rest)
    simp only [stMinLoop, minLoop, hrec]
    rw [set_set_restore b m player he]
    by_cases hc : min beta (rec' (b.set m player) (if player = AI then HUMAN else AI) true alpha beta).1 ≤ alpha
    · rw [if_pos hc, if_pos hc]
    · rw [if_neg hc, if_neg hc]
      exact ih b _ _ _ _ (fun m' hm' => hms m' (List.mem_cons_of_mem m hm'))

theorem minimaxStF_eq : ∀ (fuel : Nat) (b : Board) (p : Cell) (mx : Bool)
    (alpha beta : Int),
    minimaxStF fuel b p mx alpha beta = (minimaxF fuel b p mx alpha beta, b) := by
  intro fuel
  induction fuel with
  | zero => intro b p mx alpha beta; rfl
  | succ n ih =>
    intro b p mx alpha beta
    unfold minimaxStF minimaxF
    cases hw : winner b with
    | some w => simp
    | none =>
      simp only []
      cases mx with
      | true =>
        simp only [if_true]
        exact stMaxLoop_eq _ _ ih p (available_moves b) b _ _ _ _
          (fun m hm => (mem_available_moves.mp hm).2)
      | false =>
        simp only [Bool.false_eq_true, if_false]
        exact stMinLoop_eq _ _ ih p (available_moves b) b _ _ _ _
          (fun m hm => (mem_available_moves.mp hm).2)

theorem minimaxSt_eq (b : Board) (p : Cell) (mx : Bool) (alpha beta : Int) :
    minimaxSt b p mx alpha beta = (minimax b p mx alpha beta, b) :=
  minimaxStF_eq _ b p mx alpha beta

theorem aiLoopSt_eq : ∀ (ms : List Nat) (b : Board) (acc : List Int),
    (∀ m ∈ ms, b.getD m EMPTY = EMPTY) →
    aiLoopSt b ms acc =
      (acc ++ ms.map (fun m => (minimax (b.set m AI) HUMAN false (-999) 999).1), b) := by
  intro ms
  induction ms with
  | nil => intro b acc _; simp [aiLoopSt]
  | cons m rest ih =>
    intro b acc hms
    have he := hms m (List.mem_cons_self m rest)
    simp only [aiLoopSt, minimaxSt_eq]
    rw [set_set_restore b m AI he]
    rw [ih b _ (fun m' hm' => hms m' (List.mem_cons_of_mem m hm'))]
    simp

theorem ai_moveSt_eq (b : Board) : ai_moveSt b = (ai_move b, b) := by
  simp only [ai_moveSt, ai_move, aiProb, aiOutcomes]
  rw [aiLoopSt_eq (available_moves b) b []
    (fun m hm => (mem_available_moves.mp hm).2)]
  simp
  cases hmx : ((available_moves b).map
      (fun m => (minimax (b.set m AI) HUMAN false (-999) 999).1)).max? with
  | none => simp [hmx]
  | some best => simp [hmx]

/-! ### Further basic consequences -/

theorem getD_eq_getElem_of_lt {b : Board} {m : Nat} (hlt : m < b.length) :
    b.getD m EMPTY = b[m] := by
  simp [List.getD_eq_getElem?_getD, List.getElem?_eq_getElem hlt]

theorem available_moves_eq_nil {b : Board} (h : ¬ EMPTY ∈ b) :
    available_moves b = [] := by
  refine List.eq_nil_iff_forall_not_mem.mpr ?_
  intro m hm
  obtain ⟨hlt, he⟩ := mem_available_moves.mp hm
  apply h
  rw [getD_eq_getElem_of_lt hlt] at he
  rw [← he]
  exact List.getElem_mem hlt

theorem count_pair_le : ∀ (l : List Int) (a b : Int), a ≠ b →
    l.count a + l.count b ≤ l.length := by
  intro l
  induction l with
  | nil => intro a b _; simp
  | cons x t ih =>
    intro a b hab
    have := ih a b hab
    by_cases hxa : x = a
    · subst hxa
      simp [List.count_cons, beq_iff_eq, hab, Ne.symm (fun h => hab h.symm)]
      omega
    · by_cases hxb : x = b
      · subst hxb
        simp [List.count_cons, beq_iff_eq, hxa]
        omega
      · simp [List.count_cons, beq_iff_eq, hxa, hxb]
        omega

/-! ### Claim theorems (first group) -/

/-- C3: after `minimax` (modelled with the board threaded through every
mutate/recurse/undo step, including cutoff exits) or `ai_move` returns, the
board left behind is identical to the board passed in, and repeating the
call on the board a call returns yields the identical result. -/
theorem C3_board_restored :
    ∀ (b : Board) (p : Cell) (mx : Bool) (alpha beta : Int),
      (minimaxSt b p mx alpha beta).2 = b ∧
      (ai_moveSt b).2 = b ∧
      minimaxSt ((minimaxSt b p mx alpha beta).2) p mx alpha beta =
        minimaxSt b p mx alpha beta ∧
      ai_moveSt ((ai_moveSt b).2) = ai_moveSt b := by
  intro b p mx alpha beta
  refine ⟨?_, ?_, ?_, ?_⟩
  · rw [minimaxSt_eq]
  · rw [ai_moveSt_eq]
  · simp [minimaxSt_eq]
  · simp [ai_moveSt_eq]

/-- C7: a 9-cell board on which `winner` reports undecided (`none`) has at
least one empty cell, so `available_moves` is non-empty. -/
theorem C7_undecided_has_moves :
    ∀ b : Board, b.length = 9 → winner b = none → available_moves b ≠ [] := by
  intro b _ hw
  exact available_moves_ne_nil (winner_none_contains hw)

/-- C7 witness: the all-empty board is undecided and has available moves. -/
theorem C7_witness :
    available_moves (List.replicate 9 EMPTY) ≠ [] :=
  C7_undecided_has_moves (List.replicate 9 EMPTY) (by decide) (by decide)

/-- C6: on a board with no empty cell the probability expression of
`ai_move` yields 0 (no division by zero), and the call itself fails
(Python's `max` raises on the empty outcome list, modelled as `none`)
instead of returning a normal move/probability pair. -/
theorem C6_no_moves_fails :
    ∀ b : Board, ¬ EMPTY ∈ b → aiProb b = 0 ∧ ai_move b = none := by
  intro b h
  have hav : available_moves b = [] := available_moves_eq_nil h
  constructor
  · unfold aiProb aiOutcomes
    rw [hav]
    simp
  · unfold ai_move aiOutcomes
    rw [hav]
    simp

/-- C6 witness: a concrete full board. -/
theorem C6_witness :
    aiProb [Cell.x, Cell.o, Cell.x, Cell.o, Cell.x, Cell.o, Cell.o, Cell.x, Cell.o] = 0 ∧
    ai_move [Cell.x, Cell.o, Cell.x, Cell.o, Cell.x, Cell.o, Cell.o, Cell.x, Cell.o] = none :=
  C6_no_moves_fails _ (by decide)

/-- C2 counterexample: on the (unreachable but 9-cell) board with a complete
X row and a complete O row, `winner` reports X (the first line scanned), so
"`winner` returns a side exactly when one of the eight win-lines has all
three of its cells equal to that non-Empty side" fails at the side O. -/
theorem C2_counterexample :
    ¬ (winner [Cell.x, Cell.x, Cell.x, Cell.o, Cell.o, Cell.o, Cell.e, Cell.e, Cell.e] =
          some (Result.side AI) ↔
        (AI ≠ EMPTY ∧ ∃ t ∈ WIN_LINES,
          [Cell.x, Cell.x, Cell.x, Cell.o, Cell.o, Cell.o, Cell.e, Cell.e, Cell.e].getD t.1 EMPTY = AI ∧
          [Cell.x, Cell.x, Cell.x, Cell.o, Cell.o, Cell.o, Cell.e, Cell.e, Cell.e].getD t.2.1 EMPTY = AI ∧
          [Cell.x, Cell.x, Cell.x, Cell.o, Cell.o, Cell.o, Cell.e, Cell.e, Cell.e].getD t.2.2 EMPTY = AI)) := by
  decide

/-- C2 (amended): on a 9-cell board on which at most one side holds a
complete win-line — true of every board reachable in play — `winner` returns
a side exactly when some win-line has all three cells equal to that
non-empty side; with no won line it returns Draw when no empty cell remains
and undecided (`none`) otherwise. -/
theorem winner_eq_of_find_some {b : Board} {t : Nat × Nat × Nat}
    (hf : WIN_LINES.find? (lineWon b) = some t) :
    winner b = some (Result.side (b.getD t.1 EMPTY)) := by
  unfold winner; rw [hf]

theorem winner_eq_of_find_none {b : Board}
    (hf : WIN_LINES.find? (lineWon b) = none) :
    winner b = if b.contains EMPTY then none else some Result.draw := by
  unfold winner; rw [hf]

theorem C2_winner_characterisation :
    ∀ b : Board, b.length = 9 →
      (∀ t₁ ∈ WIN_LINES, ∀ t₂ ∈ WIN_LINES, lineWon b t₁ = true →
        lineWon b t₂ = true → b.getD t₁.1 EMPTY = b.getD t₂.1 EMPTY) →
      ((∀ s : Cell, winner b = some (Result.side s) ↔
          (s ≠ EMPTY ∧ ∃ t ∈ WIN_LINES,
            b.getD t.1 EMPTY = s ∧ b.getD t.2.1 EMPTY = s ∧ b.getD t.2.2 EMPTY = s)) ∧
       (winner b = some Result.draw ↔
          ((∀ t ∈ WIN_LINES, lineWon b t = false) ∧ ¬ EMPTY ∈ b)) ∧
       (winner b = none ↔
          ((∀ t ∈ WIN_LINES, lineWon b t = false) ∧ EMPTY ∈ b))) := by
  intro b _ huniq
  have hline : ∀ t : Nat × Nat × Nat, lineWon b t = true ↔
      (b.getD t.1 EMPTY = b.getD t.2.1 EMPTY ∧
       b.getD t.2.1 EMPTY = b.getD t.2.2 EMPTY ∧
       b.getD t.1 EMPTY ≠ EMPTY) := by
    intro t
    unfold lineWon
    simp only [Bool.and_eq_true, beq_iff_eq, Bool.not_eq_eq_eq_not, Bool.not_true,
      beq_eq_false_iff_ne, ne_eq]
    tauto
  refine ⟨?_, ?_, ?_⟩
  · intro s
    constructor
    · intro hw
      cases hf : WIN_LINES.find? (lineWon b) with
      | none =>
        rw [winner_eq_of_find_none hf] at hw
        by_cases hc : b.contains EMPTY <;> simp [hc] at hw
      | some t =>
        have hs : b.getD t.1 EMPTY = s :=
          Result.side.inj (Option.some.inj ((winner_eq_of_find_some hf).symm.trans hw))
        have hmem := List.mem_of_find?_eq_some hf
        have hwon := List.find?_some hf
        obtain ⟨h1, h2, h3⟩ := (hline t).mp hwon
        refine ⟨?_, t, hmem, hs, ?_, ?_⟩
        · rw [← hs]; exact h3
        · rw [← h1]; exact hs
        · rw [← h2, ← h1]; exact hs
    · rintro ⟨hsne, t, htmem, h1, h2, h3⟩
      have hwon : lineWon b t = true :=
        (hline t).mpr ⟨h1.trans h2.symm, h2.trans h3.symm, by rw [h1]; exact hsne⟩
      have hsome : (WIN_LINES.find? (lineWon b)).isSome := by
        rw [List.find?_isSome]
        exact ⟨t, htmem, hwon⟩
      obtain ⟨t₀, ht₀⟩ := Option.isSome_iff_exists.mp hsome
      have heq := huniq t₀ (List.mem_of_find?_eq_some ht₀) t htmem
        (List.find?_some ht₀) hwon
      rw [winner_eq_of_find_some ht₀, heq, h1]
  · constructor
    · intro hw
      cases hf : WIN_LINES.find? (lineWon b) with
      | some t =>
        rw [winner_eq_of_find_some hf] at hw
        exact absurd hw (by simp)
      | none =>
        rw [winner_eq_of_find_none hf] at hw
        by_cases hc : b.contains EMPTY
        · rw [if_pos hc] at hw; exact absurd hw (by simp)
        · refine ⟨?_, fun hmem => hc (List.elem_eq_true_of_mem hmem)⟩
          intro t htmem
          have := List.find?_eq_none.mp hf t htmem
          simpa using this
    · rintro ⟨hnone, hne⟩
      have hf : WIN_LINES.find? (lineWon b) = none := by
        rw [List.find?_eq_none]
        intro t htmem
        simp [hnone t htmem]
      rw [winner_eq_of_find_none hf]
      have hc : b.contains EMPTY = false := by
        by_cases h : b.contains EMPTY
        · exact absurd (List.mem_of_elem_eq_true h) hne
        · simpa using h
      simp [hc]
      exact hne
  · constructor
    · intro hw
      cases hf : WIN_LINES.find? (lineWon b) with
      | some t =>
        rw [winner_eq_of_find_some hf] at hw
        exact absurd hw (by simp)
      | none =>
        rw [winner_eq_of_find_none hf] at hw
        by_cases hc : b.contains EMPTY
        · refine ⟨?_, List.mem_of_elem_eq_true hc⟩
          intro t htmem
          have := List.find?_eq_none.mp hf t htmem
          simpa using this
        · rw [if_neg hc] at hw; exact absurd hw (by simp)
    · rintro ⟨hnone, hmem⟩
      have hf : WIN_LINES.find? (lineWon b) = none := by
        rw [List.find?_eq_none]
        intro t htmem
        simp [hnone t htmem]
      rw [winner_eq_of_find_none hf]
      simp [List.elem_eq_true_of_mem hmem]
      exact hmem

/-- C2 witness: on a board whose only complete line is the X top row, the
characterisation reports the X win. -/
theorem C2_witness :
    winner [Cell.x, Cell.x, Cell.x, Cell.e, Cell.e, Cell.o, Cell.o, Cell.e, Cell.e] =
      some (Result.side HUMAN) := by
  have h := (C2_winner_characterisation
    [Cell.x, Cell.x, Cell.x, Cell.e, Cell.e, Cell.o, Cell.o, Cell.e, Cell.e]
    (by decide) (by decide)).1 HUMAN
  exact h.mpr (by decide)

/-- C4: on a board with at least one empty cell, `ai_move` returns a move
paired with the probability figure; the recorded outcomes are exactly the
full-window searches of each candidate applied for the automated side with
the opponent minimizing; the probability equals
`(wins + 0.5·draws) / total` over those outcomes and lies in `[0, 1]`. -/
theorem C4_probability_formula :
    ∀ b : Board, available_moves b ≠ [] →
      (∃ mv : Nat, ai_move b = some (mv, aiProb b)) ∧
      aiOutcomes b = (available_moves b).map
        (fun m => (minimax (b.set m AI) HUMAN false (-999) 999).1) ∧
      aiProb b = (((aiOutcomes b).count 1 : Rat) +
        (1/2) * ((aiOutcomes b).count 0 : Rat)) / ((aiOutcomes b).length : Rat) ∧
      0 ≤ aiProb b ∧ aiProb b ≤ 1 := by
  intro b hne
  have hlen : (aiOutcomes b).length ≠ 0 := by
    unfold aiOutcomes
    simpa using hne
  have hout : aiOutcomes b ≠ [] := fun h => hlen (by rw [h]; rfl)
  have hprob : aiProb b = (((aiOutcomes b).count 1 : Rat) +
      (1/2) * ((aiOutcomes b).count 0 : Rat)) / ((aiOutcomes b).length : Rat) := by
    unfold aiProb
    rw [if_neg hlen]
  have hwins : (aiOutcomes b).count 1 + (aiOutcomes b).count 0 ≤
      (aiOutcomes b).length := count_pair_le (aiOutcomes b) 1 0 (by decide)
  have hlenpos : (0 : Rat) < ((aiOutcomes b).length : Rat) := by
    have : 0 < (aiOutcomes b).length := Nat.pos_of_ne_zero hlen
    exact_mod_cast this
  refine ⟨?_, rfl, hprob, ?_, ?_⟩
  · cases hmx : (aiOutcomes b).max? with
    | none => exact absurd (List.max?_eq_none_iff.mp hmx) hout
    | some best =>
      refine ⟨(available_moves b).getD ((aiOutcomes b).indexOf best) 0, ?_⟩
      unfold ai_move
      rw [hmx]
  · rw [hprob]
    apply div_nonneg _ hlenpos.le
    positivity
  · rw [hprob]
    rw [div_le_one hlenpos]
    have h1 : ((1:Rat)/2) * ((aiOutcomes b).count 0 : Rat) ≤
        ((aiOutcomes b).count 0 : Rat) := by
      have hnn : (0:Rat) ≤ ((aiOutcomes b).count 0 : Rat) := by positivity
      nlinarith
    have h2 : (((aiOutcomes b).count 1 : Rat) + ((aiOutcomes b).count 0 : Rat)) ≤
        ((aiOutcomes b).length : Rat) := by exact_mod_cast hwins
    linarith

/-- C4 witness: a concrete board with a single empty cell. -/
theorem C4_witness :
    ai_move [Cell.x, Cell.o, Cell.x, Cell.o, Cell.e, Cell.x, Cell.x, Cell.x, Cell.o] ≠ none ∧
    0 ≤ aiProb [Cell.x, Cell.o, Cell.x, Cell.o, Cell.e, Cell.x, Cell.x, Cell.x, Cell.o] ∧
    aiProb [Cell.x, Cell.o, Cell.x, Cell.o, Cell.e, Cell.x, Cell.x, Cell.x, Cell.o] ≤ 1 := by
  have h := C4_probability_formula
    [Cell.x, Cell.o, Cell.x, Cell.o, Cell.e, Cell.x, Cell.x, Cell.x, Cell.o] (by decide)
  obtain ⟨⟨mv, hmv⟩, _, _, h0, h1⟩ := h
  exact ⟨by rw [hmv]; simp, h0, h1⟩

/-! ### Unfolding equations for the pruned loops -/

theorem maxLoop_cons (rec : Board → Cell → Bool → Int → Int → Int × Option Nat)
    (board : Board) (player : Cell) (m : Nat) (rest : List Nat)
    (best : Int) (bestMv : Option Nat) (alpha beta : Int) :
    maxLoop rec board player (m :: rest) best bestMv alpha beta =
      if beta ≤ max alpha (rec (board.set m player) (if player = AI then HUMAN else AI) false alpha beta).1 then
        ((if (rec (board.set m player) (if player = AI then HUMAN else AI) false alpha beta).1 > best
            then (rec (board.set m player) (if player = AI then HUMAN else AI) false alpha beta).1 else best),
         (if (rec (board.set m player) (if player = AI then HUMAN else AI) false alpha beta).1 > best
            then some m else bestMv))
      else maxLoop rec board player rest
        (if (rec (board.set m player) (if player = AI then HUMAN else AI) false alpha beta).1 > best
            then (rec (board.set m player) (if player = AI then HUMAN else AI) false alpha beta).1 else best)
        (if (rec (board.set m player) (if player = AI then HUMAN else AI) false alpha beta).1 > best
            then some m else bestMv)
        (max alpha (rec (board.set m player) (if player = AI then HUMAN else AI) false alpha beta).1)
        beta := rfl

theorem minLoop_cons (rec : Board → Cell → Bool → Int → Int → Int × Option Nat)
    (board : Board) (player : Cell) (m : Nat) (rest : List Nat)
    (best : Int) (bestMv : Option Nat) (alpha beta : Int) :
    minLoop rec board player (m :: rest) best bestMv alpha beta =
      if min beta (rec (board.set m player) (if player = AI then HUMAN else AI) true alpha beta).1 ≤ alpha then
        ((if (rec (board.set m player) (if player = AI then HUMAN else AI) true alpha beta).1 < best
            then (rec (board.set m player) (if player = AI then HUMAN else AI) true alpha beta).1 else best),
         (if (rec (board.set m player) (if player = AI then HUMAN else AI) true alpha beta).1 < best
            then some m else bestMv))
      else minLoop rec board player rest
        (if (rec (board.set m player) (if player = AI then HUMAN else AI) true alpha beta).1 < best
            then (rec (board.set m player) (if player = AI then HUMAN else AI) true alpha beta).1 else best)
        (if (rec (board.set m player) (if player = AI then HUMAN else AI) true alpha beta).1 < best
            then some m else bestMv)
        alpha
        (min beta (rec (board.set m player) (if player = AI then HUMAN else AI) true alpha beta).1) := rfl

/-! ### The search score is a game score and the move is a legal move -/

/-- A value actually produced by evaluating a game position. -/
def isScore (v : Int) : Prop := v = -1 ∨ v = 0 ∨ v = 1

theorem isScore_score_for (p : Cell) (r : Option Result) :
    isScore (score_for p r) := by
  unfold score_for isScore
  match r with
  | none => simp
  | some Result.draw => simp
  | some (Result.side s) => by_cases h : s = p <;> simp [h]

theorem maxLoop_range (rec : Board → Cell → Bool → Int → Int → Int × Option Nat)
    (board : Board) (player : Cell) :
    ∀ (ms : List Nat) (best : Int) (bestMv : Option Nat) (alpha beta : Int),
      (∀ m ∈ ms, ∀ al be : Int,
        isScore ((rec (board.set m player) (if player = AI then HUMAN else AI) false al be).1)) →
      isScore best →
      isScore ((maxLoop rec board player ms best bestMv alpha beta).1) := by
  intro ms
  induction ms with
  | nil => intro best bestMv alpha beta _ hb; simpa [maxLoop] using hb
  | cons m rest ih =>
    intro best bestMv alpha beta hc hb
    have hev := hc m (List.mem_cons_self m rest) alpha beta
    rw [maxLoop_cons]
    by_cases hcut : beta ≤ max alpha (rec (board.set m player) (if player = AI then HUMAN else AI) false alpha beta).1
    · rw [if_pos hcut]
      by_cases hgt : (rec (board.set m player) (if player = AI then HUMAN else AI) false alpha beta).1 > best
      · rw [if_pos hgt]; exact hev
      · rw [if_neg hgt]; exact hb
    · rw [if_neg hcut]
      refine ih _ _ _ _ (fun m' hm' => hc m' (List.mem_cons_of_mem m hm')) ?_
      by_cases hgt : (rec (board.set m player) (if player = AI then HUMAN else AI) false alpha beta).1 > best
      · rw [if_pos hgt]; exact hev
      · rw [if_neg hgt]; exact hb

theorem minLoop_range (rec : Board → Cell → Bool → Int → Int → Int × Option Nat)
    (board : Board) (player : Cell) :
    ∀ (ms : List Nat) (best : Int) (bestMv : Option Nat) (alpha beta : Int),
      (∀ m ∈ ms, ∀ al be : Int,
        isScore ((rec (board.set m player) (if player = AI then HUMAN else AI) true al be).1)) →
      isScore best →
      isScore ((minLoop rec board player ms best bestMv alpha beta).1) := by
  intro ms
  induction ms with
  | nil => intro best bestMv alpha beta _ hb; simpa [minLoop] using hb
  | cons m rest ih =>
    intro best bestMv alpha beta hc hb
    have hev := hc m (List.mem_cons_self m rest) alpha beta
    rw [minLoop_cons]
    by_cases hcut : min beta (rec (board.set m player) (if player = AI then HUMAN else AI) true alpha beta).1 ≤ alpha
    · rw [if_pos hcut]
      by_cases hgt : (rec (board.set m player) (if player = AI then HUMAN else AI) true alpha beta).1 < best
      · rw [if_pos hgt]; exact hev
      · rw [if_neg hgt]; exact hb
    · rw [if_neg hcut]
      refine ih _ _ _ _ (fun m' hm' => hc m' (List.mem_cons_of_mem m hm')) ?_
      by_cases hgt : (rec (board.set m player) (if player = AI then HUMAN else AI) true alpha beta).1 < best
      · rw [if_pos hgt]; exact hev
      · rw [if_neg hgt]; exact hb

theorem maxLoop_move_mem (rec : Board → Cell → Bool → Int → Int → Int × Option Nat)
    (board : Board) (player : Cell) (S : List Nat) :
    ∀ (ms : List Nat) (best : Int) (bestMv : Option Nat) (alpha beta : Int),
      (∀ m ∈ ms, m ∈ S) →
      (∃ k ∈ S, bestMv = some k) →
      ∃ k ∈ S, (maxLoop rec board player ms best bestMv alpha beta).2 = some k := by
  intro ms
  induction ms with
  | nil => intro best bestMv alpha beta _ hk; simpa [maxLoop] using hk
  | cons m rest ih =>
    intro best bestMv alpha beta hms hk
    rw [maxLoop_cons]
    have hnext : ∃ k ∈ S,
        (if (rec (board.set m player) (if player = AI then HUMAN else AI) false alpha beta).1 > best
          then some m else bestMv) = some k := by
      by_cases hgt : (rec (board.set m player) (if player = AI then HUMAN else AI) false alpha beta).1 > best
      · exact ⟨m, hms m (List.mem_cons_self m rest), by rw [if_pos hgt]⟩
      · obtain ⟨k, hkS, hkeq⟩ := hk
        exact ⟨k, hkS, by rw [if_neg hgt]; exact hkeq⟩
    by_cases hcut : beta ≤ max alpha (rec (board.set m player) (if player = AI then HUMAN else AI) false alpha beta).1
    · rw [if_pos hcut]
      obtain ⟨k, hkS, hkeq⟩ := hnext
      exact ⟨k, hkS, hkeq⟩
    · rw [if_neg hcut]
      exact ih _ _ _ _ (fun m' hm' => hms m' (List.mem_cons_of_mem m hm')) hnext

theorem minLoop_move_mem (rec : Board → Cell → Bool → Int → Int → Int × Option Nat)
    (board : Board) (player : Cell) (S : List Nat) :
    ∀ (ms : List Nat) (best : Int) (bestMv : Option Nat) (alpha beta : Int),
      (∀ m ∈ ms, m ∈ S) →
      (∃ k ∈ S, bestMv = some k) →
      ∃ k ∈ S, (minLoop rec board player ms best bestMv alpha beta).2 = some k := by
  intro ms
  induction ms with
  | nil => intro best bestMv alpha beta _ hk; simpa [minLoop] using hk
  | cons m rest ih =>
    intro best bestMv alpha beta hms hk
    rw [minLoop_cons]
    have hnext : ∃ k ∈ S,
        (if (rec (board.set m player) (if player = AI then HUMAN else AI) true alpha beta).1 < best
          then some m else bestMv) = some k := by
      by_cases hgt : (rec (board.set m player) (if player = AI then HUMAN else AI) true alpha beta).1 < best
      · exact ⟨m, hms m (List.mem_cons_self m rest), by rw [if_pos hgt]⟩
      · obtain ⟨k, hkS, hkeq⟩ := hk
        exact ⟨k, hkS, by rw [if_neg hgt]; exact hkeq⟩
    by_cases hcut : min beta (rec (board.set m player) (if player = AI then HUMAN else AI) true alpha beta).1 ≤ alpha
    · rw [if_pos hcut]
      obtain ⟨k, hkS, hkeq⟩ := hnext
      exact ⟨k, hkS, hkeq⟩
    · rw [if_neg hcut]
      exact ih _ _ _ _ (fun m' hm' => hms m' (List.mem_cons_of_mem m hm')) hnext

theorem minimaxF_isScore : ∀ (fuel : Nat) (b : Board) (p : Cell) (mx : Bool)
    (alpha beta : Int), isScore ((minimaxF fuel b p mx alpha beta).1) := by
  intro fuel
  induction fuel with
  | zero => intro b p mx alpha beta; exact Or.inr (Or.inl rfl)
  | succ n ih =>
    intro b p mx alpha beta
    unfold minimaxF
    cases hw : winner b with
    | some w => exact isScore_score_for AI (some w)
    | none =>
      cases mx with
      | true =>
        simp only [if_true]
        cases hav : available_moves b with
        | nil =>
          exact absurd hav (available_moves_ne_nil (winner_none_contains hw))
        | cons m rest =>
          rw [maxLoop_cons]
          have hev := ih (b.set m p) (if p = AI then HUMAN else AI) false alpha beta
          have hgt : (minimaxF n (b.set m p) (if p = AI then HUMAN else AI) false alpha beta).1 > -999 := by
            rcases hev with h | h | h <;> rw [h] <;> decide
          rw [if_pos hgt]
          by_cases hcut : beta ≤ max alpha (minimaxF n (b.set m p) (if p = AI then HUMAN else AI) false alpha beta).1
          · rw [if_pos hcut]; exact hev
          · rw [if_neg hcut]
            exact maxLoop_range _ _ _ rest _ _ _ _
              (fun m' _ al be => ih (b.set m' p) _ false al be) hev
      | false =>
        simp only [Bool.false_eq_true, if_false]
        cases hav : available_moves b with
        | nil =>
          exact absurd hav (available_moves_ne_nil (winner_none_contains hw))
        | cons m rest =>
          rw [minLoop_cons]
          have hev := ih (b.set m p) (if p = AI then HUMAN else AI) true alpha beta
          have hlt : (minimaxF n (b.set m p) (if p = AI then HUMAN else AI) true alpha beta).1 < 999 := by
            rcases hev with h | h | h <;> rw [h] <;> decide
          rw [if_pos hlt]
          by_cases hcut : min beta (minimaxF n (b.set m p) (if p = AI then HUMAN else AI) true alpha beta).1 ≤ alpha
          · rw [if_pos hcut]; exact hev
          · rw [if_neg hcut]
            exact minLoop_range _ _ _ rest _ _ _ _
              (fun m' _ al be => ih (b.set m' p) _ true al be) hev

theorem minimaxF_move : ∀ (fuel : Nat) (b : Board) (p : Cell) (mx : Bool)
    (alpha beta : Int),
    (winner b = none →
      ∃ m ∈ available_moves b, (minimaxF (fuel+1) b p mx alpha beta).2 = some m) ∧
    (winner b ≠ none → (minimaxF (fuel+1) b p mx alpha beta).2 = none) := by
  intro fuel b p mx alpha beta
  constructor
  · intro hw
    unfold minimaxF
    rw [hw]
    cases hav : available_moves b with
    | nil => exact absurd hav (available_moves_ne_nil (winner_none_contains hw))
    | cons m rest =>
      cases mx with
      | true =>
        simp only [if_true]
        rw [maxLoop_cons]
        have hev := minimaxF_isScore fuel (b.set m p) (if p = AI then HUMAN else AI) false alpha beta
        have hgt : (minimaxF fuel (b.set m p) (if p = AI then HUMAN else AI) false alpha beta).1 > -999 := by
          rcases hev with h | h | h <;> rw [h] <;> decide
        simp only [if_pos hgt]
        by_cases hcut : beta ≤ max alpha (minimaxF fuel (b.set m p) (if p = AI then HUMAN else AI) false alpha beta).1
        · rw [if_pos hcut]
          exact ⟨m, List.mem_cons_self m rest, rfl⟩
        · rw [if_neg hcut]
          exact maxLoop_move_mem _ _ _ (m :: rest) rest _ _ _ _
            (fun m' hm' => List.mem_cons_of_mem m hm')
            ⟨m, List.mem_cons_self m rest, rfl⟩
      | false =>
        simp only [Bool.false_eq_true, if_false]
        rw [minLoop_cons]
        have hev := minimaxF_isScore fuel (b.set m p) (if p = AI then HUMAN else AI) true alpha beta
        have hlt : (minimaxF fuel (b.set m p) (if p = AI then HUMAN else AI) true alpha beta).1 < 999 := by
          rcases hev with h | h | h <;> rw [h] <;> decide
        simp only [if_pos hlt]
        by_cases hcut : min beta (minimaxF fuel (b.set m p) (if p = AI then HUMAN else AI) true alpha beta).1 ≤ alpha
        · rw [if_pos hcut]
          exact ⟨m, List.mem_cons_self m rest, rfl⟩
        · rw [if_neg hcut]
          exact minLoop_move_mem _ _ _ (m :: rest) rest _ _ _ _
            (fun m' hm' => List.mem_cons_of_mem m hm')
            ⟨m, List.mem_cons_self m rest, rfl⟩
  · intro hw
    unfold minimaxF
    cases hwv : winner b with
    | some w => rfl
    | none => exact absurd hwv hw

/-- C10: the score `minimax` returns is always one of -1, 0, +1 (the
sentinels -999/999 are never returned); at a non-terminal board the returned
move is an empty cell of the board, and at a terminal board it is `none`. -/
theorem C10_score_range_and_move :
    ∀ (b : Board) (p : Cell) (mx : Bool) (alpha beta : Int),
      ((minimax b p mx alpha beta).1 = -1 ∨ (minimax b p mx alpha beta).1 = 0 ∨
        (minimax b p mx alpha beta).1 = 1) ∧
      (winner b = none → ∃ m, (minimax b p mx alpha beta).2 = some m ∧
        m < b.length ∧ b.getD m EMPTY = EMPTY) ∧
      (winner b ≠ none → (minimax b p mx alpha beta).2 = none) := by
  intro b p mx alpha beta
  refine ⟨minimaxF_isScore _ b p mx alpha beta, ?_, ?_⟩
  · intro hw
    obtain ⟨m, hmem, hmv⟩ := (minimaxF_move (b.count EMPTY) b p mx alpha beta).1 hw
    obtain ⟨hlt, he⟩ := mem_available_moves.mp hmem
    exact ⟨m, hmv, hlt, he⟩
  · intro hw
    exact (minimaxF_move (b.count EMPTY) b p mx alpha beta).2 hw

/-- C10 witness: a non-terminal board yields a move, a terminal board none. -/
theorem C10_witness :
    (minimax [Cell.x, Cell.o, Cell.x, Cell.o, Cell.e, Cell.e, Cell.x, Cell.o, Cell.e]
      AI true (-999) 999).2 ≠ none ∧
    (minimax [Cell.x, Cell.x, Cell.x, Cell.o, Cell.o, Cell.e, Cell.e, Cell.e, Cell.e]
      AI true (-999) 999).2 = none := by
  constructor
  · obtain ⟨m, hmv, _, _⟩ := (C10_score_range_and_move
      [Cell.x, Cell.o, Cell.x, Cell.o, Cell.e, Cell.e, Cell.x, Cell.o, Cell.e]
      AI true (-999) 999).2.1 (by decide)
    rw [hmv]; simp
  · exact (C10_score_range_and_move
      [Cell.x, Cell.x, Cell.x, Cell.o, Cell.o, Cell.e, Cell.e, Cell.e, Cell.e]
      AI true (-999) 999).2.2 (by decide)

/-! ### More fold helpers, and loop accumulator bounds -/

theorem foldl_max_init_out : ∀ (l : List Int) (i x : Int),
    l.foldl max (max i x) = max (l.foldl max i) x := by
  intro l
  induction l with
  | nil => intro i x; simp
  | cons y t ih =>
    intro i x
    simp only [List.foldl_cons]
    rw [max_assoc, max_comm x y, ← max_assoc, ih]

theorem foldl_min_init_out : ∀ (l : List Int) (i x : Int),
    l.foldl min (min i x) = min (l.foldl min i) x := by
  intro l
  induction l with
  | nil => intro i x; simp
  | cons y t ih =>
    intro i x
    simp only [List.foldl_cons]
    rw [min_assoc, min_comm x y, ← min_assoc, ih]

theorem maxLoop_ge_acc (rec : Board → Cell → Bool → Int → Int → Int × Option Nat)
    (board : Board) (player : Cell) :
    ∀ (ms : List Nat) (best : Int) (bestMv : Option Nat) (alpha beta : Int),
      best ≤ (maxLoop rec board player ms best bestMv alpha beta).1 := by
  intro ms
  induction ms with
  | nil => intro best bestMv alpha beta; simp [maxLoop]
  | cons m rest ih =>
    intro best bestMv alpha beta
    rw [maxLoop_cons, ite_gt_eq_max]
    by_cases hcut : beta ≤ max alpha (rec (board.set m player) (if player = AI then HUMAN else AI) false alpha beta).1
    · rw [if_pos hcut]; exact le_max_left _ _
    · rw [if_neg hcut]
      exact le_trans (le_max_left _ _) (ih _ _ _ _)

theorem minLoop_le_acc (rec : Board → Cell → Bool → Int → Int → Int × Option Nat)
    (board : Board) (player : Cell) :
    ∀ (ms : List Nat) (best : Int) (bestMv : Option Nat) (alpha beta : Int),
      (minLoop rec board player ms best bestMv alpha beta).1 ≤ best := by
  intro ms
  induction ms with
  | nil => intro best bestMv alpha beta; simp [minLoop]
  | cons m rest ih =>
    intro best bestMv alpha beta
    rw [minLoop_cons, ite_lt_eq_min]
    by_cases hcut : min beta (rec (board.set m player) (if player = AI then HUMAN else AI) true alpha beta).1 ≤ alpha
    · rw [if_pos hcut]; exact min_le_left _ _
    · rw [if_neg hcut]
      exact le_trans (ih _ _ _ _) (min_le_left _ _)

/-! ### Fail-soft correctness of the pruned loops

For any window, the pruned value `v` relates to the unpruned value `v'` by:
if `v ≤ alpha` then `v' ≤ v`; if `beta ≤ v` then `v ≤ v'`; and if `v` lies
strictly inside the window then `v = v'`. -/

theorem maxLoop_failsoft
    (rec : Board → Cell → Bool → Int → Int → Int × Option Nat)
    (recP : Board → Cell → Bool → Int × Option Nat)
    (board : Board) (player : Cell) (beta : Int) :
    ∀ (ms : List Nat) (best : Int) (bestMv : Option Nat) (alpha : Int),
      (∀ m ∈ ms, ∀ al : Int, -999 ≤ al → al < beta →
        ((rec (board.set m player) (if player = AI then HUMAN else AI) false al beta).1 ≤ al →
          (recP (board.set m player) (if player = AI then HUMAN else AI) false).1 ≤
            (rec (board.set m player) (if player = AI then HUMAN else AI) false al beta).1) ∧
        (beta ≤ (rec (board.set m player) (if player = AI then HUMAN else AI) false al beta).1 →
          (rec (board.set m player) (if player = AI then HUMAN else AI) false al beta).1 ≤
            (recP (board.set m player) (if player = AI then HUMAN else AI) false).1) ∧
        (al < (rec (board.set m player) (if player = AI then HUMAN else AI) false al beta).1 →
          (rec (board.set m player) (if player = AI then HUMAN else AI) false al beta).1 < beta →
          (rec (board.set m player) (if player = AI then HUMAN else AI) false al beta).1 =
            (recP (board.set m player) (if player = AI then HUMAN else AI) false).1)) →
      -999 ≤ alpha → alpha < beta → best ≤ alpha →
      (((maxLoop rec board player ms best bestMv alpha beta).1 ≤ alpha →
        (ms.map (fun m =>
          (recP (board.set m player) (if player = AI then HUMAN else AI) false).1)).foldl max best ≤
          (maxLoop rec board player ms best bestMv alpha beta).1) ∧
       (beta ≤ (maxLoop rec board player ms best bestMv alpha beta).1 →
        (maxLoop rec board player ms best bestMv alpha beta).1 ≤
          (ms.map (fun m =>
            (recP (board.set m player) (if player = AI then HUMAN else AI) false).1)).foldl max best) ∧
       (alpha < (maxLoop rec board player ms best bestMv alpha beta).1 →
        (maxLoop rec board player ms best bestMv alpha beta).1 < beta →
        (maxLoop rec board player ms best bestMv alpha beta).1 =
          (ms.map (fun m =>
            (recP (board.set m player) (if player = AI then HUMAN else AI) false).1)).foldl max best)) := by
  intro ms
  induction ms with
  | nil =>
    intro best bestMv alpha _ _ _ _
    simp only [maxLoop, List.map_nil, List.foldl_nil]
    exact ⟨fun _ => le_refl _, fun _ => le_refl _, by simp⟩
  | cons m rest ih =>
    intro best bestMv alpha hrec ha hab hba
    obtain ⟨c1, c2, c3⟩ := hrec m (List.mem_cons_self m rest) alpha ha hab
    rw [maxLoop_cons, List.map_cons, List.foldl_cons]
    simp only [ite_gt_eq_max]
    by_cases hcut : beta ≤ max alpha (rec (board.set m player) (if player = AI then HUMAN else AI) false alpha beta).1
    · rw [if_pos hcut]
      have hbev : beta ≤ (rec (board.set m player) (if player = AI then HUMAN else AI) false alpha beta).1 := by
        rcases max_choice alpha (rec (board.set m player) (if player = AI then HUMAN else AI) false alpha beta).1 with hm | hm
        · rw [hm] at hcut; exact absurd hcut (not_le.mpr hab)
        · rw [hm] at hcut; exact hcut
      have hvev : max best (rec (board.set m player) (if player = AI then HUMAN else AI) false alpha beta).1 =
          (rec (board.set m player) (if player = AI then HUMAN else AI) false alpha beta).1 :=
        max_eq_right (le_trans hba (le_trans hab.le hbev))
      rw [hvev]
      refine ⟨?_, ?_, ?_⟩
      · intro h; exact absurd (lt_of_lt_of_le hab hbev) (not_lt.mpr h)
      · intro _
        refine le_trans (c2 hbev) ?_
        exact le_trans (le_max_right best _) (le_foldl_max _ _)
      · intro _ h2; exact absurd (lt_of_lt_of_le h2 hbev) (lt_irrefl _)
    · rw [if_neg hcut]
      push_neg at hcut
      have ha2 : -999 ≤ max alpha (rec (board.set m player) (if player = AI then HUMAN else AI) false alpha beta).1 :=
        le_trans ha (le_max_left _ _)
      have hba2 : max best (rec (board.set m player) (if player = AI then HUMAN else AI) false alpha beta).1 ≤
          max alpha (rec (board.set m player) (if player = AI then HUMAN else AI) false alpha beta).1 :=
        max_le_max hba (le_refl _)
      obtain ⟨i1, i2, i3⟩ := ih
        (max best (rec (board.set m player) (if player = AI then HUMAN else AI) false alpha beta).1)
        (if (rec (board.set m player) (if player = AI then HUMAN else AI) false alpha beta).1 > best
          then some m else bestMv)
        (max alpha (rec (board.set m player) (if player = AI then HUMAN else AI) false alpha beta).1)
        (fun m' hm' => hrec m' (List.mem_cons_of_mem m hm')) ha2 hcut hba2
      rcases le_or_lt (rec (board.set m player) (if player = AI then HUMAN else AI) false alpha beta).1 alpha with hB2 | hB1
      · -- the child fails low: its exact value can only be lower still
        have hEev := c1 hB2
        have halpha2 : max alpha (rec (board.set m player) (if player = AI then HUMAN else AI) false alpha beta).1 = alpha :=
          max_eq_left hB2
        rw [halpha2] at i1 i2 i3 ⊢
        rw [foldl_max_init_out] at i1 i2 i3
        rw [foldl_max_init_out]
        refine ⟨?_, ?_, ?_⟩
        · intro h
          exact le_trans (max_le_max (le_refl _) hEev) (i1 h)
        · intro h
          have hv2 := i2 h
          have hvQ : (maxLoop rec board player rest
              (max best (rec (board.set m player) (if player = AI then HUMAN else AI) false alpha beta).1)
              (if (rec (board.set m player) (if player = AI then HUMAN else AI) false alpha beta).1 > best
                then some m else bestMv) alpha beta).1 ≤
              ((rest.map (fun m' =>
                (recP (board.set m' player) (if player = AI then HUMAN else AI) false).1)).foldl max best) := by
            rcases max_choice ((rest.map (fun m' =>
                (recP (board.set m' player) (if player = AI then HUMAN else AI) false).1)).foldl max best)
                (rec (board.set m player) (if player = AI then HUMAN else AI) false alpha beta).1 with hm | hm
            · rw [hm] at hv2; exact hv2
            · rw [hm] at hv2
              exact absurd (lt_of_le_of_lt (le_trans hv2 hB2) hab) (not_lt.mpr h)
          exact le_trans hvQ (le_max_left _ _)
        · intro h1 h2
          have hv3 := i3 h1 h2
          have hQv : ((rest.map (fun m' =>
              (recP (board.set m' player) (if player = AI then HUMAN else AI) false).1)).foldl max best) =
              (maxLoop rec board player rest
                (max best (rec (board.set m player) (if player = AI then HUMAN else AI) false alpha beta).1)
                (if (rec (board.set m player) (if player = AI then HUMAN else AI) false alpha beta).1 > best
                  then some m else bestMv) alpha beta).1 := by
            rcases max_choice ((rest.map (fun m' =>
                (recP (board.set m' player) (if player = AI then HUMAN else AI) false).1)).foldl max best)
                (rec (board.set m player) (if player = AI then HUMAN else AI) false alpha beta).1 with hm | hm
            · rw [hm] at hv3; exact hv3.symm
            · rw [hm] at hv3
              exact absurd (h1.trans_le (hv3.le.trans hB2)) (lt_irrefl alpha)
          rw [← hQv]
          have hEQ : (recP (board.set m player) (if player = AI then HUMAN else AI) false).1 ≤
              ((rest.map (fun m' =>
                (recP (board.set m' player) (if player = AI then HUMAN else AI) false).1)).foldl max best) := by
            rw [hQv]
            exact le_trans hEev (le_trans hB2 h1.le)
          exact (max_eq_left hEQ).symm
      · -- the child improves on alpha: its value is exact
        have hevb : (rec (board.set m player) (if player = AI then HUMAN else AI) false alpha beta).1 < beta :=
          lt_of_le_of_lt (le_max_right alpha _) hcut
        have hEev := c3 hB1 hevb
        have halpha2 : max alpha (rec (board.set m player) (if player = AI then HUMAN else AI) false alpha beta).1 =
            (rec (board.set m player) (if player = AI then HUMAN else AI) false alpha beta).1 :=
          max_eq_right hB1.le
        have hbest2 : max best (rec (board.set m player) (if player = AI then HUMAN else AI) false alpha beta).1 =
            (rec (board.set m player) (if player = AI then HUMAN else AI) false alpha beta).1 :=
          max_eq_right (le_trans hba hB1.le)
        rw [← hEev]
        rw [halpha2, hbest2] at i1 i2 i3 ⊢
        have hacc := maxLoop_ge_acc rec board player rest
          ((rec (board.set m player) (if player = AI then HUMAN else AI) false alpha beta).1)
          (if (rec (board.set m player) (if player = AI then HUMAN else AI) false alpha beta).1 > best
            then some m else bestMv)
          ((rec (board.set m player) (if player = AI then HUMAN else AI) false alpha beta).1) beta
        refine ⟨?_, ?_, ?_⟩
        · intro h
          exact absurd (lt_of_lt_of_le hB1 (le_trans hacc h)) (lt_irrefl alpha)
        · intro h; exact i2 h
        · intro _ h2
          rcases eq_or_lt_of_le hacc with heq | hlt
          · have hf := le_foldl_max (rest.map (fun m' =>
              (recP (board.set m' player) (if player = AI then HUMAN else AI) false).1))
              ((rec (board.set m player) (if player = AI then HUMAN else AI) false alpha beta).1)
            exact le_antisymm (heq ▸ hf) (i1 heq.symm.le)
          · exact i3 hlt h2

theorem minLoop_failsoft
    (rec : Board → Cell → Bool → Int → Int → Int × Option Nat)
    (recP : Board → Cell → Bool → Int × Option Nat)
    (board : Board) (player : Cell) (alpha : Int) :
    ∀ (ms : List Nat) (best : Int) (bestMv : Option Nat) (beta : Int),
      (∀ m ∈ ms, ∀ be : Int, be ≤ 999 → alpha < be →
        ((rec (board.set m player) (if player = AI then HUMAN else AI) true alpha be).1 ≤ alpha →
          (recP (board.set m player) (if player = AI then HUMAN else AI) true).1 ≤
            (rec (board.set m player) (if player = AI then HUMAN else AI) true alpha be).1) ∧
        (be ≤ (rec (board.set m player) (if player = AI then HUMAN else AI) true alpha be).1 →
          (rec (board.set m player) (if player = AI then HUMAN else AI) true alpha be).1 ≤
            (recP (board.set m player) (if player = AI then HUMAN else AI) true).1) ∧
        (alpha < (rec (board.set m player) (if player = AI then HUMAN else AI) true alpha be).1 →
          (rec (board.set m player) (if player = AI then HUMAN else AI) true alpha be).1 < be →
          (rec (board.set m player) (if player = AI then HUMAN else AI) true alpha be).1 =
            (recP (board.set m player) (if player = AI then HUMAN else AI) true).1)) →
      beta ≤ 999 → alpha < beta → beta ≤ best →
      (((minLoop rec board player ms best bestMv alpha beta).1 ≤ alpha →
        (ms.map (fun m =>
          (recP (board.set m player) (if player = AI then HUMAN else AI) true).1)).foldl min best ≤
          (minLoop rec board player ms best bestMv alpha beta).1) ∧
       (beta ≤ (minLoop rec board player ms best bestMv alpha beta).1 →
        (minLoop rec board player ms best bestMv alpha beta).1 ≤
          (ms.map (fun m =>
            (recP (board.set m player) (if player = AI then HUMAN else AI) true).1)).foldl min best) ∧
       (alpha < (minLoop rec board player ms best bestMv alpha beta).1 →
        (minLoop rec board player ms best bestMv alpha beta).1 < beta →
        (minLoop rec board player ms best bestMv alpha beta).1 =
          (ms.map (fun m =>
            (recP (board.set m player) (if player = AI then HUMAN else AI) true).1)).foldl min best)) := by
  intro ms
  induction ms with
  | nil =>
    intro best bestMv beta _ _ _ _
    simp only [minLoop, List.map_nil, List.foldl_nil]
    exact ⟨fun _ => le_refl _, fun _ => le_refl _, by simp⟩
  | cons m rest ih =>
    intro best bestMv beta hrec hb hab hbb
    obtain ⟨c1, c2, c3⟩ := hrec m (List.mem_cons_self m rest) beta hb hab
    rw [minLoop_cons, List.map_cons, List.foldl_cons]
    simp only [ite_lt_eq_min]
    by_cases hcut : min beta (rec (board.set m player) (if player = AI then HUMAN else AI) true alpha beta).1 ≤ alpha
    · rw [if_pos hcut]
      have haev : (rec (board.set m player) (if player = AI then HUMAN else AI) true alpha beta).1 ≤ alpha := by
        rcases min_choice beta (rec (board.set m player) (if player = AI then HUMAN else AI) true alpha beta).1 with hm | hm
        · rw [hm] at hcut; exact absurd hcut (not_le.mpr hab)
        · rw [hm] at hcut; exact hcut
      have hvev : min best (rec (board.set m player) (if player = AI then HUMAN else AI) true alpha beta).1 =
          (rec (board.set m player) (if player = AI then HUMAN else AI) true alpha beta).1 :=
        min_eq_right (le_trans haev (le_trans hab.le hbb))
      rw [hvev]
      refine ⟨?_, ?_, ?_⟩
      · intro _
        refine le_trans ?_ (c1 haev)
        exact le_trans (foldl_min_le _ _) (min_le_right best _)
      · intro h; exact absurd (lt_of_le_of_lt (le_trans h haev) hab) (lt_irrefl beta)
      · intro h1 _; exact absurd (lt_of_lt_of_le h1 haev) (lt_irrefl alpha)
    · rw [if_neg hcut]
      push_neg at hcut
      have hb2 : min beta (rec (board.set m player) (if player = AI then HUMAN else AI) true alpha beta).1 ≤ 999 :=
        le_trans (min_le_left _ _) hb
      have hbb2 : min beta (rec (board.set m player) (if player = AI then HUMAN else AI) true alpha beta).1 ≤
          min best (rec (board.set m player) (if player = AI then HUMAN else AI) true alpha beta).1 :=
        min_le_min hbb (le_refl _)
      obtain ⟨i1, i2, i3⟩ := ih
        (min best (rec (board.set m player) (if player = AI then HUMAN else AI) true alpha beta).1)
        (if (rec (board.set m player) (if player = AI then HUMAN else AI) true alpha beta).1 < best
          then some m else bestMv)
        (min beta (rec (board.set m player) (if player = AI then HUMAN else AI) true alpha beta).1)
        (fun m' hm' => hrec m' (List.mem_cons_of_mem m hm')) hb2 hcut hbb2
      rcases le_or_lt beta (rec (board.set m player) (if player = AI then HUMAN else AI) true alpha beta).1 with hB2 | hB1
      · -- the child fails high: its exact value can only be higher still
        have hEev := c2 hB2
        have hbeta2 : min beta (rec (board.set m player) (if player = AI then HUMAN else AI) true alpha beta).1 = beta :=
          min_eq_left hB2
        rw [hbeta2] at i1 i2 i3 ⊢
        rw [foldl_min_init_out] at i1 i2 i3
        rw [foldl_min_init_out]
        refine ⟨?_, ?_, ?_⟩
        · intro h
          have hv1 := i1 h
          rcases min_choice ((rest.map (fun m' =>
              (recP (board.set m' player) (if player = AI then HUMAN else AI) true).1)).foldl min best)
              ((rec (board.set m player) (if player = AI then HUMAN else AI) true alpha beta).1) with hm | hm
          · rw [hm] at hv1
            exact le_trans (min_le_left _ _) hv1
          · rw [hm] at hv1
            have hba' : beta ≤ alpha := le_trans hB2 (le_trans hv1 h)
            exact absurd hab (not_lt.mpr hba')
        · intro h
          have hv2 := i2 h
          refine le_min (le_trans hv2 (min_le_left _ _)) ?_
          exact le_trans (le_trans hv2 (min_le_right _ _)) hEev
        · intro h1 h2
          have hv3 := i3 h1 h2
          have hQv : ((rest.map (fun m' =>
              (recP (board.set m' player) (if player = AI then HUMAN else AI) true).1)).foldl min best) =
              (minLoop rec board player rest
                (min best (rec (board.set m player) (if player = AI then HUMAN else AI) true alpha beta).1)
                (if (rec (board.set m player) (if player = AI then HUMAN else AI) true alpha beta).1 < best
                  then some m else bestMv) alpha beta).1 := by
            rcases min_choice ((rest.map (fun m' =>
                (recP (board.set m' player) (if player = AI then HUMAN else AI) true).1)).foldl min best)
                ((rec (board.set m player) (if player = AI then HUMAN else AI) true alpha beta).1) with hm | hm
            · rw [hm] at hv3; exact hv3.symm
            · rw [hm] at hv3
              exact absurd (h2.trans_le hB2) (not_lt.mpr hv3.ge)
          rw [← hQv]
          have hEQ : ((rest.map (fun m' =>
              (recP (board.set m' player) (if player = AI then HUMAN else AI) true).1)).foldl min best) ≤
              (recP (board.set m player) (if player = AI then HUMAN else AI) true).1 := by
            rw [hQv]
            exact le_trans (le_trans h2.le hB2) hEev
          exact (min_eq_left hEQ).symm
      · -- the child stays below beta: its value is exact unless it fails low
        have haev : alpha < (rec (board.set m player) (if player = AI then HUMAN else AI) true alpha beta).1 := by
          by_contra hle
          push_neg at hle
          exact absurd (le_trans (min_le_right beta _) hle) (not_le.mpr hcut)
        have hEev := c3 haev hB1
        have hbeta2 : min beta (rec (board.set m player) (if player = AI then HUMAN else AI) true alpha beta).1 =
            (rec (board.set m player) (if player = AI then HUMAN else AI) true alpha beta).1 :=
          min_eq_right hB1.le
        have hbest2 : min best (rec (board.set m player) (if player = AI then HUMAN else AI) true alpha beta).1 =
            (rec (board.set m player) (if player = AI then HUMAN else AI) true alpha beta).1 :=
          min_eq_right (le_trans hB1.le hbb)
        rw [← hEev]
        rw [hbeta2, hbest2] at i1 i2 i3 ⊢
        have hacc := minLoop_le_acc rec board player rest
          ((rec (board.set m player) (if player = AI then HUMAN else AI) true alpha beta).1)
          (if (rec (board.set m player) (if player = AI then HUMAN else AI) true alpha beta).1 < best
            then some m else bestMv)
          alpha ((rec (board.set m player) (if player = AI then HUMAN else AI) true alpha beta).1)
        refine ⟨?_, ?_, ?_⟩
        · intro h; exact i1 h
        · intro h
          exact absurd (lt_of_le_of_lt (le_trans h hacc) hB1) (lt_irrefl beta)
        · intro h1 _
          rcases eq_or_lt_of_le hacc with heq | hlt
          · have hf := foldl_min_le (rest.map (fun m' =>
              (recP (board.set m' player) (if player = AI then HUMAN else AI) true).1))
              ((rec (board.set m player) (if player = AI then HUMAN else AI) true alpha beta).1)
            exact le_antisymm (i2 heq.symm.le) (le_trans hf heq.ge)
          · exact i3 h1 hlt


theorem plainMaxLoop_cons (rec : Board → Cell → Bool → Int × Option Nat)
    (board : Board) (player : Cell) (m : Nat) (rest : List Nat)
    (best : Int) (bestMv : Option Nat) :
    plainMaxLoop rec board player (m :: rest) best bestMv =
      if (rec (board.set m player) (if player = AI then HUMAN else AI) false).1 > best then
        plainMaxLoop rec board player rest
          (rec (board.set m player) (if player = AI then HUMAN else AI) false).1 (some m)
      else plainMaxLoop rec board player rest best bestMv := rfl

theorem plainMinLoop_cons (rec : Board → Cell → Bool → Int × Option Nat)
    (board : Board) (player : Cell) (m : Nat) (rest : List Nat)
    (best : Int) (bestMv : Option Nat) :
    plainMinLoop rec board player (m :: rest) best bestMv =
      if (rec (board.set m player) (if player = AI then HUMAN else AI) true).1 < best then
        plainMinLoop rec board player rest
          (rec (board.set m player) (if player = AI then HUMAN else AI) true).1 (some m)
      else plainMinLoop rec board player rest best bestMv := rfl

/-! ### Node-level fail-soft correctness, and exact equality at the root -/

theorem minimaxF_failsoft : ∀ (fuel : Nat) (b : Board) (p : Cell) (mx : Bool)
    (alpha beta : Int), -999 ≤ alpha → beta ≤ 999 → alpha < beta →
    (((minimaxF fuel b p mx alpha beta).1 ≤ alpha →
       (plainF fuel b p mx).1 ≤ (minimaxF fuel b p mx alpha beta).1) ∧
     (beta ≤ (minimaxF fuel b p mx alpha beta).1 →
       (minimaxF fuel b p mx alpha beta).1 ≤ (plainF fuel b p mx).1) ∧
     (alpha < (minimaxF fuel b p mx alpha beta).1 →
       (minimaxF fuel b p mx alpha beta).1 < beta →
       (minimaxF fuel b p mx alpha beta).1 = (plainF fuel b p mx).1)) := by
  intro fuel
  induction fuel with
  | zero =>
    intro b p mx alpha beta _ _ _
    exact ⟨fun _ => le_refl _, fun _ => le_refl _, fun _ _ => rfl⟩
  | succ n ih =>
    intro b p mx alpha beta ha hb hab
    unfold minimaxF plainF
    cases hw : winner b with
    | some w => exact ⟨fun _ => le_refl _, fun _ => le_refl _, fun _ _ => rfl⟩
    | none =>
      cases mx with
      | true =>
        simp only [if_true]
        have hres := maxLoop_failsoft (minimaxF n) (plainF n) b p beta
          (available_moves b) (-999) none alpha
          (fun m _ al hal halb =>
            ih (b.set m p) (if p = AI then HUMAN else AI) false al beta hal hb halb)
          ha hab ha
        rw [plainMaxLoop_fst]
        exact hres
      | false =>
        simp only [Bool.false_eq_true, if_false]
        have hres := minLoop_failsoft (minimaxF n) (plainF n) b p alpha
          (available_moves b) 999 none beta
          (fun m _ be hbe habe =>
            ih (b.set m p) (if p = AI then HUMAN else AI) true alpha be ha hbe habe)
          hb hab hb
        rw [plainMinLoop_fst]
        exact hres

theorem maxLoop_root_eq (fuel : Nat) (board : Board) (player : Cell) :
    ∀ (ms : List Nat) (best : Int) (bestMv : Option Nat),
      -999 ≤ best → best < 999 →
      maxLoop (minimaxF fuel) board player ms best bestMv best 999 =
        plainMaxLoop (plainF fuel) board player ms best bestMv := by
  intro ms
  induction ms with
  | nil => intro best bestMv _ _; rfl
  | cons m rest ih =>
    intro best bestMv hlo hhi
    rw [maxLoop_cons, plainMaxLoop_cons]
    have hsc := minimaxF_isScore fuel (board.set m player)
      (if player = AI then HUMAN else AI) false best 999
    have hev1 : (minimaxF fuel (board.set m player) (if player = AI then HUMAN else AI) false best 999).1 ≤ 1 := by
      rcases hsc with h | h | h <;> rw [h] <;> decide
    have hevm1 : (-1 : Int) ≤ (minimaxF fuel (board.set m player) (if player = AI then HUMAN else AI) false best 999).1 := by
      rcases hsc with h | h | h <;> rw [h] <;> decide
    have hcut : ¬ ((999 : Int) ≤ max best (minimaxF fuel (board.set m player) (if player = AI then HUMAN else AI) false best 999).1) := by
      push_neg
      exact max_lt hhi (lt_of_le_of_lt hev1 (by decide))
    rw [if_neg hcut]
    obtain ⟨f1, f2, f3⟩ := minimaxF_failsoft fuel (board.set m player)
      (if player = AI then HUMAN else AI) false best 999 hlo (le_refl 999) hhi
    by_cases hgt : (minimaxF fuel (board.set m player) (if player = AI then HUMAN else AI) false best 999).1 > best
    · have hE := f3 hgt (lt_of_le_of_lt hev1 (by decide))
      rw [← hE]
      simp only [if_pos hgt]
      rw [max_eq_right (le_of_lt hgt)]
      exact ih _ _ (le_trans (by decide) hevm1) (lt_of_le_of_lt hev1 (by decide))
    · have hEb : (plainF fuel (board.set m player) (if player = AI then HUMAN else AI) false).1 ≤ best :=
        le_trans (f1 (not_lt.mp hgt)) (not_lt.mp hgt)
      simp only [if_neg hgt, if_neg (not_lt.mpr hEb)]
      rw [max_eq_left (not_lt.mp hgt)]
      exact ih best bestMv hlo hhi

theorem minLoop_root_eq (fuel : Nat) (board : Board) (player : Cell) :
    ∀ (ms : List Nat) (best : Int) (bestMv : Option Nat),
      -999 < best → best ≤ 999 →
      minLoop (minimaxF fuel) board player ms best bestMv (-999) best =
        plainMinLoop (plainF fuel) board player ms best bestMv := by
  intro ms
  induction ms with
  | nil => intro best bestMv _ _; rfl
  | cons m rest ih =>
    intro best bestMv hlo hhi
    rw [minLoop_cons, plainMinLoop_cons]
    have hsc := minimaxF_isScore fuel (board.set m player)
      (if player = AI then HUMAN else AI) true (-999) best
    have hev1 : (minimaxF fuel (board.set m player) (if player = AI then HUMAN else AI) true (-999) best).1 ≤ 1 := by
      rcases hsc with h | h | h <;> rw [h] <;> decide
    have hevm1 : (-1 : Int) ≤ (minimaxF fuel (board.set m player) (if player = AI then HUMAN else AI) true (-999) best).1 := by
      rcases hsc with h | h | h <;> rw [h] <;> decide
    have hcut : ¬ (min best (minimaxF fuel (board.set m player) (if player = AI then HUMAN else AI) true (-999) best).1 ≤ -999) := by
      push_neg
      exact lt_min hlo (lt_of_lt_of_le (by decide) hevm1)
    rw [if_neg hcut]
    obtain ⟨f1, f2, f3⟩ := minimaxF_failsoft fuel (board.set m player)
      (if player = AI then HUMAN else AI) true (-999) best (le_refl (-999)) hhi hlo
    by_cases hlt : (minimaxF fuel (board.set m player) (if player = AI then HUMAN else AI) true (-999) best).1 < best
    · have hE := f3 (lt_of_lt_of_le (by decide) hevm1) hlt
      rw [← hE]
      simp only [if_pos hlt]
      rw [min_eq_right (le_of_lt hlt)]
      exact ih _ _ (lt_of_lt_of_le (by decide) hevm1) (le_trans hev1 (by decide))
    · have hEb : best ≤ (plainF fuel (board.set m player) (if player = AI then HUMAN else AI) true).1 :=
        le_trans (not_lt.mp hlt) (f2 (not_lt.mp hlt))
      simp only [if_neg hlt, if_neg (not_lt.mpr hEb)]
      rw [min_eq_left (not_lt.mp hlt)]
      exact ih best bestMv hlo hhi

theorem pruned_eq_plain :
    ∀ (b : Board) (p : Cell) (mx : Bool),
      minimax b p mx (-999) 999 = minimaxPlain b p mx := by
  intro b p mx
  unfold minimax minimaxPlain minimaxF plainF
  cases hw : winner b with
  | some w => rfl
  | none =>
    cases mx with
    | true =>
      simp only [if_true]
      exact maxLoop_root_eq (b.count EMPTY) b p (available_moves b) (-999) none
        (le_refl _) (by decide)
    | false =>
      simp only [Bool.false_eq_true, if_false]
      exact minLoop_root_eq (b.count EMPTY) b p (available_moves b) 999 none
        (by decide) (le_refl _)

/-- C1: the `(Score, Move)` pair returned by the search under the full
window `alpha = -999`, `beta = 999` coincides with the unpruned exhaustive
minimax — the alpha-beta cutoffs change neither the value nor the reported
move. -/
theorem C1_pruning_equivalence :
    ∀ (b : Board) (p : Cell) (mx : Bool),
      minimax b p mx (-999) 999 = minimaxPlain b p mx :=
  fun b p mx => pruned_eq_plain b p mx


/-! ### The first move attaining the best value is the one kept -/

theorem maxTraceLoop_cons (rec : Board → Cell → Bool → Int → Int → Int × Option Nat)
    (board : Board) (player : Cell) (m : Nat) (rest : List Nat) (alpha beta : Int) :
    maxTraceLoop rec board player (m :: rest) alpha beta =
      (m, (rec (board.set m player) (if player = AI then HUMAN else AI) false alpha beta).1) ::
        (if beta ≤ max alpha (rec (board.set m player) (if player = AI then HUMAN else AI) false alpha beta).1
          then []
          else maxTraceLoop rec board player rest
            (max alpha (rec (board.set m player) (if player = AI then HUMAN else AI) false alpha beta).1) beta) := rfl

theorem minTraceLoop_cons (rec : Board → Cell → Bool → Int → Int → Int × Option Nat)
    (board : Board) (player : Cell) (m : Nat) (rest : List Nat) (alpha beta : Int) :
    minTraceLoop rec board player (m :: rest) alpha beta =
      (m, (rec (board.set m player) (if player = AI then HUMAN else AI) true alpha beta).1) ::
        (if min beta (rec (board.set m player) (if player = AI then HUMAN else AI) true alpha beta).1 ≤ alpha
          then []
          else minTraceLoop rec board player rest alpha
            (min beta (rec (board.set m player) (if player = AI then HUMAN else AI) true alpha beta).1)) := rfl

theorem foldl_max_eq_init {l : List Int} {i : Int} (h : ∀ e ∈ l, e ≤ i) :
    l.foldl max i = i :=
  le_antisymm (foldl_max_le l i (le_refl i) h) (le_foldl_max l i)

theorem foldl_min_eq_init {l : List Int} {i : Int} (h : ∀ e ∈ l, i ≤ e) :
    l.foldl min i = i :=
  le_antisymm (foldl_min_le l i) (le_foldl_min l i (le_refl i) h)

theorem find?_snd_cons_pos {m : Nat} {e v : Int} {l : List (Nat × Int)} (h : e = v) :
    ((m, e) :: l).find? (fun z => z.2 == v) = some (m, e) :=
  List.find?_cons_of_pos _ (by simp [h])

theorem find?_snd_cons_neg {m : Nat} {e v : Int} {l : List (Nat × Int)} (h : e ≠ v) :
    ((m, e) :: l).find? (fun z => z.2 == v) = l.find? (fun z => z.2 == v) :=
  List.find?_cons_of_neg _ (by simp [h])

theorem maxLoop_trace_spec (rec : Board → Cell → Bool → Int → Int → Int × Option Nat)
    (board : Board) (player : Cell) :
    ∀ (ms : List Nat) (best : Int) (bestMv : Option Nat) (alpha beta : Int),
      (maxLoop rec board player ms best bestMv alpha beta).1 =
        ((maxTraceLoop rec board player ms alpha beta).map Prod.snd).foldl max best ∧
      (((maxLoop rec board player ms best bestMv alpha beta).2 = bestMv ∧
         ∀ e ∈ (maxTraceLoop rec board player ms alpha beta).map Prod.snd, e ≤ best) ∨
       (best < (maxLoop rec board player ms best bestMv alpha beta).1 ∧
        ∃ q : Nat × Int,
          (maxTraceLoop rec board player ms alpha beta).find?
            (fun z => z.2 == (maxLoop rec board player ms best bestMv alpha beta).1) = some q ∧
          (maxLoop rec board player ms best bestMv alpha beta).2 = some q.1 ∧
          q.2 = (maxLoop rec board player ms best bestMv alpha beta).1)) := by
  intro ms
  induction ms with
  | nil =>
    intro best bestMv alpha beta
    refine ⟨rfl, Or.inl ⟨by trivial, ?_⟩⟩
    intro e he
    simp [maxTraceLoop] at he
  | cons m rest ih =>
    intro best bestMv alpha beta
    rw [maxLoop_cons, maxTraceLoop_cons]
    by_cases hcut : beta ≤ max alpha (rec (board.set m player) (if player = AI then HUMAN else AI) false alpha beta).1
    · simp only [if_pos hcut]
      by_cases hgt : (rec (board.set m player) (if player = AI then HUMAN else AI) false alpha beta).1 > best
      · simp only [if_pos hgt]
        refine ⟨?_, Or.inr ⟨hgt, ⟨m, (rec (board.set m player) (if player = AI then HUMAN else AI) false alpha beta).1⟩, ?_, by trivial, by trivial⟩⟩
        · rw [List.map_cons, List.map_nil, List.foldl_cons, List.foldl_nil]
          exact (max_eq_right (le_of_lt hgt)).symm
        · exact find?_snd_cons_pos rfl
      · simp only [if_neg hgt]
        refine ⟨?_, Or.inl ⟨by trivial, ?_⟩⟩
        · rw [List.map_cons, List.map_nil, List.foldl_cons, List.foldl_nil]
          exact (max_eq_left (not_lt.mp hgt)).symm
        · intro e he
          rw [List.map_cons, List.map_nil] at he
          rcases List.mem_cons.mp he with h | h
          · subst h; exact not_lt.mp hgt
          · exact absurd h (List.not_mem_nil e)
    · simp only [if_neg hcut]
      obtain ⟨ihv, ihm⟩ := ih
        (if (rec (board.set m player) (if player = AI then HUMAN else AI) false alpha beta).1 > best
          then (rec (board.set m player) (if player = AI then HUMAN else AI) false alpha beta).1 else best)
        (if (rec (board.set m player) (if player = AI then HUMAN else AI) false alpha beta).1 > best
          then some m else bestMv)
        (max alpha (rec (board.set m player) (if player = AI then HUMAN else AI) false alpha beta).1) beta
      refine ⟨?_, ?_⟩
      · rw [ihv, List.map_cons, List.foldl_cons, ite_gt_eq_max]
      · rcases ihm with ⟨hmv, hall⟩ | ⟨hlt, q, hfind, hmv, hq2⟩
        · have hval : (maxLoop rec board player rest
              (if (rec (board.set m player) (if player = AI then HUMAN else AI) false alpha beta).1 > best
                then (rec (board.set m player) (if player = AI then HUMAN else AI) false alpha beta).1 else best)
              (if (rec (board.set m player) (if player = AI then HUMAN else AI) false alpha beta).1 > best
                then some m else bestMv)
              (max alpha (rec (board.set m player) (if player = AI then HUMAN else AI) false alpha beta).1) beta).1 =
              (if (rec (board.set m player) (if player = AI then HUMAN else AI) false alpha beta).1 > best
                then (rec (board.set m player) (if player = AI then HUMAN else AI) false alpha beta).1 else best) := by
            rw [ihv]
            exact foldl_max_eq_init hall
          by_cases hgt : (rec (board.set m player) (if player = AI then HUMAN else AI) false alpha beta).1 > best
          · refine Or.inr ⟨?_, ⟨m, (rec (board.set m player) (if player = AI then HUMAN else AI) false alpha beta).1⟩, ?_, ?_, ?_⟩
            · rw [hval, if_pos hgt]; exact hgt
            · rw [hval]
              exact find?_snd_cons_pos (by rw [if_pos hgt])
            · rw [hmv, if_pos hgt]
            · rw [hval, if_pos hgt]
          · refine Or.inl ⟨?_, ?_⟩
            · rw [hmv, if_neg hgt]
            · intro e he
              rw [List.map_cons] at he
              rcases List.mem_cons.mp he with h | h
              · subst h; exact not_lt.mp hgt
              · have := hall e h
                rw [if_neg hgt] at this
                exact this
        · have hbb : best ≤ (if (rec (board.set m player) (if player = AI then HUMAN else AI) false alpha beta).1 > best
              then (rec (board.set m player) (if player = AI then HUMAN else AI) false alpha beta).1 else best) := by
            by_cases hgt : (rec (board.set m player) (if player = AI then HUMAN else AI) false alpha beta).1 > best
            · rw [if_pos hgt]; exact hgt.le
            · rw [if_neg hgt]
          have hev_le : (rec (board.set m player) (if player = AI then HUMAN else AI) false alpha beta).1 ≤
              (if (rec (board.set m player) (if player = AI then HUMAN else AI) false alpha beta).1 > best
                then (rec (board.set m player) (if player = AI then HUMAN else AI) false alpha beta).1 else best) := by
            by_cases hgt : (rec (board.set m player) (if player = AI then HUMAN else AI) false alpha beta).1 > best
            · rw [if_pos hgt]
            · rw [if_neg hgt]; exact not_lt.mp hgt
          refine Or.inr ⟨lt_of_le_of_lt hbb hlt, q, ?_, hmv, hq2⟩
          rw [find?_snd_cons_neg (ne_of_lt (lt_of_le_of_lt hev_le hlt))]
          exact hfind

theorem minLoop_trace_spec (rec : Board → Cell → Bool → Int → Int → Int × Option Nat)
    (board : Board) (player : Cell) :
    ∀ (ms : List Nat) (best : Int) (bestMv : Option Nat) (alpha beta : Int),
      (minLoop rec board player ms best bestMv alpha beta).1 =
        ((minTraceLoop rec board player ms alpha beta).map Prod.snd).foldl min best ∧
      (((minLoop rec board player ms best bestMv alpha beta).2 = bestMv ∧
         ∀ e ∈ (minTraceLoop rec board player ms alpha beta).map Prod.snd, best ≤ e) ∨
       ((minLoop rec board player ms best bestMv alpha beta).1 < best ∧
        ∃ q : Nat × Int,
          (minTraceLoop rec board player ms alpha beta).find?
            (fun z => z.2 == (minLoop rec board player ms best bestMv alpha beta).1) = some q ∧
          (minLoop rec board player ms best bestMv alpha beta).2 = some q.1 ∧
          q.2 = (minLoop rec board player ms best bestMv alpha beta).1)) := by
  intro ms
  induction ms with
  | nil =>
    intro best bestMv alpha beta
    refine ⟨rfl, Or.inl ⟨by trivial, ?_⟩⟩
    intro e he
    simp [minTraceLoop] at he
  | cons m rest ih =>
    intro best bestMv alpha beta
    rw [minLoop_cons, minTraceLoop_cons]
    by_cases hcut : min beta (rec (board.set m player) (if player = AI then HUMAN else AI) true alpha beta).1 ≤ alpha
    · simp only [if_pos hcut]
      by_cases hgt : (rec (board.set m player) (if player = AI then HUMAN else AI) true alpha beta).1 < best
      · simp only [if_pos hgt]
        refine ⟨?_, Or.inr ⟨hgt, ⟨m, (rec (board.set m player) (if player = AI then HUMAN else AI) true alpha beta).1⟩, ?_, by trivial, by trivial⟩⟩
        · rw [List.map_cons, List.map_nil, List.foldl_cons, List.foldl_nil]
          exact (min_eq_right (le_of_lt hgt)).symm
        · exact find?_snd_cons_pos rfl
      · simp only [if_neg hgt]
        refine ⟨?_, Or.inl ⟨by trivial, ?_⟩⟩
        · rw [List.map_cons, List.map_nil, List.foldl_cons, List.foldl_nil]
          exact (min_eq_left (not_lt.mp hgt)).symm
        · intro e he
          rw [List.map_cons, List.map_nil] at he
          rcases List.mem_cons.mp he with h | h
          · subst h; exact not_lt.mp hgt
          · exact absurd h (List.not_mem_nil e)
    · simp only [if_neg hcut]
      obtain ⟨ihv, ihm⟩ := ih
        (if (rec (board.set m player) (if player = AI then HUMAN else AI) true alpha beta).1 < best
          then (rec (board.set m player) (if player = AI then HUMAN else AI) true alpha beta).1 else best)
        (if (rec (board.set m player) (if player = AI then HUMAN else AI) true alpha beta).1 < best
          then some m else bestMv)
        alpha (min beta (rec (board.set m player) (if player = AI then HUMAN else AI) true alpha beta).1)
      refine ⟨?_, ?_⟩
      · rw [ihv, List.map_cons, List.foldl_cons, ite_lt_eq_min]
      · rcases ihm with ⟨hmv, hall⟩ | ⟨hlt, q, hfind, hmv, hq2⟩
        · have hval : (minLoop rec board player rest
              (if (rec (board.set m player) (if player = AI then HUMAN else AI) true alpha beta).1 < best
                then (rec (board.set m player) (if player = AI then HUMAN else AI) true alpha beta).1 else best)
              (if (rec (board.set m player) (if player = AI then HUMAN else AI) true alpha beta).1 < best
                then some m else bestMv)
              alpha (min beta (rec (board.set m player) (if player = AI then HUMAN else AI) true alpha beta).1)).1 =
              (if (rec (board.set m player) (if player = AI then HUMAN else AI) true alpha beta).1 < best
                then (rec (board.set m player) (if player = AI then HUMAN else AI) true alpha beta).1 else best) := by
            rw [ihv]
            exact foldl_min_eq_init hall
          by_cases hgt : (rec (board.set m player) (if player = AI then HUMAN else AI) true alpha beta).1 < best
          · refine Or.inr ⟨?_, ⟨m, (rec (board.set m player) (if player = AI then HUMAN else AI) true alpha beta).1⟩, ?_, ?_, ?_⟩
            · rw [hval, if_pos hgt]; exact hgt
            · rw [hval]
              exact find?_snd_cons_pos (by rw [if_pos hgt])
            · rw [hmv, if_pos hgt]
            · rw [hval, if_pos hgt]
          · refine Or.inl ⟨?_, ?_⟩
            · rw [hmv, if_neg hgt]
            · intro e he
              rw [List.map_cons] at he
              rcases List.mem_cons.mp he with h | h
              · subst h; exact not_lt.mp hgt
              · have := hall e h
                rw [if_neg hgt] at this
                exact this
        · have hbb : (if (rec (board.set m player) (if player = AI then HUMAN else AI) true alpha beta).1 < best
              then (rec (board.set m player) (if player = AI then HUMAN else AI) true alpha beta).1 else best) ≤ best := by
            by_cases hgt : (rec (board.set m player) (if player = AI then HUMAN else AI) true alpha beta).1 < best
            · rw [if_pos hgt]; exact hgt.le
            · rw [if_neg hgt]
          have hev_le : (if (rec (board.set m player) (if player = AI then HUMAN else AI) true alpha beta).1 < best
                then (rec (board.set m player) (if player = AI then HUMAN else AI) true alpha beta).1 else best) ≤
              (rec (board.set m player) (if player = AI then HUMAN else AI) true alpha beta).1 := by
            by_cases hgt : (rec (board.set m player) (if player = AI then HUMAN else AI) true alpha beta).1 < best
            · rw [if_pos hgt]
            · rw [if_neg hgt]; exact not_lt.mp hgt
          refine Or.inr ⟨lt_of_lt_of_le hlt hbb, q, ?_, hmv, hq2⟩
          rw [find?_snd_cons_neg (Ne.symm (ne_of_lt (lt_of_lt_of_le hlt hev_le)))]
          exact hfind

theorem max?_spec : ∀ (l : List Int) (a : Int), l.max? = some a →
    a ∈ l ∧ ∀ x ∈ l, x ≤ a := by
  intro l a h
  cases l with
  | nil => exact absurd h (by simp)
  | cons x t =>
    have hx : List.foldl max x t = a := by
      have : (x :: t).max? = some (List.foldl max x t) := rfl
      rw [this] at h
      exact Option.some.inj h
    constructor
    · rcases foldl_max_mem t x with hm | hm
      · rw [← hx, hm]; exact List.mem_cons_self x t
      · rw [← hx]; exact List.mem_cons_of_mem x hm
    · intro y hy
      rcases List.mem_cons.mp hy with h1 | h1
      · subst h1; rw [← hx]; exact le_foldl_max t y
      · rw [← hx]; exact mem_le_foldl_max t y h1 x

theorem getD_lt_indexOf_ne : ∀ (l : List Int) (a : Int) (j : Nat),
    j < l.indexOf a → l.getD j 0 ≠ a := by
  intro l
  induction l with
  | nil => intro a j hj; simp [List.indexOf] at hj
  | cons x t ih =>
    intro a j hj
    by_cases hx : x = a
    · rw [List.indexOf_cons_eq t hx] at hj
      exact absurd hj (by omega)
    · rw [List.indexOf_cons_ne t hx] at hj
      cases j with
      | zero => simpa using hx
      | succ k => simpa using ih a k (by omega)

theorem getD_eq_getElem' {α : Type} (l : List α) (d : α) {m : Nat}
    (h : m < l.length) : l.getD m d = l[m] := by
  simp [List.getD_eq_getElem?_getD, List.getElem?_eq_getElem h]

/-- C5: ties are broken by first occurrence.  In the maximizing branch of the
search the returned value is the fold of the scanned evaluations and the
returned move is the first scanned pair attaining that value (strict `>`
updates keep the earlier move); symmetrically when minimizing; and `ai_move`
reports the first candidate, in candidate order, whose recorded score equals
the maximum recorded score. -/
theorem C5_first_occurrence_tie_break :
    ∀ (b : Board) (p : Cell) (alpha beta : Int), winner b = none →
      ((minimax b p true alpha beta).1 =
          ((maxTrace b p alpha beta).map Prod.snd).foldl max (-999) ∧
        ∃ q : Nat × Int,
          (maxTrace b p alpha beta).find?
            (fun z => z.2 == (minimax b p true alpha beta).1) = some q ∧
          (minimax b p true alpha beta).2 = some q.1 ∧
          q.2 = (minimax b p true alpha beta).1) ∧
      ((minimax b p false alpha beta).1 =
          ((minTrace b p alpha beta).map Prod.snd).foldl min 999 ∧
        ∃ q : Nat × Int,
          (minTrace b p alpha beta).find?
            (fun z => z.2 == (minimax b p false alpha beta).1) = some q ∧
          (minimax b p false alpha beta).2 = some q.1 ∧
          q.2 = (minimax b p false alpha beta).1) ∧
      (∃ best : Int, (aiOutcomes b).max? = some best ∧
        ai_move b = some ((available_moves b).getD ((aiOutcomes b).indexOf best) 0, aiProb b) ∧
        (aiOutcomes b).indexOf best < (aiOutcomes b).length ∧
        (aiOutcomes b).getD ((aiOutcomes b).indexOf best) 0 = best ∧
        (∀ x ∈ aiOutcomes b, x ≤ best) ∧
        (∀ j, j < (aiOutcomes b).indexOf best → (aiOutcomes b).getD j 0 ≠ best)) := by
  intro b p alpha beta hw
  have hav : available_moves b ≠ [] :=
    available_moves_ne_nil (winner_none_contains hw)
  refine ⟨?_, ?_, ?_⟩
  · unfold minimax minimaxF maxTrace
    rw [hw]
    simp only [if_true]
    obtain ⟨hv, hm⟩ := maxLoop_trace_spec (minimaxF (b.count EMPTY)) b p
      (available_moves b) (-999) none alpha beta
    refine ⟨hv, ?_⟩
    rcases hm with ⟨_, hall⟩ | ⟨_, q, hq⟩
    · exfalso
      cases hav2 : available_moves b with
      | nil => exact hav hav2
      | cons m rest =>
        rw [hav2, maxTraceLoop_cons] at hall
        have hsc := minimaxF_isScore (b.count EMPTY) (b.set m p)
          (if p = AI then HUMAN else AI) false alpha beta
        have := hall (minimaxF (b.count EMPTY) (b.set m p)
          (if p = AI then HUMAN else AI) false alpha beta).1 (by simp)
        rcases hsc with h | h | h <;> rw [h] at this <;> exact absurd this (by decide)
    · exact ⟨q, hq⟩
  · unfold minimax minimaxF minTrace
    rw [hw]
    simp only [Bool.false_eq_true, if_false]
    obtain ⟨hv, hm⟩ := minLoop_trace_spec (minimaxF (b.count EMPTY)) b p
      (available_moves b) 999 none alpha beta
    refine ⟨hv, ?_⟩
    rcases hm with ⟨_, hall⟩ | ⟨_, q, hq⟩
    · exfalso
      cases hav2 : available_moves b with
      | nil => exact hav hav2
      | cons m rest =>
        rw [hav2, minTraceLoop_cons] at hall
        have hsc := minimaxF_isScore (b.count EMPTY) (b.set m p)
          (if p = AI then HUMAN else AI) true alpha beta
        have := hall (minimaxF (b.count EMPTY) (b.set m p)
          (if p = AI then HUMAN else AI) true alpha beta).1 (by simp)
        rcases hsc with h | h | h <;> rw [h] at this <;> exact absurd this (by decide)
    · exact ⟨q, hq⟩
  · have hlen : (aiOutcomes b).length ≠ 0 := by
      unfold aiOutcomes
      simpa using hav
    cases hmx : (aiOutcomes b).max? with
    | none =>
      exfalso
      exact hlen (by rw [List.max?_eq_none_iff.mp hmx]; rfl)
    | some best =>
      obtain ⟨hmem, hle⟩ := max?_spec (aiOutcomes b) best hmx
      have hidx : (aiOutcomes b).indexOf best < (aiOutcomes b).length :=
        List.indexOf_lt_length.mpr hmem
      refine ⟨best, rfl, ?_, hidx, ?_, hle, ?_⟩
      · unfold ai_move
        rw [hmx]
      · rw [getD_eq_getElem' _ _ hidx]
        exact List.getElem_indexOf hidx
      · intro j hj
        exact getD_lt_indexOf_ne (aiOutcomes b) best j hj

/-- C5 witness: a concrete non-terminal board. -/
theorem C5_witness :
    (maxTrace [Cell.x, Cell.o, Cell.x, Cell.o, Cell.x, Cell.o, Cell.e, Cell.e, Cell.e]
        AI (-999) 999).find?
      (fun z => z.2 ==
        (minimax [Cell.x, Cell.o, Cell.x, Cell.o, Cell.x, Cell.o, Cell.e, Cell.e, Cell.e]
          AI true (-999) 999).1) ≠ none ∧
    ai_move [Cell.x, Cell.o, Cell.x, Cell.o, Cell.x, Cell.o, Cell.e, Cell.e, Cell.e] ≠ none := by
  obtain ⟨⟨_, q, hq1, _, _⟩, _, ⟨best, _, hai, _⟩⟩ :=
    C5_first_occurrence_tie_break
      [Cell.x, Cell.o, Cell.x, Cell.o, Cell.x, Cell.o, Cell.e, Cell.e, Cell.e]
      AI (-999) 999 (by decide)
  constructor
  · rw [hq1]; simp
  · rw [hai]; simp


/-! ### Soundness of the bound certificates -/

theorem player_ne_empty {p : Cell} (hp : p = AI ∨ p = HUMAN) : p ≠ EMPTY := by
  rcases hp with h | h <;> rw [h] <;> decide

theorem flip_player (p : Cell) :
    (if p = AI then HUMAN else AI) = AI ∨ (if p = AI then HUMAN else AI) = HUMAN := by
  by_cases h : p = AI <;> simp [h]

/-- What a checked upper-bound certificate certifies, per certificate shape. -/
def ubConcl (bound : Int) : Strat → Board → Cell → List Nat → Prop
  | Strat.leaf, b, p, _ => ∀ mx : Bool, plainVal b p mx ≤ bound
  | Strat.pick _ _, b, p, _ => plainVal b p false ≤ bound
  | Strat.all _, b, p, _ => plainVal b p true ≤ bound
  | Strat.snil, b, p, ms =>
      ∀ m ∈ ms, plainVal (b.set m p) (if p = AI then HUMAN else AI) false ≤ bound
  | Strat.scons _ _, b, p, ms =>
      ∀ m ∈ ms, plainVal (b.set m p) (if p = AI then HUMAN else AI) false ≤ bound

/-- What a checked lower-bound certificate certifies, per certificate shape. -/
def lbConcl (bound : Int) : Strat → Board → Cell → List Nat → Prop
  | Strat.leaf, b, p, _ => ∀ mx : Bool, bound ≤ plainVal b p mx
  | Strat.pick _ _, b, p, _ => bound ≤ plainVal b p true
  | Strat.all _, b, p, _ => bound ≤ plainVal b p false
  | Strat.snil, b, p, ms =>
      ∀ m ∈ ms, bound ≤ plainVal (b.set m p) (if p = AI then HUMAN else AI) true
  | Strat.scons _ _, b, p, ms =>
      ∀ m ∈ ms, bound ≤ plainVal (b.set m p) (if p = AI then HUMAN else AI) true

theorem chkUB_sound (bound : Int) (hbound : -999 < bound) :
    ∀ (st : Strat) (b : Board) (p : Cell) (ms : List Nat),
      (p = AI ∨ p = HUMAN) → chkUB bound st b p ms = true →
      ubConcl bound st b p ms := by
  intro st
  induction st with
  | leaf =>
    intro b p ms _ hchk
    simp only [chkUB] at hchk
    cases hw : winner b with
    | none => rw [hw] at hchk; exact absurd hchk (by simp)
    | some w =>
      rw [hw] at hchk
      intro mx
      rw [plainVal_terminal hw p mx]
      exact of_decide_eq_true hchk
  | pick m s ihs =>
    intro b p ms hp hchk
    simp only [chkUB, Bool.and_eq_true] at hchk
    obtain ⟨⟨⟨⟨h1, h2⟩, h3⟩, h4⟩, h5⟩ := hchk
    have hw : winner b = none := Option.isNone_iff_eq_none.mp h1
    have he : b.getD m EMPTY = EMPTY := by simpa using h2
    have hlt : m < b.length := of_decide_eq_true h3
    have hchild := ihs (b.set m p) (if p = AI then HUMAN else AI) [] (flip_player p) h5
    have hcv : plainVal (b.set m p) (if p = AI then HUMAN else AI) true ≤ bound := by
      cases s with
      | leaf => exact hchild true
      | all sp => exact hchild
      | pick _ _ => exact absurd h4 (by simp [childOfPick])
      | snil => exact absurd h4 (by simp [childOfPick])
      | scons _ _ => exact absurd h4 (by simp [childOfPick])
    show plainVal b p false ≤ bound
    rw [plainVal_min_rec hw (player_ne_empty hp)]
    refine le_trans (foldl_min_le_mem _ _ ?_ _) hcv
    exact List.mem_map_of_mem _ (mem_available_moves.mpr ⟨hlt, he⟩)
  | all sp ihs =>
    intro b p ms hp hchk
    simp only [chkUB, Bool.and_eq_true] at hchk
    obtain ⟨⟨h1, h2⟩, h3⟩ := hchk
    have hw : winner b = none := Option.isNone_iff_eq_none.mp h1
    have hchild := ihs b p (available_moves b) hp h3
    have hall : ∀ m ∈ available_moves b,
        plainVal (b.set m p) (if p = AI then HUMAN else AI) false ≤ bound := by
      cases sp with
      | snil => exact hchild
      | scons _ _ => exact hchild
      | leaf => exact absurd h2 (by simp [isSpine])
      | pick _ _ => exact absurd h2 (by simp [isSpine])
      | all _ => exact absurd h2 (by simp [isSpine])
    show plainVal b p true ≤ bound
    rw [plainVal_max_rec hw (player_ne_empty hp)]
    refine foldl_max_le _ _ hbound.le ?_
    intro x hx
    obtain ⟨m, hm, hxm⟩ := List.mem_map.mp hx
    rw [← hxm]
    exact hall m hm
  | snil =>
    intro b p ms _ hchk
    simp only [chkUB] at hchk
    intro m hm
    rw [List.isEmpty_iff.mp hchk] at hm
    exact absurd hm (List.not_mem_nil m)
  | scons s rest ihs ihr =>
    intro b p ms hp hchk
    cases ms with
    | nil => exact absurd hchk (by simp [chkUB])
    | cons m ms2 =>
      simp only [chkUB, Bool.and_eq_true] at hchk
      obtain ⟨⟨⟨hsh, hcs⟩, hshr⟩, hcr⟩ := hchk
      intro m' hm'
      rcases List.mem_cons.mp hm' with h | h
      · subst h
        have hchild := ihs (b.set m' p) (if p = AI then HUMAN else AI) [] (flip_player p) hcs
        cases s with
        | leaf => exact hchild false
        | pick _ _ => exact hchild
        | all _ => exact absurd hsh (by simp [childOfSpine])
        | snil => exact absurd hsh (by simp [childOfSpine])
        | scons _ _ => exact absurd hsh (by simp [childOfSpine])
      · have hrest := ihr b p ms2 hp hcr
        cases rest with
        | snil => exact hrest m' h
        | scons _ _ => exact hrest m' h
        | leaf => exact absurd hshr (by simp [isSpine])
        | pick _ _ => exact absurd hshr (by simp [isSpine])
        | all _ => exact absurd hshr (by simp [isSpine])

theorem chkLB_sound (bound : Int) (hbound : bound < 999) :
    ∀ (st : Strat) (b : Board) (p : Cell) (ms : List Nat),
      (p = AI ∨ p = HUMAN) → chkLB bound st b p ms = true →
      lbConcl bound st b p ms := by
  intro st
  induction st with
  | leaf =>
    intro b p ms _ hchk
    simp only [chkLB] at hchk
    cases hw : winner b with
    | none => rw [hw] at hchk; exact absurd hchk (by simp)
    | some w =>
      rw [hw] at hchk
      intro mx
      rw [plainVal_terminal hw p mx]
      exact of_decide_eq_true hchk
  | pick m s ihs =>
    intro b p ms hp hchk
    simp only [chkLB, Bool.and_eq_true] at hchk
    obtain ⟨⟨⟨⟨h1, h2⟩, h3⟩, h4⟩, h5⟩ := hchk
    have hw : winner b = none := Option.isNone_iff_eq_none.mp h1
    have he : b.getD m EMPTY = EMPTY := by simpa using h2
    have hlt : m < b.length := of_decide_eq_true h3
    have hchild := ihs (b.set m p) (if p = AI then HUMAN else AI) [] (flip_player p) h5
    have hcv : bound ≤ plainVal (b.set m p) (if p = AI then HUMAN else AI) false := by
      cases s with
      | leaf => exact hchild false
      | all sp => exact hchild
      | pick _ _ => exact absurd h4 (by simp [childOfPick])
      | snil => exact absurd h4 (by simp [childOfPick])
      | scons _ _ => exact absurd h4 (by simp [childOfPick])
    show bound ≤ plainVal b p true
    rw [plainVal_max_rec hw (player_ne_empty hp)]
    refine le_trans hcv (mem_le_foldl_max _ _ ?_ _)
    exact List.mem_map_of_mem _ (mem_available_moves.mpr ⟨hlt, he⟩)
  | all sp ihs =>
    intro b p ms hp hchk
    simp only [chkLB, Bool.and_eq_true] at hchk
    obtain ⟨⟨h1, h2⟩, h3⟩ := hchk
    have hw : winner b = none := Option.isNone_iff_eq_none.mp h1
    have hchild := ihs b p (available_moves b) hp h3
    have hall : ∀ m ∈ available_moves b,
        bound ≤ plainVal (b.set m p) (if p = AI then HUMAN else AI) true := by
      cases sp with
      | snil => exact hchild
      | scons _ _ => exact hchild
      | leaf => exact absurd h2 (by simp [isSpine])
      | pick _ _ => exact absurd h2 (by simp [isSpine])
      | all _ => exact absurd h2 (by simp [isSpine])
    show bound ≤ plainVal b p false
    rw [plainVal_min_rec hw (player_ne_empty hp)]
    refine le_foldl_min _ _ hbound.le ?_
    intro x hx
    obtain ⟨m, hm, hxm⟩ := List.mem_map.mp hx
    rw [← hxm]
    exact hall m hm
  | snil =>
    intro b p ms _ hchk
    simp only [chkLB] at hchk
    intro m hm
    rw [List.isEmpty_iff.mp hchk] at hm
    exact absurd hm (List.not_mem_nil m)
  | scons s rest ihs ihr =>
    intro b p ms hp hchk
    cases ms with
    | nil => exact absurd hchk (by simp [chkLB])
    | cons m ms2 =>
      simp only [chkLB, Bool.and_eq_true] at hchk
      obtain ⟨⟨⟨hsh, hcs⟩, hshr⟩, hcr⟩ := hchk
      intro m' hm'
      rcases List.mem_cons.mp hm' with h | h
      · subst h
        have hchild := ihs (b.set m' p) (if p = AI then HUMAN else AI) [] (flip_player p) hcs
        cases s with
        | leaf => exact hchild true
        | pick _ _ => exact hchild
        | all _ => exact absurd hsh (by simp [childOfSpine])
        | snil => exact absurd hsh (by simp [childOfSpine])
        | scons _ _ => exact absurd hsh (by simp [childOfSpine])
      · have hrest := ihr b p ms2 hp hcr
        cases rest with
        | snil => exact hrest m' h
        | scons _ _ => exact hrest m' h
        | leaf => exact absurd hshr (by simp [isSpine])
        | pick _ _ => exact absurd hshr (by simp [isSpine])
        | all _ => exact absurd hshr (by simp [isSpine])


/-! ### Bridges between the pruned search and the plain value -/

/-- The value of the full-window search is the plain minimax value. -/
theorem minimax_fst_eq_plainVal (b : Board) (p : Cell) (mx : Bool) :
    (minimax b p mx (-999) 999).1 = plainVal b p mx :=
  congrArg Prod.fst (pruned_eq_plain b p mx)

/-- The move of the full-window search is the plain minimax move. -/
theorem minimax_snd_eq_plain (b : Board) (p : Cell) (mx : Bool) :
    (minimax b p mx (-999) 999).2 = (minimaxPlain b p mx).2 :=
  congrArg Prod.snd (pruned_eq_plain b p mx)

/-- The plain minimax value is always a game score. -/
theorem plainVal_isScore (b : Board) (p : Cell) (mx : Bool) :
    isScore (plainVal b p mx) := by
  rw [← minimax_fst_eq_plainVal]
  exact minimaxF_isScore (b.count EMPTY + 1) b p mx (-999) 999

/-- The recorded outcomes are the plain values of the child boards. -/
theorem aiOutcomes_eq_plain (b : Board) :
    aiOutcomes b =
      (available_moves b).map (fun m => plainVal (b.set m AI) HUMAN false) := by
  unfold aiOutcomes
  exact List.map_congr_left
    (fun m _ => minimax_fst_eq_plainVal (b.set m AI) HUMAN false)

/-! ### Small list facts used to read off the chosen move -/

theorem max?_cons (a : Int) (l : List Int) :
    (a :: l).max? = some (l.foldl max a) := rfl

theorem getD_indexOf_self : ∀ (l : List Int) (a : Int), a ∈ l →
    l.getD (l.indexOf a) 0 = a := by
  intro l
  induction l with
  | nil => intro a ha; cases ha
  | cons x t ih =>
    intro a ha
    by_cases hx : x = a
    · rw [List.indexOf_cons_eq t hx]; simpa using hx
    · rw [List.indexOf_cons_ne t hx]
      have ha' : a ∈ t := by
        rcases List.mem_cons.mp ha with h | h
        · exact absurd h.symm hx
        · exact h
      simpa using ih a ha'

theorem indexOf_lt_length_of_mem : ∀ (l : List Int) (a : Int), a ∈ l →
    l.indexOf a < l.length := by
  intro l
  induction l with
  | nil => intro a ha; cases ha
  | cons x t ih =>
    intro a ha
    by_cases hx : x = a
    · rw [List.indexOf_cons_eq t hx]; simp
    · rw [List.indexOf_cons_ne t hx]
      have ha' : a ∈ t := by
        rcases List.mem_cons.mp ha with h | h
        · exact absurd h.symm hx
        · exact h
      simpa using ih a ha'

theorem getD_mem_of_lt {α : Type} : ∀ (l : List α) (d : α) (j : Nat),
    j < l.length → l.getD j d ∈ l := by
  intro l
  induction l with
  | nil => intro d j hj; exact absurd hj (by simp)
  | cons x t ih =>
    intro d j hj
    cases j with
    | zero => simp
    | succ k =>
      have hk : k < t.length := by simpa using hj
      simpa using Or.inr (ih d k hk)

theorem map_getD_comm (f : Nat → Int) : ∀ (l : List Nat) (j : Nat),
    j < l.length → (l.map f).getD j 0 = f (l.getD j 0) := by
  intro l
  induction l with
  | nil => intro j hj; exact absurd hj (by simp)
  | cons x t ih =>
    intro j hj
    cases j with
    | zero => simp
    | succ k =>
      have hk : k < t.length := by simpa using hj
      simpa using ih k hk

/-! ### Reading off the result of `ai_move` -/

/-- With a recorded maximum, `ai_move` returns the first candidate attaining
it, paired with the probability figure. -/
theorem ai_move_eq_of_max (b : Board) (best : Int)
    (h : (aiOutcomes b).max? = some best) :
    ai_move b =
      some ((available_moves b).getD ((aiOutcomes b).indexOf best) 0, aiProb b) := by
  unfold ai_move
  rw [h]

/-! ### The move reported by the plain minimizing search attains the value -/

theorem plainMinLoop_attains (rec : Board → Cell → Bool → Int × Option Nat)
    (board : Board) (player : Cell) :
    ∀ (ms : List Nat) (best : Int) (bestMv : Option Nat),
      ((plainMinLoop rec board player ms best bestMv).2 = bestMv ∧
       (plainMinLoop rec board player ms best bestMv).1 = best) ∨
      (∃ m ∈ ms, (plainMinLoop rec board player ms best bestMv).2 = some m ∧
       (plainMinLoop rec board player ms best bestMv).1 =
         (rec (board.set m player) (if player = AI then HUMAN else AI) true).1) := by
  intro ms
  induction ms with
  | nil => intro best bestMv; left; exact ⟨rfl, rfl⟩
  | cons m rest ih =>
    intro best bestMv
    rw [plainMinLoop_cons]
    by_cases h : (rec (board.set m player) (if player = AI then HUMAN else AI) true).1 < best
    · rw [if_pos h]
      rcases ih (rec (board.set m player) (if player = AI then HUMAN else AI) true).1 (some m) with
        ⟨h2, h1⟩ | ⟨m', hm', h2, h1⟩
      · right; exact ⟨m, List.mem_cons_self m rest, h2, h1⟩
      · right; exact ⟨m', List.mem_cons_of_mem m hm', h2, h1⟩
    · rw [if_neg h]
      rcases ih best bestMv with hl | ⟨m', hm', h2, h1⟩
      · left; exact hl
      · right; exact ⟨m', List.mem_cons_of_mem m hm', h2, h1⟩

theorem minimaxPlain_min_parts {b : Board} {p : Cell} (hw : winner b = none) :
    minimaxPlain b p false =
      plainMinLoop (plainF (b.count EMPTY)) b p (available_moves b) 999 none := by
  unfold minimaxPlain plainF
  rw [hw]
  simp only [Bool.false_eq_true, if_false]

/-- At a non-terminal minimizing position the plain search reports a move,
the move is available, and its child value equals the position value. -/
theorem plainMin_move {b : Board} {p : Cell} (hw : winner b = none)
    (hp : p ≠ EMPTY) :
    ∃ m ∈ available_moves b, (minimaxPlain b p false).2 = some m ∧
      plainVal (b.set m p) (if p = AI then HUMAN else AI) true =
        plainVal b p false := by
  have hparts : minimaxPlain b p false =
      plainMinLoop (plainF (b.count EMPTY)) b p (available_moves b) 999 none :=
    minimaxPlain_min_parts hw
  have hval : plainVal b p false =
      (plainMinLoop (plainF (b.count EMPTY)) b p (available_moves b) 999 none).1 := by
    unfold plainVal; rw [hparts]
  have hsc := plainVal_isScore b p false
  rcases plainMinLoop_attains (plainF (b.count EMPTY)) b p (available_moves b) 999 none with
    ⟨h2, h1⟩ | ⟨m, hm, h2, h1⟩
  · rw [hval, h1] at hsc
    rcases hsc with h | h | h <;> exact absurd h (by decide)
  · refine ⟨m, hm, ?_, ?_⟩
    · rw [hparts]; exact h2
    · obtain ⟨hlt, he⟩ := mem_available_moves.mp hm
      have hcnt := count_set_of_empty b m p hlt he hp
      rw [hval, h1]
      unfold plainVal minimaxPlain
      rw [hcnt]

/-! ### One turn of each side preserves a non-negative position value -/

/-- One automated-side turn: from a non-terminal board whose maximizing value
is non-negative, `ai_move` plays an available move whose child board keeps a
non-negative minimizing value. -/
theorem aiTurn_step {b : Board} (hw : winner b = none)
    (hv : 0 ≤ plainVal b AI true) :
    ∃ m ∈ available_moves b, aiTurn b = b.set m AI ∧
      0 ≤ plainVal (b.set m AI) HUMAN false := by
  have hne : available_moves b ≠ [] :=
    available_moves_ne_nil (winner_none_contains hw)
  have hout : aiOutcomes b =
      (available_moves b).map (fun m => plainVal (b.set m AI) HUMAN false) :=
    aiOutcomes_eq_plain b
  obtain ⟨best, hmax⟩ : ∃ best, (aiOutcomes b).max? = some best := by
    cases ho : aiOutcomes b with
    | nil =>
      rw [hout] at ho
      exact absurd (List.map_eq_nil_iff.mp ho) hne
    | cons x t => exact ⟨t.foldl max x, rfl⟩
  obtain ⟨hbmem, hble⟩ := max?_spec _ best hmax
  have hamove := ai_move_eq_of_max b best hmax
  have hidxlt : (aiOutcomes b).indexOf best < (available_moves b).length := by
    have h1 := indexOf_lt_length_of_mem _ best hbmem
    rw [hout, List.length_map] at h1
    rw [hout]
    exact h1
  have hmstar : (available_moves b).getD ((aiOutcomes b).indexOf best) 0 ∈
      available_moves b :=
    getD_mem_of_lt _ 0 _ hidxlt
  have hchildgen : ∀ j, j < (available_moves b).length →
      (aiOutcomes b).getD j 0 = best →
      plainVal (b.set ((available_moves b).getD j 0) AI) HUMAN false = best := by
    intro j hj h1
    rw [hout, map_getD_comm _ _ _ hj] at h1
    exact h1
  have hchild : plainVal
      (b.set ((available_moves b).getD ((aiOutcomes b).indexOf best) 0) AI)
      HUMAN false = best :=
    hchildgen _ hidxlt (getD_indexOf_self _ best hbmem)
  have hbestpos : 0 ≤ best := by
    have hrec := plainVal_max_rec hw (show AI ≠ EMPTY by decide)
    have hif : (if AI = AI then HUMAN else AI) = HUMAN := rfl
    rw [hif] at hrec
    rcases foldl_max_mem ((available_moves b).map
        (fun m => plainVal (b.set m AI) HUMAN false)) (-999) with hm | hm
    · rw [hm] at hrec
      rw [hrec] at hv
      exact absurd hv (by decide)
    · have hle : ((available_moves b).map
          (fun m => plainVal (b.set m AI) HUMAN false)).foldl max (-999) ≤ best := by
        apply hble
        rw [hout]
        exact hm
      rw [← hrec] at hle
      exact le_trans hv hle
  refine ⟨(available_moves b).getD ((aiOutcomes b).indexOf best) 0, hmstar, ?_, ?_⟩
  · unfold aiTurn
    rw [hamove]
  · rw [hchild]
    exact hbestpos

/-- One optimal-opponent turn: from a non-terminal board whose minimizing
value is non-negative, the search reply keeps a non-negative maximizing
value. -/
theorem oppTurn_step {b : Board} (hw : winner b = none)
    (hv : 0 ≤ plainVal b HUMAN false) :
    ∃ m ∈ available_moves b, oppTurn b = b.set m HUMAN ∧
      0 ≤ plainVal (b.set m HUMAN) AI true := by
  obtain ⟨m, hm, h2, h1⟩ := plainMin_move hw (show HUMAN ≠ EMPTY by decide)
  refine ⟨m, hm, ?_, ?_⟩
  · unfold oppTurn
    rw [minimax_snd_eq_plain, h2]
  · have hif : (if HUMAN = AI then HUMAN else AI) = AI := rfl
    rw [hif] at h1
    rw [h1]
    exact hv

/-- Terminal boards with a non-negative score were not lost: the outcome is a
draw or a win for the automated side. -/
theorem score_nonneg_cases {w : Result} (h : 0 ≤ score_for AI (some w)) :
    w = Result.draw ∨ w = Result.side AI := by
  cases w with
  | draw => left; rfl
  | side c =>
    by_cases hc : c = AI
    · right; rw [hc]
    · exfalso
      have hs : score_for AI (some (Result.side c)) = -1 := by
        show (if c = AI then (1 : Int) else -1) = -1
        rw [if_neg hc]
      rw [hs] at h
      exact absurd h (by decide)

theorem playGame_succ_terminal {n : Nat} {ai : Bool} {b : Board} {w : Result}
    (hw : winner b = some w) : playGame (n+1) ai b = b := by
  show (match winner b with
    | some _ => b
    | none => if ai then playGame n false (aiTurn b)
              else playGame n true (oppTurn b)) = b
  rw [hw]

theorem playGame_succ_none_true {n : Nat} {b : Board}
    (hw : winner b = none) :
    playGame (n+1) true b = playGame n false (aiTurn b) := by
  show (match winner b with
    | some _ => b
    | none => if true then playGame n false (aiTurn b)
              else playGame n true (oppTurn b)) = playGame n false (aiTurn b)
  rw [hw]
  rfl

theorem playGame_succ_none_false {n : Nat} {b : Board}
    (hw : winner b = none) :
    playGame (n+1) false b = playGame n true (oppTurn b) := by
  show (match winner b with
    | some _ => b
    | none => if false then playGame n false (aiTurn b)
              else playGame n true (oppTurn b)) = playGame n true (oppTurn b)
  rw [hw]
  rfl

/-- The self-play simulation, run with enough fuel to fill the board, always
ends at a terminal board whose score is non-negative for the automated side,
provided the side to move starts with a non-negative position value. -/
theorem playGame_safe : ∀ (fuel : Nat) (ai : Bool) (b : Board),
    0 ≤ plainVal b (cond ai AI HUMAN) ai →
    b.count EMPTY ≤ fuel →
    ∃ w, winner (playGame fuel ai b) = some w ∧ 0 ≤ score_for AI (some w) := by
  intro fuel
  induction fuel with
  | zero =>
    intro ai b hv hcnt
    have hcnt0 : b.count EMPTY = 0 := Nat.le_zero.mp hcnt
    cases hw : winner b with
    | none => exact absurd (winner_none_contains hw) (List.count_eq_zero.mp hcnt0)
    | some w =>
      refine ⟨w, hw, ?_⟩
      rw [← plainVal_terminal hw (cond ai AI HUMAN) ai]
      exact hv
  | succ n ih =>
    intro ai b hv hcnt
    cases hw : winner b with
    | some w =>
      rw [playGame_succ_terminal hw]
      refine ⟨w, hw, ?_⟩
      rw [← plainVal_terminal hw (cond ai AI HUMAN) ai]
      exact hv
    | none =>
      cases ai with
      | true =>
        obtain ⟨m, hm, hstep, hv'⟩ := aiTurn_step hw hv
        obtain ⟨hlt, he⟩ := mem_available_moves.mp hm
        have hcnt' := count_set_of_empty b m AI hlt he (by decide)
        rw [playGame_succ_none_true hw, hstep]
        exact ih false (b.set m AI) hv' (by omega)
      | false =>
        obtain ⟨m, hm, hstep, hv'⟩ := oppTurn_step hw hv
        obtain ⟨hlt, he⟩ := mem_available_moves.mp hm
        have hcnt' := count_set_of_empty b m HUMAN hlt he (by decide)
        rw [playGame_succ_none_false hw, hstep]
        exact ih true (b.set m HUMAN) hv' (by omega)

/-! ### Certified concrete position values

Each value below is pinned by certificates checked by evaluation and read
through the checker soundness theorems: the nine child values of the empty
board, and lower bounds showing the empty board is not lost for the
automated side whichever side moves first. -/

theorem c9val0 : (minimax ((List.replicate 9 EMPTY).set 0 AI) HUMAN false (-999) 999).1 = 0 :=
  (minimax_fst_eq_plainVal ((List.replicate 9 EMPTY).set 0 AI) HUMAN false).trans
    (le_antisymm
      (chkUB_sound 0 (by decide) certC9u0 ((List.replicate 9 EMPTY).set 0 AI) HUMAN [] (Or.inr rfl) (by decide))
      (chkLB_sound 0 (by decide) certC9l0 ((List.replicate 9 EMPTY).set 0 AI) HUMAN [] (Or.inr rfl) (by decide)))

theorem c9val1 : (minimax ((List.replicate 9 EMPTY).set 1 AI) HUMAN false (-999) 999).1 = 0 :=
  (minimax_fst_eq_plainVal ((List.replicate 9 EMPTY).set 1 AI) HUMAN false).trans
    (le_antisymm
      (chkUB_sound 0 (by decide) certC9u1 ((List.replicate 9 EMPTY).set 1 AI) HUMAN [] (Or.inr rfl) (by decide))
      (chkLB_sound 0 (by decide) certC9l1 ((List.replicate 9 EMPTY).set 1 AI) HUMAN [] (Or.inr rfl) (by decide)))

theorem c9val2 : (minimax ((List.replicate 9 EMPTY).set 2 AI) HUMAN false (-999) 999).1 = 0 :=
  (minimax_fst_eq_plainVal ((List.replicate 9 EMPTY).set 2 AI) HUMAN false).trans
    (le_antisymm
      (chkUB_sound 0 (by decide) certC9u2 ((List.replicate 9 EMPTY).set 2 AI) HUMAN [] (Or.inr rfl) (by decide))
      (chkLB_sound 0 (by decide) certC9l2 ((List.replicate 9 EMPTY).set 2 AI) HUMAN [] (Or.inr rfl) (by decide)))

theorem c9val3 : (minimax ((List.replicate 9 EMPTY).set 3 AI) HUMAN false (-999) 999).1 = 0 :=
  (minimax_fst_eq_plainVal ((List.replicate 9 EMPTY).set 3 AI) HUMAN false).trans
    (le_antisymm
      (chkUB_sound 0 (by decide) certC9u3 ((List.replicate 9 EMPTY).set 3 AI) HUMAN [] (Or.inr rfl) (by decide))
      (chkLB_sound 0 (by decide) certC9l3 ((List.replicate 9 EMPTY).set 3 AI) HUMAN [] (Or.inr rfl) (by decide)))

theorem c9val4 : (minimax ((List.replicate 9 EMPTY).set 4 AI) HUMAN false (-999) 999).1 = 0 :=
  (minimax_fst_eq_plainVal ((List.replicate 9 EMPTY).set 4 AI) HUMAN false).trans
    (le_antisymm
      (chkUB_sound 0 (by decide) certC9u4 ((List.replicate 9 EMPTY).set 4 AI) HUMAN [] (Or.inr rfl) (by decide))
      (chkLB_sound 0 (by decide) certC9l4 ((List.replicate 9 EMPTY).set 4 AI) HUMAN [] (Or.inr rfl) (by decide)))

theorem c9val5 : (minimax ((List.replicate 9 EMPTY).set 5 AI) HUMAN false (-999) 999).1 = 0 :=
  (minimax_fst_eq_plainVal ((List.replicate 9 EMPTY).set 5 AI) HUMAN false).trans
    (le_antisymm
      (chkUB_sound 0 (by decide) certC9u5 ((List.replicate 9 EMPTY).set 5 AI) HUMAN [] (Or.inr rfl) (by decide))
      (chkLB_sound 0 (by decide) certC9l5 ((List.replicate 9 EMPTY).set 5 AI) HUMAN [] (Or.inr rfl) (by decide)))

theorem c9val6 : (minimax ((List.replicate 9 EMPTY).set 6 AI) HUMAN false (-999) 999).1 = 0 :=
  (minimax_fst_eq_plainVal ((List.replicate 9 EMPTY).set 6 AI) HUMAN false).trans
    (le_antisymm
      (chkUB_sound 0 (by decide) certC9u6 ((List.replicate 9 EMPTY).set 6 AI) HUMAN [] (Or.inr rfl) (by decide))
      (chkLB_sound 0 (by decide) certC9l6 ((List.replicate 9 EMPTY).set 6 AI) HUMAN [] (Or.inr rfl) (by decide)))

theorem c9val7 : (minimax ((List.replicate 9 EMPTY).set 7 AI) HUMAN false (-999) 999).1 = 0 :=
  (minimax_fst_eq_plainVal ((List.replicate 9 EMPTY).set 7 AI) HUMAN false).trans
    (le_antisymm
      (chkUB_sound 0 (by decide) certC9u7 ((List.replicate 9 EMPTY).set 7 AI) HUMAN [] (Or.inr rfl) (by decide))
      (chkLB_sound 0 (by decide) certC9l7 ((List.replicate 9 EMPTY).set 7 AI) HUMAN [] (Or.inr rfl) (by decide)))

theorem c9val8 : (minimax ((List.replicate 9 EMPTY).set 8 AI) HUMAN false (-999) 999).1 = 0 :=
  (minimax_fst_eq_plainVal ((List.replicate 9 EMPTY).set 8 AI) HUMAN false).trans
    (le_antisymm
      (chkUB_sound 0 (by decide) certC9u8 ((List.replicate 9 EMPTY).set 8 AI) HUMAN [] (Or.inr rfl) (by decide))
      (chkLB_sound 0 (by decide) certC9l8 ((List.replicate 9 EMPTY).set 8 AI) HUMAN [] (Or.inr rfl) (by decide)))

theorem lbEmptyAI : (0 : Int) ≤ plainVal (List.replicate 9 EMPTY) AI true :=
  chkLB_sound 0 (by decide) certC8a (List.replicate 9 EMPTY) AI [] (Or.inl rfl) (by decide)

theorem lbEmptyHuman : (0 : Int) ≤ plainVal (List.replicate 9 EMPTY) HUMAN false :=
  chkLB_sound 0 (by decide) certC8o (List.replicate 9 EMPTY) HUMAN [] (Or.inr rfl) (by decide)


/-! ### The empty board: candidate moves, outcomes, probability, move -/

theorem available_moves_empty_board :
    available_moves (List.replicate 9 EMPTY) = [0, 1, 2, 3, 4, 5, 6, 7, 8] := by
  decide

theorem aiOutcomes_empty :
    aiOutcomes (List.replicate 9 EMPTY) = [0, 0, 0, 0, 0, 0, 0, 0, 0] := by
  unfold aiOutcomes
  rw [available_moves_empty_board]
  simp only [List.map_cons, List.map_nil]
  rw [c9val0, c9val1, c9val2, c9val3, c9val4, c9val5, c9val6, c9val7, c9val8]

theorem aiProb_empty : aiProb (List.replicate 9 EMPTY) = 1/2 := by
  have hlen : ([0, 0, 0, 0, 0, 0, 0, 0, 0] : List Int).length = 9 := rfl
  have hc1 : ([0, 0, 0, 0, 0, 0, 0, 0, 0] : List Int).count 1 = 0 := by decide
  have hc0 : ([0, 0, 0, 0, 0, 0, 0, 0, 0] : List Int).count 0 = 9 := by decide
  simp only [aiProb]
  rw [aiOutcomes_empty, hlen, hc1, hc0]
  norm_num

theorem ai_move_empty : ai_move (List.replicate 9 EMPTY) = some (0, 1/2) := by
  have hmax : (aiOutcomes (List.replicate 9 EMPTY)).max? = some 0 := by
    rw [aiOutcomes_empty]
    rfl
  rw [ai_move_eq_of_max _ 0 hmax, aiOutcomes_empty,
    available_moves_empty_board, aiProb_empty]
  rfl


/-- C8: simulating a full game from the all-Empty board, the automated side
playing the move returned by `ai_move` and the opponent playing the
minimax-optimal reply, always terminates in a draw or a win for the
automated side — never a loss — whichever side moves first. -/
theorem C8_no_loss :
    (∃ w, winner (playGame 9 true (List.replicate 9 EMPTY)) = some w ∧
        (w = Result.draw ∨ w = Result.side AI)) ∧
    (∃ w, winner (playGame 9 false (List.replicate 9 EMPTY)) = some w ∧
        (w = Result.draw ∨ w = Result.side AI)) := by
  constructor
  · obtain ⟨w, hw, hs⟩ :=
      playGame_safe 9 true (List.replicate 9 EMPTY) lbEmptyAI (by decide)
    exact ⟨w, hw, score_nonneg_cases hs⟩
  · obtain ⟨w, hw, hs⟩ :=
      playGame_safe 9 false (List.replicate 9 EMPTY) lbEmptyHuman (by decide)
    exact ⟨w, hw, score_nonneg_cases hs⟩

/-- C9 counterexample: on the all-Empty board `ai_move` does not return
probability 1.0 — it returns no pair whose probability component is 1. -/
theorem C9_counterexample :
    ¬ ∃ m : Nat, ai_move (List.replicate 9 EMPTY) = some (m, 1) := by
  intro ⟨m, hm⟩
  rw [ai_move_empty] at hm
  injection hm with h
  injection h with h1 h2
  exact absurd h2 (by norm_num)

/-- C9 (amended): on the all-Empty board `ai_move` returns move 0 with
probability exactly 1/2 = 0.5, not 1.0. -/
theorem C9_empty_board_result :
    ai_move (List.replicate 9 EMPTY) = some (0, 1/2) :=
  ai_move_empty

end TicTacToe
